import Mathlib

/-!
# Transient filter of raycloudtools: a shallow embedding

Embedding of `raylib/raytransientfilter.cpp`, of `main` of
`raycloudtools/raytransients/raytransients.cpp` and of the chunk callback of
`decimateTemporal` in `raylib/raydecimation.cpp`.

Modelling conventions.
* A C++ `double` is an exact rational `ℚ` (no rounding, no NaN, no infinity);
  where the source relies on IEEE division by zero (`fillRayGrid`) the
  quotient is an explicit extended value.
* `size_t`, `unsigned` and container sizes are `Nat` (counts never reach the
  machine word size on a cloud that fits in memory).
* An `int` cell index is an `Int`: indices and single steps `index += 1` stay
  inside the 32-bit range on every grid that fits in memory.  The squared norm
  of an index difference (`squaredNorm()`, lines 375 and 381) leaves that range
  for a ray that spans 46341 cells or more; it is reduced to 32 bits (`toInt32`,
  the wrap of two's-complement hardware; the overflow is undefined in C++).
* `std::vector<T>` is `List T`; `v[i]` is `v.getD i default`, `v[i] = a` is
  `v.set i a`, `emplace_back` appends at the end.  Out-of-range accesses are
  undefined behaviour in the source; here they read the default value and
  write nothing (in `decimateTemporal` every access is checked instead).
* The filter object is an explicit state record; its methods are state
  transformers.
-/

namespace ray

/-! ## Data model -/

/-- The type `Eigen::Vector3d`. -/
structure Vector3d where
  x : ℚ
  y : ℚ
  z : ℚ
deriving DecidableEq, Inhabited

/-- The type `Eigen::Vector3i`. -/
structure Vector3i where
  x : Int
  y : Int
  z : Int
deriving DecidableEq, Inhabited

/-- Value of `Eigen::Vector3d::Zero()`. -/
def Vector3d.zero : Vector3d := ⟨0, 0, 0⟩

/-- Componentwise `a + b`. -/
def Vector3d.add (a b : Vector3d) : Vector3d := ⟨a.x + b.x, a.y + b.y, a.z + b.z⟩

/-- Componentwise `a - b`. -/
def Vector3d.sub (a b : Vector3d) : Vector3d := ⟨a.x - b.x, a.y - b.y, a.z - b.z⟩

/-- Division of every component by a scalar: `a / s`. -/
def Vector3d.divScalar (a : Vector3d) (s : ℚ) : Vector3d := ⟨a.x / s, a.y / s, a.z / s⟩

/-- Colour quad `ray::RGBA`; each channel is a `uint8_t`. -/
structure RGBA where
  red : Nat
  green : Nat
  blue : Nat
  alpha : Nat
deriving DecidableEq, Inhabited

/-- The ray cloud `ray::Cloud`: four parallel arrays. -/
structure Cloud where
  starts : List Vector3d
  ends : List Vector3d
  times : List ℚ
  colours : List RGBA
deriving DecidableEq, Inhabited

/-- The empty cloud. -/
def Cloud.empty : Cloud := ⟨[], [], [], []⟩

/-- Method `Cloud::rayCount()`: the number of end points. -/
def Cloud.rayCount (c : Cloud) : Nat := c.ends.length

/-- The four parallel arrays of a cloud have the same length. -/
def Cloud.WellFormed (c : Cloud) : Prop :=
  c.starts.length = c.ends.length ∧ c.times.length = c.ends.length ∧
    c.colours.length = c.ends.length

/-- Modelled from the spec: `Cloud::rayBounded` (declared in raycloud.h): the loader
tags an unbounded ray with alpha 0. -/
def Cloud.rayBounded (c : Cloud) (i : Nat) : Bool :=
  decide ((c.colours.getD i default).alpha ≠ 0)

/-- The enum `ray::MergeType` (the source spells `Mininum`). -/
inductive MergeType where
  | Oldest
  | Newest
  | Mininum
  | Maximum
deriving DecidableEq, Inhabited

/-- The enum `ray::TransientFilterStrategy`. -/
inductive TransientFilterStrategy where
  | EllipseGrid
  | RayGrid
deriving DecidableEq, Inhabited

/-- The enum `ray::IntersectResult`. -/
inductive IntersectResult where
  | Miss
  | Passthrough
  | Hit
deriving DecidableEq, Inhabited

/-- Modelled from the spec: the fields of `ray::Ellipsoid` (declared in rayellipsoid.h)
that the filter reads and writes. -/
structure Ellipsoid where
  pos : Vector3d
  vectors : Vector3d × Vector3d × Vector3d
  extents : Vector3d
  time : ℚ
  opacity : ℚ
  planarity : ℚ
  num_rays : Nat
  num_gone : Nat
  transient : Bool
deriving DecidableEq, Inhabited

/-- Modelled from the spec: the scratch record `ray::EllipsoidMark` (declared in
raytransientfilter.h): hits counter, first and last intersection time, pass-through ids. -/
structure EllipsoidMark where
  id : Nat
  hits : Nat
  first_intersection_time : ℚ
  last_intersection_time : ℚ
  pass_through_ids : List Nat
deriving DecidableEq, Inhabited

/-- The struct `ray::TransientFilterConfig`. -/
structure TransientFilterConfig where
  voxel_size : ℚ
  num_rays_filter_threshold : ℚ
  merge_type : MergeType
  strategy : TransientFilterStrategy
  colour_cloud : Bool
deriving DecidableEq, Inhabited

/-- Data members of `ray::TransientFilter`. -/
structure TransientFilter where
  config_ : TransientFilterConfig
  transient_ : Cloud
  fixed_ : Cloud
  ellipsoids_ : List Ellipsoid
  ellipsoids_marks_ : List EllipsoidMark
  transient_marks_ : List Bool
deriving DecidableEq, Inhabited

/-- Largest finite double, `std::numeric_limits<double>::max()`. -/
def DBL_MAX : ℚ := 2 ^ 1024 - 2 ^ 971

/-- Conversion `(uint8_t)d` of a double: truncation toward zero, kept in one byte. -/
def toUInt8 (d : ℚ) : Nat := (Int.tdiv d.num d.den % 256).toNat

/-! ## finaliseFilter (raytransientfilter.cpp:647-676) -/

/-- The four `emplace_back` calls that append one ray to a cloud. -/
def Cloud.emplaceBack (c : Cloud) (s e : Vector3d) (t : ℚ) (col : RGBA) : Cloud :=
  { starts := c.starts ++ [s], ends := c.ends ++ [e], times := c.times ++ [t],
    colours := c.colours ++ [col] }

/-- Colour given to output ray `i` (lines 653-659). -/
def finaliseColour (f : TransientFilter) (cloud : Cloud) (i : Nat) : RGBA :=
  let col := cloud.colours.getD i default
  if f.config_.colour_cloud then
    let e := f.ellipsoids_.getD i default
    { col with
      red := toUInt8 ((1 - e.planarity) * 255)
      blue := toUInt8 (e.opacity * 255)
      green := toUInt8 ((e.num_gone : ℚ) / ((e.num_gone : ℚ) + 10) * 255) }
  else col

/-- The branch condition of line 661. -/
def finaliseIsTransient (f : TransientFilter) (transient_marks : List Bool) (i : Nat) : Bool :=
  (f.ellipsoids_.getD i default).transient || transient_marks.getD i false

/-- One iteration of the loop of `finaliseFilter` (lines 653-674). -/
def finaliseStep (cloud : Cloud) (transient_marks : List Bool) (f : TransientFilter) (i : Nat) :
    TransientFilter :=
  let col := finaliseColour f cloud i
  let s := cloud.starts.getD i default
  let e := cloud.ends.getD i default
  let t := cloud.times.getD i default
  if finaliseIsTransient f transient_marks i then
    { f with transient_ := f.transient_.emplaceBack s e t col }
  else
    { f with fixed_ := f.fixed_.emplaceBack s e t col }

/-- The method `TransientFilter::finaliseFilter`: loop over `i < ellipsoids_.size()`. -/
def finaliseFilter (f : TransientFilter) (cloud : Cloud) (transient_marks : List Bool) :
    TransientFilter :=
  (List.range f.ellipsoids_.length).foldl (finaliseStep cloud transient_marks) f

/-! ## The transient classifier (raytransientfilter.cpp:151-266 and 485-607) -/

/-- The counters `num_before`, `num_after` and `misses` of the loop at lines 166-180
(and 512-526). -/
structure PassCounts where
  num_before : Nat
  num_after : Nat
  misses : ℚ
deriving DecidableEq, Inhabited

/-- One iteration of the loop at lines 166-180 (and 512-526). -/
def countStep (times : List ℚ) (first_intersection_time last_intersection_time : ℚ)
    (c : PassCounts) (ray_id : Nat) : PassCounts :=
  if times.getD ray_id default > last_intersection_time then
    { c with num_after := c.num_after + 1 }
  else if times.getD ray_id default < first_intersection_time then
    { c with num_before := c.num_before + 1 }
  else
    { c with misses := c.misses + 1 }

/-- The loop at lines 166-180 (and 512-526) over the pass-through ids. -/
def countPassThrough (times : List ℚ) (first_intersection_time last_intersection_time : ℚ)
    (pass_through_ids : List Nat) : PassCounts :=
  pass_through_ids.foldl (countStep times first_intersection_time last_intersection_time)
    ⟨0, 0, 0⟩

/-- The merge policy, lines 200-234 (and 546-576): `none` is the early `return`
(`continue`), `some b` is the value `b` of `remove_ellipsoid`. -/
def removeDecision (merge_type : MergeType) (num_before num_after : Nat)
    (sequence_length : ℚ) : Option Bool :=
  if merge_type = MergeType.Oldest ∨ merge_type = MergeType.Newest then
    if ((max num_before num_after : Nat) : ℚ) < sequence_length then none
    else if merge_type = MergeType.Oldest then
      some (decide ((num_before : ℚ) ≥ sequence_length))
    else
      some (decide ((num_after : ℚ) ≥ sequence_length))
  else
    if ((num_before + num_after : Nat) : ℚ) < sequence_length then none
    else some (decide (merge_type = MergeType.Mininum))

/-- The test of lines 258-259 (and 600-601) that guards the write of a ray mark. -/
def rayEligible (times : List ℚ) (self_transient : Bool)
    (first_intersection_time last_intersection_time : ℚ) (ray_id : Nat) : Bool :=
  !self_transient || decide (times.getD ray_id default < first_intersection_time) ||
    decide (times.getD ray_id default > last_intersection_time)

/-- The ray marking loop, lines 245-264 (and 587-606), started with accumulator `d`
on the remaining pass-through ids. -/
def markRays (times : List ℚ) (self_transient : Bool)
    (first_intersection_time last_intersection_time opacity : ℚ) :
    ℚ → List Nat → List Bool → List Bool
  | _, [], transients => transients
  | d, ray_id :: rest, transients =>
    if d + opacity ≥ 1 then
      markRays times self_transient first_intersection_time last_intersection_time opacity
        (d + opacity - 1) rest
        (if rayEligible times self_transient first_intersection_time last_intersection_time
            ray_id then transients.set ray_id true else transients)
    else
      markRays times self_transient first_intersection_time last_intersection_time opacity
        (d + opacity) rest transients

/-- Result of an intersection pass over one ellipsoid: the local variables `hits`,
`first_intersection_time`, `last_intersection_time` and the list `pass_through_ids`. -/
structure HitStats where
  hits : Nat
  first_intersection_time : ℚ
  last_intersection_time : ℚ
  pass_through_ids : List Nat
deriving DecidableEq, Inhabited

/-- Lines 152-156 of `mark`: `num_rays` and the first opacity estimate. -/
def markOpacity (ellipsoid : Ellipsoid) (num_rays : ℚ) (self_transient : Bool)
    (st : HitStats) : Ellipsoid :=
  let ellipsoid := { ellipsoid with num_rays := st.hits + st.pass_through_ids.length }
  if num_rays = 0 ∨ self_transient = true then
    { ellipsoid with
      opacity := (st.hits : ℚ) / ((st.hits : ℚ) + (st.pass_through_ids.length : ℚ)) }
  else ellipsoid

/-- The condition of the early return at line 157, on the ellipsoid after lines 152-156. -/
def markEarlyReturn (ellipsoid : Ellipsoid) (num_rays : ℚ) : Bool :=
  decide (ellipsoid.num_rays = 0 ∨ ellipsoid.opacity = 0 ∨ num_rays = 0)

/-- The literal `1e-8` of lines 181 and 527. -/
def unbiasEpsilon : ℚ := 1 / 100000000

/-- State after the before/after counting of lines 161-198 (and 507-544). -/
structure Counted where
  ellipsoid : Ellipsoid
  num_before : Nat
  num_after : Nat
deriving DecidableEq, Inhabited

/-- Lines 161-198 of `mark` (and 507-544): counts of pass-through rays before and after the
hits, and in self-transient mode the second opacity estimate and `num_gone`. -/
def countBeforeAfter (ellipsoid : Ellipsoid) (cloud : Cloud) (self_transient : Bool)
    (st : HitStats) : Counted :=
  if self_transient then
    let c := countPassThrough cloud.times st.first_intersection_time
      st.last_intersection_time st.pass_through_ids
    let h : ℚ := (st.hits : ℚ) + unbiasEpsilon - 1
    { ellipsoid := { ellipsoid with opacity := h / (h + c.misses),
                                    num_gone := c.num_before + c.num_after }
      num_before := c.num_before
      num_after := c.num_after }
  else if st.pass_through_ids.length > 0 then
    if cloud.times.getD (st.pass_through_ids.getD 0 default) default > ellipsoid.time then
      { ellipsoid := ellipsoid, num_before := 0, num_after := st.pass_through_ids.length }
    else
      { ellipsoid := ellipsoid, num_before := st.pass_through_ids.length, num_after := 0 }
  else
    { ellipsoid := ellipsoid, num_before := 0, num_after := 0 }

/-- The value `sequence_length` of line 200 (and 546). -/
def sequenceLength (num_rays : ℚ) (c : Counted) : ℚ := num_rays / c.ellipsoid.opacity

/-- Lines 200-265 of `mark` (and 546-607): the policy and the ray marking, on the state
left by the counting step. -/
def applyPolicy (c : Counted) (transients : List Bool) (cloud : Cloud) (num_rays : ℚ)
    (merge_type : MergeType) (self_transient : Bool) (st : HitStats) :
    Ellipsoid × List Bool :=
  match removeDecision merge_type c.num_before c.num_after (sequenceLength num_rays c) with
  | none => (c.ellipsoid, transients)
  | some true => ({ c.ellipsoid with transient := true }, transients)
  | some false =>
    (c.ellipsoid,
      markRays cloud.times self_transient st.first_intersection_time
        st.last_intersection_time c.ellipsoid.opacity 0 st.pass_through_ids transients)

/-- Lines 151-266 of `EllipsoidTransientMarker::mark`: the classification of one ellipsoid
from its intersection statistics `st`; returns the ellipsoid and the ray marks. -/
def markClassify (ellipsoid : Ellipsoid) (transients : List Bool) (cloud : Cloud)
    (num_rays : ℚ) (merge_type : MergeType) (self_transient : Bool) (st : HitStats) :
    Ellipsoid × List Bool :=
  let ellipsoid := markOpacity ellipsoid num_rays self_transient st
  if markEarlyReturn ellipsoid num_rays then (ellipsoid, transients)
  else
    applyPolicy (countBeforeAfter ellipsoid cloud self_transient st) transients cloud
      num_rays merge_type self_transient st

/-- Lines 495-500 of the update pass: the first opacity estimate.  The test is on the
local ray count `num_rays`, which is not stored in the ellipsoid. -/
def updateOpacity (ellipsoid : Ellipsoid) (self_transient : Bool) (st : HitStats) :
    Ellipsoid :=
  if st.hits + st.pass_through_ids.length = 0 ∨ self_transient = true then
    { ellipsoid with
      opacity := (st.hits : ℚ) / ((st.hits : ℚ) + (st.pass_through_ids.length : ℚ)) }
  else ellipsoid

/-- The condition of the `continue` at line 502. -/
def updateEarlyReturn (ellipsoid : Ellipsoid) (threshold : ℚ) (st : HitStats) : Bool :=
  decide (st.hits + st.pass_through_ids.length = 0 ∨ ellipsoid.opacity = 0 ∨ threshold = 0)

/-- Lines 495-607: the body of the update loop of
`markIntersectedEllipsoidsWithEllipseGrid` for one ellipsoid, from the statistics `st` of
its mark (pass-through ids already sorted). -/
def updateClassify (ellipsoid : Ellipsoid) (transients : List Bool) (cloud : Cloud)
    (threshold : ℚ) (merge_type : MergeType) (self_transient : Bool) (st : HitStats) :
    Ellipsoid × List Bool :=
  let ellipsoid := updateOpacity ellipsoid self_transient st
  if updateEarlyReturn ellipsoid threshold st then (ellipsoid, transients)
  else
    applyPolicy (countBeforeAfter ellipsoid cloud self_transient st) transients cloud
      threshold merge_type self_transient st

/-! ## Collaborators declared outside the embedded file -/

/-- Modelled from the spec: the voxel grid `ray::Grid<size_t>` (declared in raygrid.h): box,
cell width, integer dims and one list of ids per cell. -/
structure Grid where
  box_min : Vector3d
  box_max : Vector3d
  voxel_width : ℚ
  dims : Vector3i
  cells : Int → Int → Int → List Nat

/-- Modelled from the spec: validity of a cell index of `ray::Grid` (raygrid.h), `0 ≤ x < dims[0]`
and so on. -/
def Grid.inBounds (g : Grid) (x y z : Int) : Bool :=
  decide (0 ≤ x ∧ x < g.dims.x ∧ 0 ≤ y ∧ y < g.dims.y ∧ 0 ≤ z ∧ z < g.dims.z)

/-- Modelled from the spec: the constructor of `ray::Grid` (raygrid.h): dims by ceiling division,
every cell empty. -/
def Grid.init (box_min box_max : Vector3d) (voxel_width : ℚ) : Grid :=
  { box_min := box_min
    box_max := box_max
    voxel_width := voxel_width
    dims := ⟨⌈(box_max.x - box_min.x) / voxel_width⌉, ⌈(box_max.y - box_min.y) / voxel_width⌉,
             ⌈(box_max.z - box_min.z) / voxel_width⌉⟩
    cells := fun _ _ _ => [] }

/-- Modelled from the spec: the accessor `Grid::cell(x, y, z).data` (raygrid.h); a cell outside
the grid is the empty cell. -/
def Grid.cell (g : Grid) (x y z : Int) : List Nat :=
  if g.inBounds x y z then g.cells x y z else []

/-- Modelled from the spec: the method `Grid::insert` (raygrid.h): append to a cell, duplicates
allowed; a cell outside the grid is skipped. -/
def Grid.insert (g : Grid) (x y z : Int) (value : Nat) : Grid :=
  if g.inBounds x y z then
    { g with cells := fun a b c =>
        if a = x ∧ b = y ∧ c = z then g.cells a b c ++ [value] else g.cells a b c }
  else g

/-- Clip of one cell coordinate to `[0, dim - 1]`. -/
def clampIndex (v dim : Int) : Int := max 0 (min v (dim - 1))

/-- Modelled from the spec: the method `Grid::index(point, clamp)` (raygrid.h): cell coordinates
of a world point, clipped to `[0, dims - 1]` when `clamp` is set. -/
def Grid.index (g : Grid) (p : Vector3d) (clamp : Bool) : Vector3i :=
  let x : Int := ⌊(p.x - g.box_min.x) / g.voxel_width⌋
  let y : Int := ⌊(p.y - g.box_min.y) / g.voxel_width⌋
  let z : Int := ⌊(p.z - g.box_min.z) / g.voxel_width⌋
  if clamp then ⟨clampIndex x g.dims.x, clampIndex y g.dims.y, clampIndex z g.dims.z⟩
  else ⟨x, y, z⟩

/-- Functions of the repository that the filter calls and that are defined in other files
(rayellipsoid, raygrid.h, rayutils.h); they are parameters of the embedding.
`walkVoxels` gives the cells a ray walk visits, in visiting order. -/
structure External where
  generateEllipsoids : Cloud → List Ellipsoid × Vector3d × Vector3d
  intersect : Ellipsoid → Vector3d → Vector3d → IntersectResult
  walkVoxels : Grid → Vector3d → Vector3d → Bool → List Vector3i
  sgn : ℚ → ℚ

/-- Conversion `(int)d` / `cast<int>()` of a double: truncation toward zero. -/
def castInt (d : ℚ) : Int := Int.tdiv d.num d.den

/-- The integers `lo, lo + 1, ..., hi` of a loop `for (int v = lo; v <= hi; v++)`. -/
def intRange (lo hi : Int) : List Int :=
  (List.range (hi + 1 - lo).toNat).map (fun k => lo + (k : Int))

/-- Method `std::vector<bool>::resize(n, value)`. -/
def resizeBools (v : List Bool) (n : Nat) (value : Bool) : List Bool :=
  v.take n ++ List.replicate (n - v.length) value

/-! ## EllipsoidTransientMarker::mark (raytransientfilter.cpp:60-266) -/

/-- Working memory of `EllipsoidTransientMarker`. -/
structure EllipsoidTransientMarker where
  ray_tested : List Bool
  test_ray_ids : List Nat
  pass_through_ids : List Nat
deriving DecidableEq, Inhabited

/-- Constructor `EllipsoidTransientMarker(ray_count)`. -/
def EllipsoidTransientMarker.init (ray_count : Nat) : EllipsoidTransientMarker :=
  { ray_tested := List.replicate ray_count false, test_ray_ids := [], pass_through_ids := [] }

/-- Lines 112-120: the ids of one cell that are not yet tested are flagged and queued. -/
def gatherCell (m : EllipsoidTransientMarker) (ray_list : List Nat) :
    EllipsoidTransientMarker :=
  ray_list.foldl (fun m ray_id =>
    if m.ray_tested.getD ray_id false then m
    else { m with ray_tested := m.ray_tested.set ray_id true
                  test_ray_ids := m.test_ray_ids ++ [ray_id] }) m

/-- Lines 105-123: the triple loop over the cells `bmin ..= bmax`. -/
def gatherRays (m : EllipsoidTransientMarker) (ray_grid : Grid) (bmin bmax : Vector3i) :
    EllipsoidTransientMarker :=
  (intRange bmin.x bmax.x).foldl (fun m x =>
    (intRange bmin.y bmax.y).foldl (fun m y =>
      (intRange bmin.z bmax.z).foldl (fun m z => gatherCell m (ray_grid.cell x y z)) m) m) m

/-- Intersection statistics before any ray is tested (lines 125-127). -/
def HitStats.init : HitStats :=
  { hits := 0, first_intersection_time := DBL_MAX, last_intersection_time := -DBL_MAX,
    pass_through_ids := [] }

/-- One iteration of the loop at lines 128-149: the flag of the ray is cleared and the ray
is intersected with the ellipsoid. -/
def testRay (C : External) (ellipsoid : Ellipsoid) (cloud : Cloud)
    (acc : List Bool × HitStats) (ray_id : Nat) : List Bool × HitStats :=
  let ray_tested := acc.1.set ray_id false
  match C.intersect ellipsoid (cloud.starts.getD ray_id default)
      (cloud.ends.getD ray_id default) with
  | IntersectResult.Miss => (ray_tested, acc.2)
  | IntersectResult.Passthrough =>
    (ray_tested, { acc.2 with pass_through_ids := acc.2.pass_through_ids ++ [ray_id] })
  | IntersectResult.Hit =>
    (ray_tested,
      { acc.2 with
        hits := acc.2.hits + 1
        first_intersection_time :=
          min acc.2.first_intersection_time (cloud.times.getD ray_id default)
        last_intersection_time :=
          max acc.2.last_intersection_time (cloud.times.getD ray_id default) })

/-- The method `EllipsoidTransientMarker::mark`: returns the marker, the ellipsoid and the
shared ray marks after the call. -/
def EllipsoidTransientMarker.mark (C : External) (m : EllipsoidTransientMarker)
    (ellipsoid : Ellipsoid) (transients : List Bool) (cloud : Cloud) (ray_grid : Grid)
    (num_rays : ℚ) (merge_type : MergeType) (self_transient : Bool) :
    EllipsoidTransientMarker × Ellipsoid × List Bool :=
  if ellipsoid.transient then (m, ellipsoid, transients)
  else if ellipsoid.extents = Vector3d.zero then (m, ellipsoid, transients)
  else
    let m := if m.ray_tested.length ≠ cloud.rayCount then
        { m with ray_tested := resizeBools m.ray_tested cloud.rayCount false } else m
    let m := { m with test_ray_ids := [], pass_through_ids := [] }
    let ellipsoid_bounds_min :=
      ((ellipsoid.pos.sub ellipsoid.extents).sub ray_grid.box_min).divScalar
        ray_grid.voxel_width
    let ellipsoid_bounds_max :=
      ((ellipsoid.pos.add ellipsoid.extents).sub ray_grid.box_min).divScalar
        ray_grid.voxel_width
    if ellipsoid_bounds_max.x < 0 ∨ ellipsoid_bounds_max.y < 0 ∨ ellipsoid_bounds_max.z < 0 then
      (m, ellipsoid, transients)
    else if ellipsoid_bounds_min.x ≥ (ray_grid.dims.x : ℚ) ∨
        ellipsoid_bounds_min.y ≥ (ray_grid.dims.y : ℚ) ∨
        ellipsoid_bounds_min.z ≥ (ray_grid.dims.z : ℚ) then
      (m, ellipsoid, transients)
    else
      let bmin : Vector3i :=
        ⟨max 0 (castInt ellipsoid_bounds_min.x), max 0 (castInt ellipsoid_bounds_min.y),
          max 0 (castInt ellipsoid_bounds_min.z)⟩
      let bmax : Vector3i :=
        ⟨min (castInt ellipsoid_bounds_max.x) (ray_grid.dims.x - 1),
          min (castInt ellipsoid_bounds_max.y) (ray_grid.dims.y - 1),
          min (castInt ellipsoid_bounds_max.z) (ray_grid.dims.z - 1)⟩
      let m := gatherRays m ray_grid bmin bmax
      let r := m.test_ray_ids.foldl (testRay C ellipsoid cloud) (m.ray_tested, HitStats.init)
      let m := { m with ray_tested := r.1, pass_through_ids := r.2.pass_through_ids }
      let out := markClassify ellipsoid transients cloud num_rays merge_type self_transient r.2
      (m, out.1, out.2)

/-! ## Grid filling (raytransientfilter.cpp:359-451) -/

/-- Value of a double division whose divisor may be zero (IEEE): a finite quotient, an
infinity, or NaN for `0 / 0`. -/
inductive Quot64 where
  | nan
  | negInf
  | fin (q : ℚ)
  | posInf
deriving DecidableEq, Inhabited

/-- The double division `a / b` with IEEE results for `b = 0`. -/
def ieeeDiv (a b : ℚ) : Quot64 :=
  if b = 0 then
    if a > 0 then Quot64.posInf else if a < 0 then Quot64.negInf else Quot64.nan
  else Quot64.fin (a / b)

/-- The comparison `a < b` of doubles: false when either side is NaN. -/
def Quot64.lt : Quot64 → Quot64 → Bool
  | Quot64.nan, _ => false
  | _, Quot64.nan => false
  | Quot64.negInf, Quot64.negInf => false
  | Quot64.negInf, _ => true
  | Quot64.fin _, Quot64.negInf => false
  | Quot64.fin a, Quot64.fin b => decide (a < b)
  | Quot64.fin _, Quot64.posInf => true
  | Quot64.posInf, _ => false

/-- Reduction of an integer to the 32-bit two's complement range of `int`: the value of an
`int` expression whose exact value is `v` (signed overflow is undefined in C++; the
machines the library runs on wrap around). -/
def toInt32 (v : Int) : Int := (v + 2 ^ 31) % 2 ^ 32 - 2 ^ 31

/-- The exact squared distance of two cells, `|a - b|^2` as an integer. -/
def spanSqr (a b : Vector3i) : Int :=
  (a.x - b.x) * (a.x - b.x) + (a.y - b.y) * (a.y - b.y) + (a.z - b.z) * (a.z - b.z)

/-- The value `(a - b).squaredNorm()` of lines 375 and 381 for the `Eigen::Vector3i` cell
indices `a` and `b`: products and sums of `int`, so the exact squared distance reduced to
32 bits. -/
def sqDist (a b : Vector3i) : Int := toInt32 (spanSqr a b)

/-- Lines 385-401: the cell that follows `index` on the walk of ray `i`. -/
def nextIndex (grid : Grid) (start dir dir_sign : Vector3d) (index : Vector3i) : Vector3i :=
  let mid : Vector3d :=
    ⟨grid.box_min.x + grid.voxel_width * ((index.x : ℚ) + 1 / 2),
      grid.box_min.y + grid.voxel_width * ((index.y : ℚ) + 1 / 2),
      grid.box_min.z + grid.voxel_width * ((index.z : ℚ) + 1 / 2)⟩
  let next_boundary : Vector3d :=
    ⟨mid.x + 1 / 2 * grid.voxel_width * dir_sign.x, mid.y + 1 / 2 * grid.voxel_width * dir_sign.y,
      mid.z + 1 / 2 * grid.voxel_width * dir_sign.z⟩
  let delta := next_boundary.sub start
  let d0 := ieeeDiv delta.x dir.x
  let d1 := ieeeDiv delta.y dir.y
  let d2 := ieeeDiv delta.z dir.z
  if d0.lt d1 && d0.lt d2 then { index with x := index.x + castInt dir_sign.x }
  else if d1.lt d0 && d1.lt d2 then { index with y := index.y + castInt dir_sign.y }
  else { index with z := index.z + castInt dir_sign.z }

/-- The loop `for (;;)` of lines 377-402 for ray `i`, with a bound `fuel` on the number
of iterations; `none` when the bound is reached before the loop breaks. -/
def fillRayLoop (i : Nat) (start dir dir_sign : Vector3d) (start_index end_index : Vector3i)
    (length_sqr : Int) : Nat → Vector3i → Grid → Option Grid
  | 0, _, _ => none
  | fuel + 1, index, grid =>
    let grid := grid.insert index.x index.y index.z i
    if index = end_index ∨ sqDist index start_index > length_sqr then some grid
    else
      fillRayLoop i start dir dir_sign start_index end_index length_sqr fuel
        (nextIndex grid start dir dir_sign index) grid

/-- Lines 369-402: the walk of ray `i` of `fillRayGrid`. -/
def fillRay (C : External) (fuel : Nat) (cloud : Cloud) (grid : Grid) (i : Nat) :
    Option Grid :=
  let dir := (cloud.ends.getD i default).sub (cloud.starts.getD i default)
  let dir_sign : Vector3d := ⟨C.sgn dir.x, C.sgn dir.y, C.sgn dir.z⟩
  let start := ((cloud.starts.getD i default).sub grid.box_min).divScalar grid.voxel_width
  let end_cell := ((cloud.ends.getD i default).sub grid.box_min).divScalar grid.voxel_width
  let start_index : Vector3i := ⟨⌊start.x⌋, ⌊start.y⌋, ⌊start.z⌋⟩
  let end_index : Vector3i := ⟨⌊end_cell.x⌋, ⌊end_cell.y⌋, ⌊end_cell.z⌋⟩
  fillRayLoop i (cloud.starts.getD i default) dir dir_sign start_index end_index
    (sqDist end_index start_index) fuel start_index grid

/-- The method `TransientFilter::fillRayGrid`: every ray is walked in turn, each walk with
at most `fuel` iterations. -/
def fillRayGrid (C : External) (fuel : Nat) (grid : Grid) (cloud : Cloud) : Option Grid :=
  (List.range cloud.ends.length).foldl
    (fun g i => g.bind (fun grid => fillRay C fuel cloud grid i)) (some grid)

/-- Lines 421-444: ellipsoid `i` is inserted into the cells of its clamped bounding box. -/
def fillEllipse (ellipse_grid : Grid) (ellipsoid : Ellipsoid) (i : Nat) : Grid :=
  let index_min := ellipse_grid.index (ellipsoid.pos.sub ellipsoid.extents) true
  let index_max := ellipse_grid.index (ellipsoid.pos.add ellipsoid.extents) true
  (intRange index_min.z index_max.z).foldl (fun g z =>
    (intRange index_min.y index_max.y).foldl (fun g y =>
      (intRange index_min.x index_max.x).foldl (fun g x => g.insert x y z i) g) g)
    ellipse_grid

/-- The method `TransientFilter::fillEllipseGrid`. -/
def fillEllipseGrid (ellipse_grid : Grid) (ellipsoids : List Ellipsoid) : Grid :=
  (List.range ellipsoids.length).foldl
    (fun g i => fillEllipse g (ellipsoids.getD i default) i) ellipse_grid

/-! ## Marking passes and the filter (raytransientfilter.cpp:268-357, 454-644, 679-712) -/

/-- Modelled from the spec: the constructor `EllipsoidMark(id)` (raytransientfilter.h): no hit, no
pass-through ray, intersection times at the extremes as in `mark`. -/
def EllipsoidMark.init (id : Nat) : EllipsoidMark :=
  { id := id, hits := 0, first_intersection_time := DBL_MAX,
    last_intersection_time := -DBL_MAX, pass_through_ids := [] }

/-- Modelled from the spec: the method `EllipsoidMark::hit` (raytransientfilter.h): increment
`hits`, update the first and last intersection time with the time of the ray. -/
def EllipsoidMark.hit (m : EllipsoidMark) (_ray_id : Nat) (time : ℚ) : EllipsoidMark :=
  { m with hits := m.hits + 1
           first_intersection_time := min m.first_intersection_time time
           last_intersection_time := max m.last_intersection_time time }

/-- Modelled from the spec: the method `EllipsoidMark::passThrough` (raytransientfilter.h): append
the ray id to the pass-through list. -/
def EllipsoidMark.passThrough (m : EllipsoidMark) (ray_id : Nat) : EllipsoidMark :=
  { m with pass_through_ids := m.pass_through_ids ++ [ray_id] }

/-- Modelled from the spec: the method `EllipsoidMark::sortPassThroughIds` (raytransientfilter.h):
the pass-through list sorted by ray id. -/
def EllipsoidMark.sortPassThroughIds (m : EllipsoidMark) : EllipsoidMark :=
  { m with pass_through_ids := m.pass_through_ids.insertionSort (fun a b => a ≤ b) }

/-- The statistics held by an ellipsoid mark. -/
def EllipsoidMark.stats (m : EllipsoidMark) : HitStats :=
  { hits := m.hits, first_intersection_time := m.first_intersection_time,
    last_intersection_time := m.last_intersection_time, pass_through_ids := m.pass_through_ids }

/-- Lines 687-705: the body of the `visit` callback of `walkRay` for one ellipsoid of the
visited cell. -/
def visitEllipsoid (C : External) (cloud : Cloud) (ray_id : Nat) (f : TransientFilter)
    (ellipsoid_index : Nat) : TransientFilter :=
  let ellipsoid := f.ellipsoids_.getD ellipsoid_index default
  let ellipsoid_mark := f.ellipsoids_marks_.getD ellipsoid_index default
  match C.intersect ellipsoid (cloud.starts.getD ray_id default)
      (cloud.ends.getD ray_id default) with
  | IntersectResult.Miss => f
  | IntersectResult.Passthrough =>
    let pass_mark := ellipsoid_mark.passThrough ray_id
    { f with ellipsoids_marks_ := f.ellipsoids_marks_.set ellipsoid_index pass_mark }
  | IntersectResult.Hit =>
    let hit_mark := ellipsoid_mark.hit ray_id (cloud.times.getD ray_id default)
    { f with ellipsoids_marks_ := f.ellipsoids_marks_.set ellipsoid_index hit_mark }

/-- The method `TransientFilter::walkRay`: every ellipsoid of every cell visited by the
walk of a bounded ray is intersected with the ray. -/
def walkRay (C : External) (f : TransientFilter) (cloud : Cloud) (ellipse_grid : Grid)
    (ray_id : Nat) : TransientFilter :=
  if cloud.rayBounded ray_id then
    (C.walkVoxels ellipse_grid (cloud.starts.getD ray_id default)
        (cloud.ends.getD ray_id default) true).foldl
      (fun f cell_index =>
        (ellipse_grid.cell cell_index.x cell_index.y cell_index.z).foldl
          (visitEllipsoid C cloud ray_id) f) f
  else f

/-- Lines 485-607: one iteration of the update loop of
`markIntersectedEllipsoidsWithEllipseGrid`. -/
def updateEllipsoid (cloud : Cloud) (self_transient : Bool) (f : TransientFilter) (i : Nat) :
    TransientFilter :=
  let ellipsoid_mark := (f.ellipsoids_marks_.getD i default).sortPassThroughIds
  let out := updateClassify (f.ellipsoids_.getD i default) f.transient_marks_ cloud
    f.config_.num_rays_filter_threshold f.config_.merge_type self_transient ellipsoid_mark.stats
  { f with ellipsoids_marks_ := f.ellipsoids_marks_.set i ellipsoid_mark
           ellipsoids_ := f.ellipsoids_.set i out.1
           transient_marks_ := out.2 }

/-- The method `TransientFilter::markIntersectedEllipsoidsWithEllipseGrid` (the rays are
walked one after the other). -/
def markIntersectedEllipsoidsWithEllipseGrid (C : External) (f : TransientFilter)
    (cloud : Cloud) (ellipse_grid : Grid) (self_transient : Bool) : TransientFilter :=
  let f := { f with transient_marks_ := resizeBools f.transient_marks_ cloud.rayCount false }
  let f := (List.range cloud.rayCount).foldl
    (fun f ray_id => walkRay C f cloud ellipse_grid ray_id) f
  (List.range f.ellipsoids_.length).foldl (updateEllipsoid cloud self_transient) f

/-- One task of the parallel loop of `markIntersectedEllipsoidsWithRayGrid` (lines 624-632):
`marker.mark` on ellipsoid `ellipsoid_id`. -/
def processEllipsoid (C : External) (config : TransientFilterConfig) (cloud : Cloud)
    (ray_grid : Grid) (self_transient : Bool)
    (acc : EllipsoidTransientMarker × List Ellipsoid × List Bool) (ellipsoid_id : Nat) :
    EllipsoidTransientMarker × List Ellipsoid × List Bool :=
  let r := acc.1.mark C (acc.2.1.getD ellipsoid_id default) acc.2.2 cloud ray_grid
    config.num_rays_filter_threshold config.merge_type self_transient
  (r.1, acc.2.1.set ellipsoid_id r.2.1, r.2.2)

/-- The method `TransientFilter::markIntersectedEllipsoidsWithRayGrid`, the branch that
calls `EllipsoidTransientMarker::mark`, its tasks `0 .. rayCount - 1` run one after the
other with one marker; returns the filter and the ray marks. -/
def markIntersectedEllipsoidsWithRayGrid (C : External) (f : TransientFilter) (cloud : Cloud)
    (ray_grid : Grid) (transient_marks : List Bool) (self_transient : Bool) :
    TransientFilter × List Bool :=
  let r := (List.range cloud.rayCount).foldl
    (processEllipsoid C f.config_ cloud ray_grid self_transient)
    (EllipsoidTransientMarker.init cloud.rayCount, f.ellipsoids_, transient_marks)
  ({ f with ellipsoids_ := r.2.1 }, r.2.2)

/-- The method `TransientFilter::clear`. -/
def TransientFilter.clear (f : TransientFilter) : TransientFilter :=
  { f with transient_ := Cloud.empty, fixed_ := Cloud.empty, ellipsoids_ := [],
           ellipsoids_marks_ := [], transient_marks_ := [] }

/-- The constructor `TransientFilter::TransientFilter(config)`. -/
def TransientFilter.init (config : TransientFilterConfig) : TransientFilter :=
  { config_ := config, transient_ := Cloud.empty, fixed_ := Cloud.empty, ellipsoids_ := [],
    ellipsoids_marks_ := [], transient_marks_ := [] }

/-- The method `TransientFilter::filterWithEllipseGrid`: the return value and the filter. -/
def filterWithEllipseGrid (C : External) (f : TransientFilter) (cloud : Cloud) :
    Bool × TransientFilter :=
  let f := f.clear
  let g := C.generateEllipsoids cloud
  let f := { f with ellipsoids_ := g.1 }
  let marks := (List.range f.ellipsoids_.length).foldl
    (fun ms i => ms ++ [EllipsoidMark.init i]) f.ellipsoids_marks_
  let f := { f with ellipsoids_marks_ := marks }
  let ellipse_grid := fillEllipseGrid (Grid.init g.2.1 g.2.2 f.config_.voxel_size) f.ellipsoids_
  let f := markIntersectedEllipsoidsWithEllipseGrid C f cloud ellipse_grid true
  (true, finaliseFilter f cloud f.transient_marks_)

/-- The method `TransientFilter::filterWithRayGrid`: the return value and the filter;
`none` when a ray walk of `fillRayGrid` does not break within `fuel` iterations. -/
def filterWithRayGrid (C : External) (fuel : Nat) (f : TransientFilter) (cloud : Cloud) :
    Option (Bool × TransientFilter) :=
  let f := f.clear
  let g := C.generateEllipsoids cloud
  let f := { f with ellipsoids_ := g.1 }
  match fillRayGrid C fuel (Grid.init g.2.1 g.2.2 f.config_.voxel_size) cloud with
  | none => none
  | some ray_grid =>
    let r := markIntersectedEllipsoidsWithRayGrid C f cloud ray_grid
      (List.replicate cloud.rayCount false) true
    some (true, finaliseFilter r.1 cloud r.2)

/-- The method `TransientFilter::filter`: dispatch on the configured strategy. -/
def TransientFilter.filter (C : External) (fuel : Nat) (f : TransientFilter) (cloud : Cloud) :
    Option (Bool × TransientFilter) :=
  match f.config_.strategy with
  | TransientFilterStrategy.EllipseGrid => some (filterWithEllipseGrid C f cloud)
  | TransientFilterStrategy.RayGrid => filterWithRayGrid C fuel f cloud

/-! ## The accumulator of the ray marking loop (raytransientfilter.cpp:244-256) -/

/-- The value of the accumulator `d` after the loop of lines 245-264 has run over the
given pass-through ids, started with the value `d`. -/
def accumulate (opacity : ℚ) : ℚ → List Nat → ℚ
  | d, [] => d
  | d, _ :: rest =>
    if d + opacity ≥ 1 then accumulate opacity (d + opacity - 1) rest
    else accumulate opacity (d + opacity) rest

/-- The pass-through ids at the positions where the loop of lines 245-264 does not
`continue` (those with `d >= 1.0` after `d += opacity`), in loop order. -/
def selectRays (opacity : ℚ) : ℚ → List Nat → List Nat
  | _, [] => []
  | d, ray_id :: rest =>
    if d + opacity ≥ 1 then ray_id :: selectRays opacity (d + opacity - 1) rest
    else selectRays opacity (d + opacity) rest

/-! ## The raytransients tool (raytransients.cpp:26-39 and 102-169) -/

/-- What a run of `main` comes to: `exit(code)` called from `usage`, an uncaught exception
of `std::stod`, or the filter run on the cloud `file` with `config` followed by
`return 0`. -/
inductive MainOutcome where
  | exit (code : Int)
  | terminate
  | run (config : TransientFilterConfig) (file : String)
deriving DecidableEq

/-- The default value of the parameter `exit_code` of `usage` (line 26). -/
def usageDefaultExitCode : Int := 0

/-- The function `usage(exit_code)`: prints the usage text and calls `exit(exit_code)`. -/
def usage (exit_code : Int) : MainOutcome := MainOutcome.exit exit_code

/-- Lines 122-148 of `main`: the filter configuration built from the parsed arguments. -/
def mainConfig (num_rays : ℚ) (merge_type : String) (colour : Bool) : TransientFilterConfig :=
  let config : TransientFilterConfig :=
    { voxel_size := 1 / 10, num_rays_filter_threshold := num_rays,
      strategy := TransientFilterStrategy.RayGrid, merge_type := MergeType.Mininum,
      colour_cloud := colour }
  let config := if merge_type = "oldest" then { config with merge_type := MergeType.Oldest }
    else config
  let config := if merge_type = "newest" then { config with merge_type := MergeType.Newest }
    else config
  let config := if merge_type = "min" then { config with merge_type := MergeType.Mininum }
    else config
  if merge_type = "max" then { config with merge_type := MergeType.Maximum } else config

/-- The function `main` of the tool on the argument vector `argv` (`argc` is its length);
`stod` stands for `std::stod`, `none` when it throws. -/
def main (stod : String → Option ℚ) (argv : List String) : MainOutcome :=
  if argv.length ≠ 5 ∧ argv.length ≠ 6 then usage usageDefaultExitCode
  else if argv.length = 6 ∧ argv.getD 5 "" ≠ "--colour" ∧ argv.getD 5 "" ≠ "-c" then
    usage usageDefaultExitCode
  else
    match stod (argv.getD 3 "") with
    | none => MainOutcome.terminate
    | some num_rays =>
      if argv.getD 1 "" ≠ "min" ∧ argv.getD 1 "" ≠ "max" ∧ argv.getD 1 "" ≠ "oldest" ∧
          argv.getD 1 "" ≠ "newest" then
        usage usageDefaultExitCode
      else
        MainOutcome.run (mainConfig num_rays (argv.getD 1 "") (decide (argv.length = 6)))
          (argv.getD 2 "")

/-- The exit code of the process: the argument of `exit`, or the `return 0` of line 177
after the filter run (the results of `load` and `save` are not tested); an uncaught
exception ends the process without an exit code of `main`, also the `std::out_of_range` of
`file.substr(file.length() - 4)` (line 172) for a file name shorter than four bytes. -/
def MainOutcome.exitCode : MainOutcome → Option Int
  | MainOutcome.exit code => some code
  | MainOutcome.terminate => none
  | MainOutcome.run _ file => if file.utf8ByteSize < 4 then none else some 0

/-- An argument error of the tool: an argument count other than 5 or 6, a sixth argument
other than `--colour` or `-c`, or a mode that is not one of `min`, `max`, `oldest`,
`newest`. -/
def ArgumentError (argv : List String) : Prop :=
  (argv.length ≠ 5 ∧ argv.length ≠ 6) ∨
  (argv.length = 6 ∧ argv.getD 5 "" ≠ "--colour" ∧ argv.getD 5 "" ≠ "-c") ∨
  (argv.getD 1 "" ≠ "min" ∧ argv.getD 1 "" ≠ "max" ∧ argv.getD 1 "" ≠ "oldest" ∧
    argv.getD 1 "" ≠ "newest")

/-! ## The phases of EllipsoidTransientMarker::mark (raytransientfilter.cpp:76-149) -/

/-- Lines 76-81 of `mark`: the bitset is sized to the cloud and the two id lists are
cleared. -/
def markReset (m : EllipsoidTransientMarker) (cloud : Cloud) : EllipsoidTransientMarker :=
  let m := if m.ray_tested.length ≠ cloud.rayCount then
      { m with ray_tested := resizeBools m.ray_tested cloud.rayCount false } else m
  { m with test_ray_ids := [], pass_through_ids := [] }

/-- Lines 84-103 of `mark`: the cell box `bmin ..= bmax` of the ellipsoid; `none` when one
of the two early returns of lines 89-99 is taken. -/
def markBounds (ellipsoid : Ellipsoid) (ray_grid : Grid) : Option (Vector3i × Vector3i) :=
  let ellipsoid_bounds_min :=
    ((ellipsoid.pos.sub ellipsoid.extents).sub ray_grid.box_min).divScalar
      ray_grid.voxel_width
  let ellipsoid_bounds_max :=
    ((ellipsoid.pos.add ellipsoid.extents).sub ray_grid.box_min).divScalar
      ray_grid.voxel_width
  if ellipsoid_bounds_max.x < 0 ∨ ellipsoid_bounds_max.y < 0 ∨ ellipsoid_bounds_max.z < 0 then
    none
  else if ellipsoid_bounds_min.x ≥ (ray_grid.dims.x : ℚ) ∨
      ellipsoid_bounds_min.y ≥ (ray_grid.dims.y : ℚ) ∨
      ellipsoid_bounds_min.z ≥ (ray_grid.dims.z : ℚ) then
    none
  else
    some (⟨max 0 (castInt ellipsoid_bounds_min.x), max 0 (castInt ellipsoid_bounds_min.y),
          max 0 (castInt ellipsoid_bounds_min.z)⟩,
      ⟨min (castInt ellipsoid_bounds_max.x) (ray_grid.dims.x - 1),
        min (castInt ellipsoid_bounds_max.y) (ray_grid.dims.y - 1),
        min (castInt ellipsoid_bounds_max.z) (ray_grid.dims.z - 1)⟩)

/-- The cell indices `(x, y, z)` that the triple loop of lines 105-123 passes to
`ray_grid.cell`, in loop order. -/
def boxCells (bmin bmax : Vector3i) : List Vector3i :=
  (intRange bmin.x bmax.x).flatMap (fun x =>
    (intRange bmin.y bmax.y).flatMap (fun y =>
      (intRange bmin.z bmax.z).map (fun z => (⟨x, y, z⟩ : Vector3i))))

/-- The loop of lines 112-120 run over the given cells in turn. -/
def gatherCells (m : EllipsoidTransientMarker) (ray_grid : Grid) (cells : List Vector3i) :
    EllipsoidTransientMarker :=
  cells.foldl (fun m c => gatherCell m (ray_grid.cell c.x c.y c.z)) m

/-- The cell indices that one call of `mark` reads: none on the early returns of lines
64-99, else the cells of the ellipsoid's cell box. -/
def markCells (ellipsoid : Ellipsoid) (ray_grid : Grid) : List Vector3i :=
  if ellipsoid.transient then []
  else if ellipsoid.extents = Vector3d.zero then []
  else
    match markBounds ellipsoid ray_grid with
    | none => []
    | some b => boxCells b.1 b.2

/-- The list `test_ray_ids` on which the intersection loop of lines 128-149 runs: one call
of `ellipsoid->intersect` per entry, in list order. -/
def markCandidates (m : EllipsoidTransientMarker) (ellipsoid : Ellipsoid) (cloud : Cloud)
    (ray_grid : Grid) : List Nat :=
  (gatherCells (markReset m cloud) ray_grid (markCells ellipsoid ray_grid)).test_ray_ids

/-! ## The intersection tests of walkRay (raytransientfilter.cpp:679-712) -/

/-- The ellipsoid indices on which the `visit` callback of `walkRay` (lines 687-705) calls
`ellipsoid.intersect` for ray `ray_id`, in call order: every entry of every visited cell. -/
def walkRayTests (C : External) (cloud : Cloud) (ellipse_grid : Grid) (ray_id : Nat) :
    List Nat :=
  if cloud.rayBounded ray_id then
    (C.walkVoxels ellipse_grid (cloud.starts.getD ray_id default)
      (cloud.ends.getD ray_id default) true).flatMap
        (fun cell_index => ellipse_grid.cell cell_index.x cell_index.y cell_index.z)
  else []

/-! ## decimateTemporal (raydecimation.cpp:49-77) -/

/-- What stops the callback of `decimateTemporal` short of `writeChunk`: a division by
zero, an index outside an array (both undefined behaviour in the source), or the bound on
the number of loop iterations of the model. -/
inductive DecimateFault where
  | divisionByZero
  | outOfRange
  | outOfFuel
deriving DecidableEq

/-- Conversion `(size_t)num_rays` of an `int` to a 64-bit unsigned value. -/
def toSizeT (num_rays : Int) : Nat := (num_rays % 2 ^ 64).toNat

/-- Modelled from the spec: the method `Cloud::resize` (declared in raycloud.h): the four
arrays are resized to `size`, new entries value-initialised. -/
def Cloud.resize (c : Cloud) (size : Nat) : Cloud :=
  { starts := c.starts.take size ++ List.replicate (size - c.starts.length) default
    ends := c.ends.take size ++ List.replicate (size - c.ends.length) default
    times := c.times.take size ++ List.replicate (size - c.times.length) default
    colours := c.colours.take size ++ List.replicate (size - c.colours.length) default }

/-- The loop of lines 63-69 from the state `(i, c)`, with a bound `fuel` on the number of
tests of the loop condition; every array access is checked. -/
def decimateLoop (decimation : Nat) (starts ends : List Vector3d) (times : List ℚ)
    (colours : List RGBA) : Nat → Nat → Nat → Cloud → Except DecimateFault Cloud
  | 0, _, _, _ => Except.error DecimateFault.outOfFuel
  | fuel + 1, i, c, chunk =>
    if i < ends.length then
      if i < starts.length ∧ i < times.length ∧ i < colours.length ∧
          c < chunk.starts.length ∧ c < chunk.ends.length ∧ c < chunk.times.length ∧
          c < chunk.colours.length then
        decimateLoop decimation starts ends times colours fuel (i + decimation) (c + 1)
          { starts := chunk.starts.set c (starts.getD i default)
            ends := chunk.ends.set c (ends.getD i default)
            times := chunk.times.set c (times.getD i default)
            colours := chunk.colours.set c (colours.getD i default) }
      else Except.error DecimateFault.outOfRange
    else Except.ok chunk

/-- The callback `decimate` of `decimateTemporal` (lines 57-71) on one chunk of rays:
the value of the buffer `chunk` that is passed to `writer.writeChunk`; `chunk` is the
buffer as the previous call left it. -/
def decimateTemporalChunk (num_rays : Int) (fuel : Nat) (chunk : Cloud)
    (starts ends : List Vector3d) (times : List ℚ) (colours : List RGBA) :
    Except DecimateFault Cloud :=
  let decimation := toSizeT num_rays
  if decimation = 0 then Except.error DecimateFault.divisionByZero
  else
    let count := (ends.length + decimation - 1) / decimation
    decimateLoop decimation starts ends times colours fuel 0 0 (chunk.resize count)

/-! ## The cells of a ray walk of fillRayGrid (raytransientfilter.cpp:369-402) -/

/-- The stop test of line 381. -/
def walkStop (start_index end_index : Vector3i) (length_sqr : Int) (index : Vector3i) :
    Bool :=
  decide (index = end_index ∨ sqDist index start_index > length_sqr)

/-- The cells passed to `grid->insert` by the loop of lines 377-402 from the cell `index`
on, in insertion order; `none` when the loop does not break within `fuel` iterations. -/
def rayCellsLoop (grid : Grid) (start dir dir_sign : Vector3d)
    (start_index end_index : Vector3i) (length_sqr : Int) :
    Nat → Vector3i → Option (List Vector3i)
  | 0, _ => none
  | fuel + 1, index =>
    if walkStop start_index end_index length_sqr index then some [index]
    else
      (rayCellsLoop grid start dir dir_sign start_index end_index length_sqr fuel
        (nextIndex grid start dir dir_sign index)).map (fun rest => index :: rest)

/-- The vector `dir` of line 369 for ray `i`. -/
def rayDir (cloud : Cloud) (i : Nat) : Vector3d :=
  (cloud.ends.getD i default).sub (cloud.starts.getD i default)

/-- The vector `dir_sign` of line 370 for ray `i`. -/
def rayDirSign (C : External) (cloud : Cloud) (i : Nat) : Vector3d :=
  ⟨C.sgn (rayDir cloud i).x, C.sgn (rayDir cloud i).y, C.sgn (rayDir cloud i).z⟩

/-- The cell `start_index` of line 373 for ray `i`. -/
def rayStartIndex (cloud : Cloud) (grid : Grid) (i : Nat) : Vector3i :=
  let start := ((cloud.starts.getD i default).sub grid.box_min).divScalar grid.voxel_width
  ⟨⌊start.x⌋, ⌊start.y⌋, ⌊start.z⌋⟩

/-- The cell `end_index` of line 374 for ray `i`. -/
def rayEndIndex (cloud : Cloud) (grid : Grid) (i : Nat) : Vector3i :=
  let end_cell := ((cloud.ends.getD i default).sub grid.box_min).divScalar grid.voxel_width
  ⟨⌊end_cell.x⌋, ⌊end_cell.y⌋, ⌊end_cell.z⌋⟩

/-- The value `length_sqr` of line 375 for ray `i`. -/
def rayLengthSqr (cloud : Cloud) (grid : Grid) (i : Nat) : Int :=
  sqDist (rayEndIndex cloud grid i) (rayStartIndex cloud grid i)

/-- The cells into which `fillRayGrid` inserts the id of ray `i`, in insertion order. -/
def rayCells (C : External) (fuel : Nat) (cloud : Cloud) (grid : Grid) (i : Nat) :
    Option (List Vector3i) :=
  rayCellsLoop grid (cloud.starts.getD i default) (rayDir cloud i) (rayDirSign C cloud i)
    (rayStartIndex cloud grid i) (rayEndIndex cloud grid i) (rayLengthSqr cloud grid i) fuel
    (rayStartIndex cloud grid i)

/-! ## EllipsoidTransientMarker::mark with its reads of the grid recorded
(raytransientfilter.cpp:60-266) -/

/-- Lines 105-123 with the reads recorded: the marker after the triple loop, and the cell
indices `(x, y, z)` passed to `ray_grid.cell` (line 110), in reading order. -/
def gatherRaysTraced (m : EllipsoidTransientMarker) (ray_grid : Grid) (bmin bmax : Vector3i) :
    EllipsoidTransientMarker × List Vector3i :=
  (intRange bmin.x bmax.x).foldl (fun acc x =>
    (intRange bmin.y bmax.y).foldl (fun acc y =>
      (intRange bmin.z bmax.z).foldl (fun acc z =>
        (gatherCell acc.1 (ray_grid.cell x y z), acc.2 ++ [(⟨x, y, z⟩ : Vector3i)])) acc) acc)
    (m, [])

/-- The method `EllipsoidTransientMarker::mark` with its reads of the grid recorded: the
marker, the ellipsoid and the shared ray marks after the call, and the cell indices
`(x, y, z)` the call passed to `ray_grid.cell`, in reading order (none when the call
returns before the loops). -/
def EllipsoidTransientMarker.markTraced (C : External) (m : EllipsoidTransientMarker)
    (ellipsoid : Ellipsoid) (transients : List Bool) (cloud : Cloud) (ray_grid : Grid)
    (num_rays : ℚ) (merge_type : MergeType) (self_transient : Bool) :
    (EllipsoidTransientMarker × Ellipsoid × List Bool) × List Vector3i :=
  if ellipsoid.transient then ((m, ellipsoid, transients), [])
  else if ellipsoid.extents = Vector3d.zero then ((m, ellipsoid, transients), [])
  else
    let m := if m.ray_tested.length ≠ cloud.rayCount then
        { m with ray_tested := resizeBools m.ray_tested cloud.rayCount false } else m
    let m := { m with test_ray_ids := [], pass_through_ids := [] }
    let ellipsoid_bounds_min :=
      ((ellipsoid.pos.sub ellipsoid.extents).sub ray_grid.box_min).divScalar
        ray_grid.voxel_width
    let ellipsoid_bounds_max :=
      ((ellipsoid.pos.add ellipsoid.extents).sub ray_grid.box_min).divScalar
        ray_grid.voxel_width
    if ellipsoid_bounds_max.x < 0 ∨ ellipsoid_bounds_max.y < 0 ∨ ellipsoid_bounds_max.z < 0 then
      ((m, ellipsoid, transients), [])
    else if ellipsoid_bounds_min.x ≥ (ray_grid.dims.x : ℚ) ∨
        ellipsoid_bounds_min.y ≥ (ray_grid.dims.y : ℚ) ∨
        ellipsoid_bounds_min.z ≥ (ray_grid.dims.z : ℚ) then
      ((m, ellipsoid, transients), [])
    else
      let bmin : Vector3i :=
        ⟨max 0 (castInt ellipsoid_bounds_min.x), max 0 (castInt ellipsoid_bounds_min.y),
          max 0 (castInt ellipsoid_bounds_min.z)⟩
      let bmax : Vector3i :=
        ⟨min (castInt ellipsoid_bounds_max.x) (ray_grid.dims.x - 1),
          min (castInt ellipsoid_bounds_max.y) (ray_grid.dims.y - 1),
          min (castInt ellipsoid_bounds_max.z) (ray_grid.dims.z - 1)⟩
      let gathered := gatherRaysTraced m ray_grid bmin bmax
      let m := gathered.1
      let r := m.test_ray_ids.foldl (testRay C ellipsoid cloud) (m.ray_tested, HitStats.init)
      let m := { m with ray_tested := r.1, pass_through_ids := r.2.pass_through_ids }
      let out := markClassify ellipsoid transients cloud num_rays merge_type self_transient r.2
      ((m, out.1, out.2), gathered.2)

/-! ## The body of the update loop, translated on its own
(raytransientfilter.cpp:495-607) -/

/-- Lines 512-526 of the update pass: the loop over the pass-through ids of the mark; the
state is `(num_before, num_after, misses)`. -/
def updateCountLoop (cloud : Cloud) (ellipsoid_mark : EllipsoidMark) :
    List Nat → Nat × Nat × ℚ → Nat × Nat × ℚ
  | [], counts => counts
  | ray_id :: rest, (num_before, num_after, misses) =>
    if cloud.times.getD ray_id default > ellipsoid_mark.last_intersection_time then
      updateCountLoop cloud ellipsoid_mark rest (num_before, num_after + 1, misses)
    else if cloud.times.getD ray_id default < ellipsoid_mark.first_intersection_time then
      updateCountLoop cloud ellipsoid_mark rest (num_before + 1, num_after, misses)
    else
      updateCountLoop cloud ellipsoid_mark rest (num_before, num_after, misses + 1)

/-- Iteration `j` of the loop at lines 587-606 of the update pass; the state is the
accumulator `d` and the shared ray marks. -/
def updateMarkStep (cloud : Cloud) (self_transient : Bool) (ellipsoid_mark : EllipsoidMark)
    (opacity : ℚ) (state : ℚ × List Bool) (j : Nat) : ℚ × List Bool :=
  let d := state.1 + opacity
  if d ≥ 1 then
    let i := ellipsoid_mark.pass_through_ids.getD j default
    if self_transient = false ∨
        cloud.times.getD i default < ellipsoid_mark.first_intersection_time ∨
        cloud.times.getD i default > ellipsoid_mark.last_intersection_time then
      (d - 1, state.2.set i true)
    else (d - 1, state.2)
  else (d, state.2)

/-- Lines 495-607: the body of the update loop of `markIntersectedEllipsoidsWithEllipseGrid`
for one ellipsoid and its mark (pass-through ids already sorted, line 493), written from
these lines alone; `threshold` is `config_.num_rays_filter_threshold`, `merge_type` is
`config_.merge_type`.  Returns the ellipsoid and the ray marks `transient_marks_`. -/
def updateBody (ellipsoid : Ellipsoid) (transient_marks : List Bool) (cloud : Cloud)
    (threshold : ℚ) (merge_type : MergeType) (self_transient : Bool)
    (ellipsoid_mark : EllipsoidMark) : Ellipsoid × List Bool :=
  let num_rays : Nat := ellipsoid_mark.hits + ellipsoid_mark.pass_through_ids.length
  let ellipsoid :=
    if num_rays = 0 ∨ self_transient = true then
      { ellipsoid with
        opacity := (ellipsoid_mark.hits : ℚ) /
          ((ellipsoid_mark.hits : ℚ) + (ellipsoid_mark.pass_through_ids.length : ℚ)) }
    else ellipsoid
  if num_rays = 0 ∨ ellipsoid.opacity = 0 ∨ threshold = 0 then (ellipsoid, transient_marks)
  else
    let counted : Ellipsoid × Nat × Nat :=
      if self_transient = true then
        let ellipsoid := { ellipsoid with num_gone := ellipsoid_mark.pass_through_ids.length }
        let counts := updateCountLoop cloud ellipsoid_mark ellipsoid_mark.pass_through_ids
          (0, 0, 0)
        let h : ℚ := (ellipsoid_mark.hits : ℚ) + unbiasEpsilon - 1
        ({ ellipsoid with opacity := h / (h + counts.2.2), num_gone := counts.1 + counts.2.1 },
          counts.1, counts.2.1)
      else if ellipsoid_mark.pass_through_ids.length > 0 then
        if cloud.times.getD (ellipsoid_mark.pass_through_ids.getD 0 default) default >
            ellipsoid.time then
          (ellipsoid, 0, ellipsoid_mark.pass_through_ids.length)
        else (ellipsoid, ellipsoid_mark.pass_through_ids.length, 0)
      else (ellipsoid, 0, 0)
    let ellipsoid := counted.1
    let num_before := counted.2.1
    let num_after := counted.2.2
    let sequence_length : ℚ := threshold / ellipsoid.opacity
    let remove_ellipsoid : Option Bool :=
      if merge_type = MergeType.Oldest ∨ merge_type = MergeType.Newest then
        if ((max num_before num_after : Nat) : ℚ) < sequence_length then none
        else if merge_type = MergeType.Oldest then
          some (decide ((num_before : ℚ) ≥ sequence_length))
        else if merge_type = MergeType.Newest then
          some (decide ((num_after : ℚ) ≥ sequence_length))
        else some false
      else
        if ((num_before + num_after : Nat) : ℚ) < sequence_length then none
        else some (decide (merge_type = MergeType.Mininum))
    match remove_ellipsoid with
    | none => (ellipsoid, transient_marks)
    | some true => ({ ellipsoid with transient := true }, transient_marks)
    | some false =>
      (ellipsoid,
        ((List.range ellipsoid_mark.pass_through_ids.length).foldl
          (updateMarkStep cloud self_transient ellipsoid_mark ellipsoid.opacity)
          (0, transient_marks)).2)

/-! ## Vocabulary of the statements -/

/-- The rays of `cloud` with the ids `ids`, in the order of `ids`, ray `i` with colour
`col i`. -/
def Cloud.select (cloud : Cloud) (col : Nat → RGBA) (ids : List Nat) : Cloud :=
  { starts := ids.map (fun i => cloud.starts.getD i default)
    ends := ids.map (fun i => cloud.ends.getD i default)
    times := ids.map (fun i => cloud.times.getD i default)
    colours := ids.map col }

/-- The rays of `a` followed by the rays of `b`. -/
def Cloud.append (a b : Cloud) : Cloud :=
  { starts := a.starts ++ b.starts, ends := a.ends ++ b.ends, times := a.times ++ b.times,
    colours := a.colours ++ b.colours }

/-- The ids that `finaliseFilter` routes to the transient cloud. -/
def transientIds (f : TransientFilter) (transient_marks : List Bool) : List Nat :=
  (List.range f.ellipsoids_.length).filter (fun i => finaliseIsTransient f transient_marks i)

/-- The ids that `finaliseFilter` routes to the fixed cloud. -/
def fixedIds (f : TransientFilter) (transient_marks : List Bool) : List Nat :=
  (List.range f.ellipsoids_.length).filter (fun i => !finaliseIsTransient f transient_marks i)

/-- The cloud `out` holds the rays of `input` with the ids `ids`, in the order of `ids`:
the ids increase strictly, ray `k` of `out` has the start, end and time of the input ray
`ids[k]` and, when `keep_colour` is set, its colour; each array of `out` is then a
subsequence of the array of `input`. -/
def Cloud.OrderedCopyAt (keep_colour : Bool) (ids : List Nat) (out input : Cloud) : Prop :=
  ids.Pairwise (fun a b => a < b) ∧ (∀ i ∈ ids, i < input.rayCount) ∧
    out.starts = ids.map (fun i => input.starts.getD i default) ∧
    out.ends = ids.map (fun i => input.ends.getD i default) ∧
    out.times = ids.map (fun i => input.times.getD i default) ∧
    out.colours.length = ids.length ∧
    out.starts.Sublist input.starts ∧ out.ends.Sublist input.ends ∧
    out.times.Sublist input.times ∧
    (keep_colour = true →
      out.colours = ids.map (fun i => input.colours.getD i default) ∧
      out.colours.Sublist input.colours)

/-- The filter members that only `finaliseFilter` and the update pass may change are the
same in `g` as in `f`. -/
def SameButMarks (f g : TransientFilter) : Prop :=
  g.ellipsoids_ = f.ellipsoids_ ∧ g.transient_marks_ = f.transient_marks_ ∧
    g.config_ = f.config_ ∧ g.transient_ = f.transient_ ∧ g.fixed_ = f.fixed_

/-- The merge type that the usage text of the tool gives to a mode word. -/
def modeMergeType (mode : String) : Option MergeType :=
  if mode = "min" then some MergeType.Mininum
  else if mode = "max" then some MergeType.Maximum
  else if mode = "oldest" then some MergeType.Oldest
  else if mode = "newest" then some MergeType.Newest
  else none

/-- The colour flag is given: there is a sixth argument and it is `--colour` or `-c`. -/
def ColourFlagGiven (argv : List String) : Prop :=
  argv.length = 6 ∧ (argv.getD 5 "" = "--colour" ∨ argv.getD 5 "" = "-c")

/-- An accepted command line: five arguments, or six with the colour flag last, a third
argument that `std::stod` parses and a mode word of the usage text. -/
def Accepted (stod : String → Option ℚ) (argv : List String) : Prop :=
  (argv.length = 5 ∨ ColourFlagGiven argv) ∧ (stod (argv.getD 3 "")).isSome = true ∧
    (modeMergeType (argv.getD 1 "")).isSome = true

/-- Invariant of the gathering loops: a set bit belongs to a queued ray, a queued ray has
its bit set and is below the size of the bitset, and no ray is queued twice. -/
def GatherInv (m : EllipsoidTransientMarker) : Prop :=
  (∀ i, m.ray_tested.getD i false = true ↔ i ∈ m.test_ray_ids) ∧ m.test_ray_ids.Nodup

/-- A set bit belongs to a queued ray, whatever ids the cells hold. -/
def GatherCover (m : EllipsoidTransientMarker) : Prop :=
  ∀ i, m.ray_tested.getD i false = true → i ∈ m.test_ray_ids

/-- Every id stored in the grid is below `n`. -/
def Grid.IdsBelow (g : Grid) (n : Nat) : Prop := ∀ x y z, ∀ v ∈ g.cells x y z, v < n

/-- The ellipsoid `e` with the field `num_rays` set to `n` (the one field that `mark`
writes and the update pass of the ellipse-grid strategy leaves alone). -/
def Ellipsoid.withNumRays (e : Ellipsoid) (n : Nat) : Ellipsoid := { e with num_rays := n }

/-- The cell `(x, y, z)` lies in the clamped cell box of the ellipsoid:
`index_min <= (x, y, z) <= index_max` componentwise, with `index_min` and `index_max` the
clamped cell indices of `pos - extents` and `pos + extents`. -/
def coversCell (g : Grid) (e : Ellipsoid) (x y z : Int) : Bool :=
  let index_min := g.index (e.pos.sub e.extents) true
  let index_max := g.index (e.pos.add e.extents) true
  decide (index_min.x ≤ x ∧ x ≤ index_max.x ∧ index_min.y ≤ y ∧ y ≤ index_max.y ∧
    index_min.z ≤ z ∧ z ≤ index_max.z)

/-- The grid `g` has the box, cell width and dims of `g0`. -/
def Grid.SameFrame (g0 g : Grid) : Prop :=
  g.dims = g0.dims ∧ g.box_min = g0.box_min ∧ g.box_max = g0.box_max ∧
    g.voxel_width = g0.voxel_width

/-- The cell `q` is one step from the cell `p`: it differs from `p` on exactly one axis, by
the step `sx`, `sy` or `sz` of that axis. -/
def UnitStep (sx sy sz : Int) (p q : Vector3i) : Prop :=
  q = ⟨p.x + sx, p.y, p.z⟩ ∨ q = ⟨p.x, p.y + sy, p.z⟩ ∨ q = ⟨p.x, p.y, p.z + sz⟩

/-- The number of steps of sizes `sx`, `sy`, `sz` (each 1 or -1) from the cell `s0` to the
cell `c`. -/
def stepsFrom (s0 : Vector3i) (sx sy sz : Int) (c : Vector3i) : Int :=
  (c.x - s0.x) * sx + (c.y - s0.y) * sy + (c.z - s0.z) * sz

/-- The cell `c` lies ahead of the cell `s0` on every axis, in the directions `sx`, `sy`,
`sz`. -/
def Ahead (s0 : Vector3i) (sx sy sz : Int) (c : Vector3i) : Prop :=
  0 ≤ (c.x - s0.x) * sx ∧ 0 ≤ (c.y - s0.y) * sy ∧ 0 ≤ (c.z - s0.z) * sz

/-- A list of cells `c0, c1, ...` is a walk: each cell but the last does not satisfy `stop`
and is followed by `next` of it, and the last cell satisfies `stop`. -/
inductive IsWalk (stop : Vector3i → Bool) (next : Vector3i → Vector3i) :
    List Vector3i → Prop where
  | last (c : Vector3i) : stop c = true → IsWalk stop next [c]
  | step (c : Vector3i) (rest : List Vector3i) : stop c = false →
      rest.head? = some (next c) → IsWalk stop next rest → IsWalk stop next (c :: rest)

/-- The sign of a non-zero double as a cell step: 1 for a positive value, -1 otherwise. -/
def signStep (v : ℚ) : Int := if 0 < v then 1 else -1

/-- The largest squared cell distance of an end cell from a start cell for which no
`squaredNorm()` of the walk leaves the range of `int`: `46339^2`; a cell the walk reaches
is then at most `46340^2 < 2^31` from the start cell. -/
def maxSpanSqr : Int := 46339 * 46339

/-- The ray `i` spans few enough cells for the 32-bit arithmetic of its walk: the exact
squared distance of its end cell from its start cell is at most `maxSpanSqr`. -/
def SpanFits (cloud : Cloud) (grid : Grid) (i : Nat) : Prop :=
  spanSqr (rayEndIndex cloud grid i) (rayStartIndex cloud grid i) ≤ maxSpanSqr

/-- The 32-bit value `length_sqr` of ray `i` is at most `maxSpanSqr`: so it is for a ray that
fits (`SpanFits`), and for a longer ray whose squared norm wraps to a negative or to a small
value. -/
def LengthFits (cloud : Cloud) (grid : Grid) (i : Nat) : Prop :=
  rayLengthSqr cloud grid i ≤ maxSpanSqr

/-! ## Sample inputs -/

/-- A cloud of three rays in the box from (0,0,0) to (2,2,2); ray 1 runs past the end
point of ray 0. -/
def sampleCloud : Cloud :=
  { starts := [⟨1/4, 1/4, 1/4⟩, ⟨1/4, 1/4, 1/4⟩, ⟨1/4, 5/4, 1/4⟩]
    ends := [⟨3/4, 3/4, 3/4⟩, ⟨7/4, 3/2, 5/4⟩, ⟨3/2, 7/4, 3/4⟩]
    times := [0, 1, 2]
    colours := [⟨10, 20, 30, 255⟩, ⟨40, 50, 60, 255⟩, ⟨70, 80, 90, 255⟩] }

/-- Sample collaborators: one ellipsoid of extents 1/4 per end point, a ray hits the
ellipsoid at its own end point and passes through an ellipsoid whose centre lies strictly
between its start and end along x. -/
def sampleExternal : External :=
  { generateEllipsoids := fun cloud =>
      (cloud.ends.map (fun p =>
        { pos := p, vectors := default, extents := ⟨1/4, 1/4, 1/4⟩, time := 0, opacity := 1,
          planarity := 1/2, num_rays := 0, num_gone := 0, transient := false }),
        ⟨0, 0, 0⟩, ⟨2, 2, 2⟩)
    intersect := fun e s en =>
      if en = e.pos then IntersectResult.Hit
      else if s.x < e.pos.x ∧ e.pos.x < en.x then IntersectResult.Passthrough
      else IntersectResult.Miss
    walkVoxels := fun g s en clamp => [g.index s clamp, g.index en clamp]
    sgn := fun v => if v > 0 then 1 else -1 }

/-- A filter configuration: given strategy, merge type and threshold, voxels of size 1,
no colouring. -/
def sampleConfig (strategy : TransientFilterStrategy) (mt : MergeType) (threshold : ℚ) :
    TransientFilterConfig :=
  { voxel_size := 1, num_rays_filter_threshold := threshold, merge_type := mt,
    strategy := strategy, colour_cloud := false }

/-- A filter object holding the sample configuration and the ellipsoids generated from the
sample cloud, its output clouds empty. -/
def sampleFilter : TransientFilter :=
  { TransientFilter.init
      (sampleConfig TransientFilterStrategy.RayGrid MergeType.Mininum 1) with
    ellipsoids_ := (sampleExternal.generateEllipsoids sampleCloud).1 }

/-- Times of four rays seen by one ellipsoid: ray 1 hits it at time 5, ray 0 passes
through before the hit, rays 2 and 3 pass through after it. -/
def passCloud : Cloud :=
  { starts := [⟨0, 0, 0⟩, ⟨0, 0, 0⟩, ⟨0, 0, 0⟩, ⟨0, 0, 0⟩]
    ends := [⟨2, 0, 0⟩, ⟨1, 0, 0⟩, ⟨2, 0, 0⟩, ⟨2, 0, 0⟩]
    times := [0, 5, 10, 11]
    colours := [⟨0, 0, 0, 255⟩, ⟨0, 0, 0, 255⟩, ⟨0, 0, 0, 255⟩, ⟨0, 0, 0, 255⟩] }

/-- Intersection statistics of the ellipsoid of ray 1 of `passCloud`: one hit at time 5,
pass-through rays 0, 2 and 3. -/
def passStats : HitStats :=
  { hits := 1, first_intersection_time := 5, last_intersection_time := 5,
    pass_through_ids := [0, 2, 3] }

/-- The ellipsoid of ray 1 of `passCloud`, not transient. -/
def passEllipsoid : Ellipsoid :=
  { pos := ⟨1, 0, 0⟩, vectors := default, extents := ⟨1/4, 1/4, 1/4⟩, time := 5, opacity := 1,
    planarity := 1/2, num_rays := 0, num_gone := 0, transient := false }

/-- Ray marks of `passCloud` before classification: none set. -/
def passMarks : List Bool := [false, false, false, false]

/-- A ray grid of two cells along x over the box from (-1,-1,-1) to (3,1,1) that holds the
rays of `passCloud`: all four rays cross the first cell, rays 0, 2 and 3 reach the second. -/
def passGrid : Grid :=
  { box_min := ⟨-1, -1, -1⟩, box_max := ⟨3, 1, 1⟩, voxel_width := 2, dims := ⟨2, 1, 1⟩
    cells := fun x y z =>
      if x = 0 ∧ y = 0 ∧ z = 0 then [0, 1, 2, 3]
      else if x = 1 ∧ y = 0 ∧ z = 0 then [0, 2, 3] else [] }

/-- Two rays on one line in opposite directions inside the unit box: ray 0 runs from 1/10
to 7/10 past the end point of ray 1, ray 1 runs from 9/10 to 3/10 past the end point of
ray 0. -/
def crossCloud : Cloud :=
  { starts := [⟨1/10, 1/10, 1/10⟩, ⟨9/10, 9/10, 9/10⟩]
    ends := [⟨7/10, 7/10, 7/10⟩, ⟨3/10, 3/10, 3/10⟩]
    times := [0, 1]
    colours := [⟨10, 20, 30, 255⟩, ⟨40, 50, 60, 255⟩] }

/-- Collaborators for `crossCloud`: one ellipsoid of extents 1/20 per end point in the unit
box, a ray hits the ellipsoid at its own end point and passes through an ellipsoid whose
centre lies strictly between its two ends along x; a walk visits the cell of the start and,
if it is another cell, the cell of the end. -/
def crossExternal : External :=
  { generateEllipsoids := fun cloud =>
      (cloud.ends.map (fun p =>
        { pos := p, vectors := default, extents := ⟨1/20, 1/20, 1/20⟩, time := 0, opacity := 1,
          planarity := 1/2, num_rays := 0, num_gone := 0, transient := false }),
        ⟨0, 0, 0⟩, ⟨1, 1, 1⟩)
    intersect := fun e s en =>
      if en = e.pos then IntersectResult.Hit
      else if (s.x < e.pos.x ∧ e.pos.x < en.x) ∨ (en.x < e.pos.x ∧ e.pos.x < s.x) then
        IntersectResult.Passthrough
      else IntersectResult.Miss
    walkVoxels := fun g s en clamp =>
      if g.index s clamp = g.index en clamp then [g.index s clamp]
      else [g.index s clamp, g.index en clamp]
    sgn := fun v => if v > 0 then 1 else -1 }

/-- Collaborators whose generator yields ellipsoids of zero extents (degenerate
neighbourhoods) with opacity 1/2; the other members are those of `crossExternal`. -/
def flatExternal : External :=
  { crossExternal with
    generateEllipsoids := fun cloud =>
      (cloud.ends.map (fun p =>
        { pos := p, vectors := default, extents := Vector3d.zero, time := 0, opacity := 1/2,
          planarity := 1/2, num_rays := 0, num_gone := 0, transient := false }),
        ⟨0, 0, 0⟩, ⟨1, 1, 1⟩) }


/-- A configuration with a negative voxel size and a negative threshold. -/
def invalidConfig : TransientFilterConfig :=
  { voxel_size := -1, num_rays_filter_threshold := -5, merge_type := MergeType.Mininum,
    strategy := TransientFilterStrategy.RayGrid, colour_cloud := false }

/-- The collaborators of `flatExternal` with an intersection test that reports a miss for
every ellipsoid of zero extents. -/
def flatMissExternal : External :=
  { flatExternal with
    intersect := fun e s en =>
      if e.extents = Vector3d.zero then IntersectResult.Miss
      else crossExternal.intersect e s en }

/-- A stand-in for `std::stod` on the sample command lines. -/
def sampleStod (s : String) : Option ℚ :=
  if s = "20" then some 20 else if s = "0" then some 0 else none

/-- A filter with colouring switched on that holds two ellipsoids of opacity 1/2 and
planarity 1/2, one with 30 pass-through rays counted in `num_gone`. -/
def colourFilter : TransientFilter :=
  { TransientFilter.init
      { sampleConfig TransientFilterStrategy.RayGrid MergeType.Mininum 1 with
        colour_cloud := true } with
    ellipsoids_ :=
      [{ pos := ⟨7/10, 7/10, 7/10⟩, vectors := default, extents := ⟨1/20, 1/20, 1/20⟩,
         time := 0, opacity := 1/2, planarity := 1/2, num_rays := 2, num_gone := 0,
         transient := false },
       { pos := ⟨3/10, 3/10, 3/10⟩, vectors := default, extents := ⟨1/20, 1/20, 1/20⟩,
         time := 1, opacity := 1/2, planarity := 1/2, num_rays := 60, num_gone := 30,
         transient := true }] }

/-- The intersection test of spec 4.3 for an ellipsoid that is a sphere (unit axes, the
three extents equal): `Hit` when the end of the segment lies in the sphere, `Passthrough`
when the segment meets the sphere and ends outside, `Miss` otherwise. -/
def sphereIntersect (e : Ellipsoid) (s en : Vector3d) : IntersectResult :=
  let r2 := e.extents.x * e.extents.x
  let sq := fun (a : Vector3d) => a.x * a.x + a.y * a.y + a.z * a.z
  if sq (en.sub e.pos) ≤ r2 then IntersectResult.Hit
  else
    let d := en.sub s
    let c := e.pos.sub s
    let t := if sq d = 0 then 0 else max 0 (min 1 ((c.x * d.x + c.y * d.y + c.z * d.z) / sq d))
    let p : Vector3d := ⟨s.x + t * d.x, s.y + t * d.y, s.z + t * d.z⟩
    if sq (p.sub e.pos) ≤ r2 then IntersectResult.Passthrough else IntersectResult.Miss

/-- A cell walk in the manner of spec 4.1: the cells of the 3-D DDA of `fillRayGrid` from
the cell of `s` to the cell of `en`, each once; with `clamp` the cells outside the grid are
skipped. -/
def ddaWalk (g : Grid) (s en : Vector3d) (clamp : Bool) : List Vector3i :=
  let dir := en.sub s
  let dir_sign : Vector3d :=
    ⟨sampleExternal.sgn dir.x, sampleExternal.sgn dir.y, sampleExternal.sgn dir.z⟩
  let length_sqr := sqDist (g.index en false) (g.index s false)
  let cells := (rayCellsLoop g s dir dir_sign (g.index s false) (g.index en false) length_sqr
    (length_sqr.toNat + 2) (g.index s false)).getD []
  if clamp then cells.filter (fun c => g.inBounds c.x c.y c.z) else cells

/-- The collaborators of `sampleExternal` with the sphere intersection test and the DDA
cell walk: a sphere of radius 1/4 around every end point. -/
def sphereExternal : External :=
  { sampleExternal with intersect := sphereIntersect, walkVoxels := ddaWalk }

/-- The ellipse grid that `filterWithEllipseGrid` builds for `sampleCloud`: voxels of size 1
over the box from (0,0,0) to (2,2,2); the sphere of ray 0 reaches from 1/2 to 1 on each
axis and is stored in all eight cells. -/
def sampleEllipseGrid : Grid :=
  fillEllipseGrid (Grid.init (sphereExternal.generateEllipsoids sampleCloud).2.1
    (sphereExternal.generateEllipsoids sampleCloud).2.2 1)
    (sphereExternal.generateEllipsoids sampleCloud).1

/-- The buffer left by an earlier chunk of one ray. -/
def staleChunk : Cloud :=
  { starts := [⟨9, 9, 9⟩], ends := [⟨8, 8, 8⟩], times := [99],
    colours := [⟨1, 2, 3, 4⟩] }

/-- Collaborators whose `sgn` returns 0 for the value 0 (and 1, -1 for positive and
negative values); the other members are those of `sampleExternal`. -/
def zeroSgnExternal : External :=
  { sampleExternal with sgn := fun v => if v > 0 then 1 else if v < 0 then -1 else 0 }

/-- A cloud of one ray of 4634.1 m along x, from (0.05, 0.05, 0.05) to
(4634.15, 0.15, 0.15). -/
def longCloud : Cloud :=
  { starts := [⟨1/20, 1/20, 1/20⟩], ends := [⟨92683/20, 3/20, 3/20⟩], times := [0],
    colours := [⟨0, 0, 0, 255⟩] }

/-- The empty grid of voxel size 0.1 over the box of `longCloud`: 46342 cells along x, two
along y and z; the ray runs from the cell (0,0,0) to the cell (46341,1,1). -/
def longGrid : Grid := Grid.init ⟨0, 0, 0⟩ ⟨23171/5, 1/5, 1/5⟩ (1/10)

/-- An ellipsoid centred in the grid of 2 x 2 x 2 cells of width 1 over the box from (0,0,0)
to (2,2,2) and wider than the grid along x: its cell bounds run from -1.5 to 3.5 along x
and from 0.5 to 1.5 along y and z. -/
def wideEllipsoid : Ellipsoid :=
  { pos := ⟨1, 1, 1⟩, vectors := default, extents := ⟨5/2, 1/2, 1/2⟩, time := 0, opacity := 1,
    planarity := 1/2, num_rays := 0, num_gone := 0, transient := false }

/-- An ellipsoid of the same size beside the grid: its cell bounds along x start at 2.5. -/
def outsideEllipsoid : Ellipsoid :=
  { pos := ⟨5, 1, 1⟩, vectors := default, extents := ⟨5/2, 1/2, 1/2⟩, time := 0, opacity := 1,
    planarity := 1/2, num_rays := 0, num_gone := 0, transient := false }

/-! ## Lemmas on finaliseFilter -/

theorem Cloud.append_empty (a : Cloud) : a.append Cloud.empty = a := by
  cases a; simp [Cloud.append, Cloud.empty]

theorem Cloud.empty_append (a : Cloud) : Cloud.empty.append a = a := by
  cases a; simp [Cloud.append, Cloud.empty]

theorem Cloud.select_nil (cloud : Cloud) (col : Nat → RGBA) :
    cloud.select col [] = Cloud.empty := rfl

theorem Cloud.append_select_cons (a cloud : Cloud) (col : Nat → RGBA) (i : Nat)
    (ids : List Nat) :
    a.append (cloud.select col (i :: ids)) =
      (a.emplaceBack (cloud.starts.getD i default) (cloud.ends.getD i default)
        (cloud.times.getD i default) (col i)).append (cloud.select col ids) := by
  simp [Cloud.append, Cloud.select, Cloud.emplaceBack]

theorem finaliseStep_ellipsoids (cloud : Cloud) (marks : List Bool) (f : TransientFilter)
    (i : Nat) : (finaliseStep cloud marks f i).ellipsoids_ = f.ellipsoids_ := by
  unfold finaliseStep; dsimp only; split <;> rfl

theorem finaliseStep_config (cloud : Cloud) (marks : List Bool) (f : TransientFilter)
    (i : Nat) : (finaliseStep cloud marks f i).config_ = f.config_ := by
  unfold finaliseStep; dsimp only; split <;> rfl

theorem finaliseColour_congr (f g : TransientFilter) (cloud : Cloud)
    (he : g.ellipsoids_ = f.ellipsoids_) (hc : g.config_ = f.config_) :
    finaliseColour g cloud = finaliseColour f cloud := by
  funext i; simp [finaliseColour, he, hc]

theorem finaliseIsTransient_congr (f g : TransientFilter) (marks : List Bool)
    (he : g.ellipsoids_ = f.ellipsoids_) :
    finaliseIsTransient g marks = finaliseIsTransient f marks := by
  funext i; simp [finaliseIsTransient, he]

/-- The loop of `finaliseFilter` over any list of ids: the transient cloud receives the
ids that satisfy the branch condition, the fixed cloud the other ids, both in order. -/
theorem finaliseFold (cloud : Cloud) (marks : List Bool) (ids : List Nat) :
    ∀ f : TransientFilter,
      (ids.foldl (finaliseStep cloud marks) f).ellipsoids_ = f.ellipsoids_ ∧
      (ids.foldl (finaliseStep cloud marks) f).config_ = f.config_ ∧
      (ids.foldl (finaliseStep cloud marks) f).transient_ =
        f.transient_.append (cloud.select (finaliseColour f cloud)
          (ids.filter (fun i => finaliseIsTransient f marks i))) ∧
      (ids.foldl (finaliseStep cloud marks) f).fixed_ =
        f.fixed_.append (cloud.select (finaliseColour f cloud)
          (ids.filter (fun i => !finaliseIsTransient f marks i))) := by
  induction ids with
  | nil => intro f; simp [Cloud.select_nil, Cloud.append_empty]
  | cons i ids ih =>
    intro f
    have he := finaliseStep_ellipsoids cloud marks f i
    have hc := finaliseStep_config cloud marks f i
    obtain ⟨h1, h2, h3, h4⟩ := ih (finaliseStep cloud marks f i)
    rw [finaliseColour_congr f _ cloud he hc, finaliseIsTransient_congr f _ marks he] at h3 h4
    simp only [List.foldl_cons]
    refine ⟨h1.trans he, h2.trans hc, ?_, ?_⟩
    · rw [h3]
      by_cases hp : finaliseIsTransient f marks i = true
      · simp only [List.filter_cons, hp, if_true, Cloud.append_select_cons]
        simp [finaliseStep, hp]
      · simp only [List.filter_cons, hp, if_false]
        simp [finaliseStep, hp]
    · rw [h4]
      by_cases hp : finaliseIsTransient f marks i = true
      · simp only [List.filter_cons, hp, Bool.not_true, if_false]
        simp [finaliseStep, hp]
      · simp only [Bool.not_eq_true] at hp
        simp only [List.filter_cons, hp, Bool.not_false, if_true, Cloud.append_select_cons]
        simp [finaliseStep, hp]

/-- Closed form of `finaliseFilter`. -/
theorem finaliseFilter_eq (f : TransientFilter) (cloud : Cloud) (marks : List Bool) :
    (finaliseFilter f cloud marks).ellipsoids_ = f.ellipsoids_ ∧
    (finaliseFilter f cloud marks).config_ = f.config_ ∧
    (finaliseFilter f cloud marks).transient_ =
      f.transient_.append (cloud.select (finaliseColour f cloud) (transientIds f marks)) ∧
    (finaliseFilter f cloud marks).fixed_ =
      f.fixed_.append (cloud.select (finaliseColour f cloud) (fixedIds f marks)) :=
  finaliseFold cloud marks (List.range f.ellipsoids_.length) f

theorem map_getD_range_eq_take {α : Type} (d : α) :
    ∀ (l : List α) (n : Nat), (List.range n).map (fun i => l.getD i d) = l.take n ∨
      l.length < n := by
  intro l
  induction l with
  | nil =>
    intro n
    cases n with
    | zero => left; simp
    | succ n => right; simp
  | cons a l ih =>
    intro n
    cases n with
    | zero => left; simp
    | succ n =>
      rcases ih n with h | h
      · left
        rw [List.range_succ_eq_map, List.map_cons, List.map_map, List.take_succ_cons]
        simp only [List.getD_cons_zero, List.cons.injEq, true_and]
        rw [← h]
        apply List.map_congr_left
        intro i _
        simp
      · right; simp; omega

theorem map_getD_filter_sublist {α : Type} (d : α) (l : List α) (n : Nat) (hn : n ≤ l.length)
    (p : Nat → Bool) : (((List.range n).filter p).map (fun i => l.getD i d)).Sublist l := by
  rcases map_getD_range_eq_take d l n with h | h
  · exact ((List.filter_sublist (List.range n)).map _).trans (h ▸ List.take_sublist n l)
  · omega

theorem orderedCopyAt_select (cloud : Cloud) (col : Nat → RGBA) (keep : Bool) (n : Nat)
    (p : Nat → Bool) (hw : cloud.WellFormed) (hn : n ≤ cloud.rayCount)
    (hcol : keep = true → col = fun i => cloud.colours.getD i default) :
    Cloud.OrderedCopyAt keep ((List.range n).filter p)
      (cloud.select col ((List.range n).filter p)) cloud := by
  obtain ⟨hs, ht, hc⟩ := hw
  unfold Cloud.rayCount at hn
  refine ⟨?_, ?_, rfl, rfl, rfl, ?_, ?_, ?_, ?_, ?_⟩
  · exact (List.pairwise_lt_range n).sublist (List.filter_sublist _)
  · intro i hi
    have := (List.mem_filter.mp hi).1
    have := List.mem_range.mp this
    unfold Cloud.rayCount; omega
  · simp [Cloud.select]
  · exact map_getD_filter_sublist _ _ n (by omega) p
  · exact map_getD_filter_sublist _ _ n hn p
  · exact map_getD_filter_sublist _ _ n (by omega) p
  · intro hk
    rw [hcol hk]
    exact ⟨rfl, map_getD_filter_sublist _ _ n (by omega) p⟩

/-! ## Claims on finaliseFilter -/

/-- C2: `finaliseFilter` appends to the transient cloud exactly the rays whose id `i`
(below the number of ellipsoids) has the transient flag of ellipsoid `i` set or the ray
mark `i` true, and to the fixed cloud exactly the other rays; no id is routed to both
clouds and every id is routed to one of them. -/
theorem finaliseFilter_routing (f : TransientFilter) (cloud : Cloud) (marks : List Bool) :
    (finaliseFilter f cloud marks).transient_ =
      f.transient_.append (cloud.select (finaliseColour f cloud) (transientIds f marks)) ∧
    (finaliseFilter f cloud marks).fixed_ =
      f.fixed_.append (cloud.select (finaliseColour f cloud) (fixedIds f marks)) ∧
    (∀ i, i ∈ transientIds f marks ↔
      (i < f.ellipsoids_.length ∧
        ((f.ellipsoids_.getD i default).transient = true ∨ marks.getD i false = true))) ∧
    (∀ i, i ∈ fixedIds f marks ↔
      (i < f.ellipsoids_.length ∧
        ¬ ((f.ellipsoids_.getD i default).transient = true ∨ marks.getD i false = true))) ∧
    (∀ i, ¬ (i ∈ transientIds f marks ∧ i ∈ fixedIds f marks)) ∧
    (transientIds f marks ++ fixedIds f marks).Perm (List.range f.ellipsoids_.length) := by
  obtain ⟨_, _, h3, h4⟩ := finaliseFilter_eq f cloud marks
  have ht : ∀ i, i ∈ transientIds f marks ↔
      (i < f.ellipsoids_.length ∧
        ((f.ellipsoids_.getD i default).transient = true ∨ marks.getD i false = true)) := by
    intro i
    simp [transientIds, finaliseIsTransient, List.mem_filter, List.mem_range]
  have hf : ∀ i, i ∈ fixedIds f marks ↔
      (i < f.ellipsoids_.length ∧
        ¬ ((f.ellipsoids_.getD i default).transient = true ∨ marks.getD i false = true)) := by
    intro i
    simp [fixedIds, finaliseIsTransient, List.mem_filter, List.mem_range]
  refine ⟨h3, h4, ht, hf, ?_, ?_⟩
  · intro i hi
    exact ((hf i).mp hi.2).2 ((ht i).mp hi.1).2
  · exact List.filter_append_perm _ _

/-! ## Lemmas on the classifier -/

theorem countFold (times : List ℚ) (first last : ℚ) (ids : List Nat) :
    ∀ c : PassCounts,
      ((ids.foldl (countStep times first last) c).num_before : ℚ) +
          (ids.foldl (countStep times first last) c).num_after +
          (ids.foldl (countStep times first last) c).misses =
        (c.num_before : ℚ) + c.num_after + c.misses + ids.length ∧
      c.misses ≤ (ids.foldl (countStep times first last) c).misses := by
  induction ids with
  | nil => intro c; simp
  | cons i ids ih =>
    intro c
    obtain ⟨h1, h2⟩ := ih (countStep times first last c i)
    simp only [List.foldl_cons, List.length_cons]
    rw [h1]
    unfold countStep at h2 ⊢
    split_ifs at h2 ⊢ <;> simp at h2 ⊢ <;> constructor <;> linarith

theorem countPassThrough_total (times : List ℚ) (first last : ℚ) (ids : List Nat) :
    ((countPassThrough times first last ids).num_before : ℚ) +
        (countPassThrough times first last ids).num_after +
        (countPassThrough times first last ids).misses = ids.length ∧
      0 ≤ (countPassThrough times first last ids).misses := by
  have h := countFold times first last ids ⟨0, 0, 0⟩
  simpa [countPassThrough] using h

theorem getD_set_true (t : List Bool) (j i : Nat) (h : (t.set j true).getD i false = true) :
    i = j ∨ t.getD i false = true := by
  by_cases hij : i = j
  · exact Or.inl hij
  · right
    rw [List.getD_eq_getElem?_getD] at h ⊢
    rwa [List.getElem?_set_ne (Ne.symm hij)] at h

theorem markRays_getD (times : List ℚ) (s : Bool) (first last op : ℚ) (ids : List Nat) :
    ∀ (d : ℚ) (t : List Bool) (i : Nat),
      (markRays times s first last op d ids t).getD i false = true →
      t.getD i false = true ∨ (i ∈ ids ∧ rayEligible times s first last i = true) := by
  induction ids with
  | nil => intro d t i h; exact Or.inl h
  | cons j ids ih =>
    intro d t i h
    unfold markRays at h
    split_ifs at h with h1 h2
    · rcases ih _ _ _ h with h3 | h3
      · rcases getD_set_true t j i h3 with h4 | h4
        · subst h4; exact Or.inr ⟨List.mem_cons_self _ _, h2⟩
        · exact Or.inl h4
      · exact Or.inr ⟨List.mem_cons_of_mem _ h3.1, h3.2⟩
    · rcases ih _ _ _ h with h3 | h3
      · exact Or.inl h3
      · exact Or.inr ⟨List.mem_cons_of_mem _ h3.1, h3.2⟩
    · rcases ih _ _ _ h with h3 | h3
      · exact Or.inl h3
      · exact Or.inr ⟨List.mem_cons_of_mem _ h3.1, h3.2⟩

theorem ellipsoid_setOpacityGone_transient (e : Ellipsoid) (o : ℚ) (g : Nat) :
    ({ e with opacity := o, num_gone := g } : Ellipsoid).transient = e.transient := rfl

theorem ellipsoid_setOpacity_transient (e : Ellipsoid) (o : ℚ) :
    ({ e with opacity := o } : Ellipsoid).transient = e.transient := rfl

theorem markOpacity_transient (e : Ellipsoid) (T : ℚ) (s : Bool) (st : HitStats) :
    (markOpacity e T s st).transient = e.transient := by
  unfold markOpacity
  by_cases h : T = 0 ∨ s = true
  · simp only [h, if_true]
  · simp only [h, if_false]

theorem updateOpacity_transient (e : Ellipsoid) (s : Bool) (st : HitStats) :
    (updateOpacity e s st).transient = e.transient := by
  unfold updateOpacity
  split
  · exact ellipsoid_setOpacity_transient e _
  · rfl

theorem countBeforeAfter_transient (e : Ellipsoid) (cloud : Cloud) (s : Bool) (st : HitStats) :
    (countBeforeAfter e cloud s st).ellipsoid.transient = e.transient := by
  unfold countBeforeAfter
  split_ifs
  · exact ellipsoid_setOpacityGone_transient e _ _
  · rfl
  · rfl
  · rfl

/-- The value of the second opacity estimate, `h / (h + misses)` with `h = hits + 1e-8 - 1`. -/
theorem countBeforeAfter_self (e : Ellipsoid) (cloud : Cloud) (st : HitStats) :
    countBeforeAfter e cloud true st =
      { ellipsoid :=
          { e with
            opacity := ((st.hits : ℚ) + unbiasEpsilon - 1) /
              ((st.hits : ℚ) + unbiasEpsilon - 1 +
                (countPassThrough cloud.times st.first_intersection_time
                  st.last_intersection_time st.pass_through_ids).misses)
            num_gone :=
              (countPassThrough cloud.times st.first_intersection_time
                  st.last_intersection_time st.pass_through_ids).num_before +
              (countPassThrough cloud.times st.first_intersection_time
                  st.last_intersection_time st.pass_through_ids).num_after }
        num_before := (countPassThrough cloud.times st.first_intersection_time
          st.last_intersection_time st.pass_through_ids).num_before
        num_after := (countPassThrough cloud.times st.first_intersection_time
          st.last_intersection_time st.pass_through_ids).num_after } := rfl

theorem unbiasEpsilon_pos : 0 < unbiasEpsilon := by
  unfold unbiasEpsilon; norm_num

theorem unbiased_opacity_bounds (hits : ℕ) (m : ℚ) (h1 : 1 ≤ hits) (hm : 0 ≤ m) :
    0 < ((hits : ℚ) + unbiasEpsilon - 1) / ((hits : ℚ) + unbiasEpsilon - 1 + m) ∧
      ((hits : ℚ) + unbiasEpsilon - 1) / ((hits : ℚ) + unbiasEpsilon - 1 + m) ≤ 1 := by
  have h2 : (1 : ℚ) ≤ (hits : ℚ) := by exact_mod_cast h1
  have h3 : 0 < (hits : ℚ) + unbiasEpsilon - 1 := by linarith [unbiasEpsilon_pos]
  have h4 : 0 < (hits : ℚ) + unbiasEpsilon - 1 + m := by linarith
  exact ⟨div_pos h3 h4, (div_le_one h4).mpr (by linarith)⟩

theorem le_div_of_opacity (T op : ℚ) (hT : 0 ≤ T) (h0 : 0 < op) (h1 : op ≤ 1) : T ≤ T / op := by
  rw [le_div_iff₀ h0]
  nlinarith

/-- In self-transient mode the sequence length is at least the threshold. -/
theorem sequenceLength_self_ge (e : Ellipsoid) (cloud : Cloud) (T : ℚ) (st : HitStats)
    (hT : 0 ≤ T) (h1 : 1 ≤ st.hits) :
    T ≤ sequenceLength T (countBeforeAfter e cloud true st) := by
  rw [countBeforeAfter_self]
  unfold sequenceLength
  have hb := unbiased_opacity_bounds st.hits _ h1
    (countPassThrough_total cloud.times st.first_intersection_time
      st.last_intersection_time st.pass_through_ids).2
  exact le_div_of_opacity T _ hT hb.1 hb.2

/-- In self-transient mode the before and after counts sum to at most the length of the
pass-through list. -/
theorem counts_self_le (e : Ellipsoid) (cloud : Cloud) (st : HitStats) :
    (((countBeforeAfter e cloud true st).num_before +
        (countBeforeAfter e cloud true st).num_after : ℕ) : ℚ) ≤
      (st.pass_through_ids.length : ℚ) := by
  rw [countBeforeAfter_self]
  have h := countPassThrough_total cloud.times st.first_intersection_time
    st.last_intersection_time st.pass_through_ids
  push_cast
  linarith [h.1, h.2]

theorem removeDecision_minimum (b a : Nat) (seq : ℚ) :
    removeDecision MergeType.Mininum b a seq =
      if ((b + a : ℕ) : ℚ) < seq then none else some true := by
  simp [removeDecision]

theorem removeDecision_maximum (b a : Nat) (seq : ℚ) :
    removeDecision MergeType.Maximum b a seq =
      if ((b + a : ℕ) : ℚ) < seq then none else some false := by
  simp [removeDecision]

theorem removeDecision_oldest (b a : Nat) (seq : ℚ) :
    removeDecision MergeType.Oldest b a seq =
      if ((max b a : ℕ) : ℚ) < seq then none else some (decide (seq ≤ (b : ℚ))) := by
  simp [removeDecision]

theorem removeDecision_newest (b a : Nat) (seq : ℚ) :
    removeDecision MergeType.Newest b a seq =
      if ((max b a : ℕ) : ℚ) < seq then none else some (decide (seq ≤ (a : ℚ))) := by
  simp [removeDecision]

theorem removeDecision_none_of_lt (mt : MergeType) (b a : Nat) (seq : ℚ)
    (h : ((b + a : ℕ) : ℚ) < seq) : removeDecision mt b a seq = none := by
  have hmax : ((max b a : ℕ) : ℚ) < seq := by
    have : ((max b a : ℕ) : ℚ) ≤ ((b + a : ℕ) : ℚ) := by
      exact_mod_cast (max_le (Nat.le_add_right b a) (Nat.le_add_left a b))
    linarith
  cases mt
  · rw [removeDecision_oldest, if_pos hmax]
  · rw [removeDecision_newest, if_pos hmax]
  · rw [removeDecision_minimum, if_pos h]
  · rw [removeDecision_maximum, if_pos h]

theorem applyPolicy_of_none (c : Counted) (t : List Bool) (cloud : Cloud) (T : ℚ)
    (mt : MergeType) (s : Bool) (st : HitStats)
    (h : removeDecision mt c.num_before c.num_after (sequenceLength T c) = none) :
    applyPolicy c t cloud T mt s st = (c.ellipsoid, t) := by
  unfold applyPolicy
  rw [h]

theorem markClassify_early (e : Ellipsoid) (t : List Bool) (cloud : Cloud) (T : ℚ)
    (mt : MergeType) (s : Bool) (st : HitStats)
    (h : markEarlyReturn (markOpacity e T s st) T = true) :
    markClassify e t cloud T mt s st = (markOpacity e T s st, t) := by
  unfold markClassify
  simp only [h, if_true]

theorem markClassify_late (e : Ellipsoid) (t : List Bool) (cloud : Cloud) (T : ℚ)
    (mt : MergeType) (s : Bool) (st : HitStats)
    (h : markEarlyReturn (markOpacity e T s st) T = false) :
    markClassify e t cloud T mt s st =
      applyPolicy (countBeforeAfter (markOpacity e T s st) cloud s st) t cloud T mt s st := by
  unfold markClassify
  simp only [h, Bool.false_eq_true, if_false]

theorem updateClassify_early (e : Ellipsoid) (t : List Bool) (cloud : Cloud) (T : ℚ)
    (mt : MergeType) (s : Bool) (st : HitStats)
    (h : updateEarlyReturn (updateOpacity e s st) T st = true) :
    updateClassify e t cloud T mt s st = (updateOpacity e s st, t) := by
  unfold updateClassify
  simp only [h, if_true]

theorem updateClassify_late (e : Ellipsoid) (t : List Bool) (cloud : Cloud) (T : ℚ)
    (mt : MergeType) (s : Bool) (st : HitStats)
    (h : updateEarlyReturn (updateOpacity e s st) T st = false) :
    updateClassify e t cloud T mt s st =
      applyPolicy (countBeforeAfter (updateOpacity e s st) cloud s st) t cloud T mt s st := by
  unfold updateClassify
  simp only [h, Bool.false_eq_true, if_false]

theorem markOpacity_self_opacity (e : Ellipsoid) (T : ℚ) (st : HitStats) :
    (markOpacity e T true st).opacity =
      (st.hits : ℚ) / ((st.hits : ℚ) + (st.pass_through_ids.length : ℚ)) := by
  unfold markOpacity
  simp

theorem updateOpacity_self_opacity (e : Ellipsoid) (st : HitStats) :
    (updateOpacity e true st).opacity =
      (st.hits : ℚ) / ((st.hits : ℚ) + (st.pass_through_ids.length : ℚ)) := by
  unfold updateOpacity
  simp

/-- Past the early return of `mark` in self-transient mode there is at least one hit. -/
theorem hits_pos_of_mark_late (e : Ellipsoid) (T : ℚ) (st : HitStats)
    (h : markEarlyReturn (markOpacity e T true st) T = false) : 1 ≤ st.hits := by
  unfold markEarlyReturn at h
  rw [markOpacity_self_opacity] at h
  simp only [decide_eq_false_iff_not, not_or] at h
  by_contra hc
  have h0 : st.hits = 0 := by omega
  apply h.2.1
  rw [h0]
  simp

/-- Past the early return of the update pass in self-transient mode there is at least one
hit. -/
theorem hits_pos_of_update_late (e : Ellipsoid) (T : ℚ) (st : HitStats)
    (h : updateEarlyReturn (updateOpacity e true st) T st = false) : 1 ≤ st.hits := by
  unfold updateEarlyReturn at h
  rw [updateOpacity_self_opacity] at h
  simp only [decide_eq_false_iff_not, not_or] at h
  by_contra hc
  have h0 : st.hits = 0 := by omega
  apply h.2.1
  rw [h0]
  simp

theorem applyPolicy_minimum (c : Counted) (t : List Bool) (cloud : Cloud) (T : ℚ) (s : Bool)
    (st : HitStats) :
    applyPolicy c t cloud T MergeType.Mininum s st =
      if ((c.num_before + c.num_after : ℕ) : ℚ) < sequenceLength T c then (c.ellipsoid, t)
      else ({ c.ellipsoid with transient := true }, t) := by
  unfold applyPolicy
  rw [removeDecision_minimum]
  split_ifs <;> rfl

theorem applyPolicy_maximum (c : Counted) (t : List Bool) (cloud : Cloud) (T : ℚ) (s : Bool)
    (st : HitStats) :
    applyPolicy c t cloud T MergeType.Maximum s st =
      if ((c.num_before + c.num_after : ℕ) : ℚ) < sequenceLength T c then (c.ellipsoid, t)
      else (c.ellipsoid, markRays cloud.times s st.first_intersection_time
        st.last_intersection_time c.ellipsoid.opacity 0 st.pass_through_ids t) := by
  unfold applyPolicy
  rw [removeDecision_maximum]
  split_ifs <;> rfl

theorem applyPolicy_oldest (c : Counted) (t : List Bool) (cloud : Cloud) (T : ℚ) (s : Bool)
    (st : HitStats) :
    applyPolicy c t cloud T MergeType.Oldest s st =
      if ((max c.num_before c.num_after : ℕ) : ℚ) < sequenceLength T c then (c.ellipsoid, t)
      else if sequenceLength T c ≤ (c.num_before : ℚ) then
        ({ c.ellipsoid with transient := true }, t)
      else (c.ellipsoid, markRays cloud.times s st.first_intersection_time
        st.last_intersection_time c.ellipsoid.opacity 0 st.pass_through_ids t) := by
  unfold applyPolicy
  rw [removeDecision_oldest]
  split_ifs with h1 h2
  · rfl
  · rw [decide_eq_true h2]
  · rw [decide_eq_false h2]

theorem applyPolicy_newest (c : Counted) (t : List Bool) (cloud : Cloud) (T : ℚ) (s : Bool)
    (st : HitStats) :
    applyPolicy c t cloud T MergeType.Newest s st =
      if ((max c.num_before c.num_after : ℕ) : ℚ) < sequenceLength T c then (c.ellipsoid, t)
      else if sequenceLength T c ≤ (c.num_after : ℚ) then
        ({ c.ellipsoid with transient := true }, t)
      else (c.ellipsoid, markRays cloud.times s st.first_intersection_time
        st.last_intersection_time c.ellipsoid.opacity 0 st.pass_through_ids t) := by
  unfold applyPolicy
  rw [removeDecision_newest]
  split_ifs with h1 h2
  · rfl
  · rw [decide_eq_true h2]
  · rw [decide_eq_false h2]

/-- A call of `mark` either returns before the classification, leaving the ellipsoid and
the ray marks as they were, or returns what the classification of lines 151-266 returns
on some intersection statistics. -/
theorem mark_result (C : External) (m : EllipsoidTransientMarker) (e : Ellipsoid)
    (t : List Bool) (cloud : Cloud) (grid : Grid) (T : ℚ) (mt : MergeType) (s : Bool) :
    (m.mark C e t cloud grid T mt s).2 = (e, t) ∨
      ∃ st : HitStats, (m.mark C e t cloud grid T mt s).2 = markClassify e t cloud T mt s st := by
  unfold EllipsoidTransientMarker.mark
  dsimp only
  split_ifs <;>
    first
    | exact Or.inr ⟨_, rfl⟩
    | exact Or.inl rfl

theorem markClassify_minimum_marks (e : Ellipsoid) (t : List Bool) (cloud : Cloud) (T : ℚ)
    (s : Bool) (st : HitStats) : (markClassify e t cloud T MergeType.Mininum s st).2 = t := by
  cases h : markEarlyReturn (markOpacity e T s st) T
  · rw [markClassify_late _ _ _ _ _ _ _ h, applyPolicy_minimum]
    split_ifs <;> rfl
  · rw [markClassify_early _ _ _ _ _ _ _ h]

theorem markClassify_maximum_transient (e : Ellipsoid) (t : List Bool) (cloud : Cloud) (T : ℚ)
    (s : Bool) (st : HitStats) :
    (markClassify e t cloud T MergeType.Maximum s st).1.transient = e.transient := by
  cases h : markEarlyReturn (markOpacity e T s st) T
  · rw [markClassify_late _ _ _ _ _ _ _ h, applyPolicy_maximum]
    split_ifs <;>
      exact (countBeforeAfter_transient _ _ _ _).trans (markOpacity_transient _ _ _ _)
  · rw [markClassify_early _ _ _ _ _ _ _ h]
    exact markOpacity_transient _ _ _ _

/-! ## Claims on the classifier -/

/-- C5: in self-transient mode with a threshold `T > 0`, for every merge type, an ellipsoid
whose pass-through list has fewer than `T` rays keeps its transient flag and no ray mark
is changed, in `mark` and in the update pass of the ellipse-grid strategy. -/
theorem below_threshold_not_transient (e : Ellipsoid) (t : List Bool) (cloud : Cloud) (T : ℚ)
    (mt : MergeType) (st : HitStats) (hT : 0 < T)
    (hlen : (st.pass_through_ids.length : ℚ) < T) :
    (markClassify e t cloud T mt true st).1.transient = e.transient ∧
    (markClassify e t cloud T mt true st).2 = t ∧
    (updateClassify e t cloud T mt true st).1.transient = e.transient ∧
    (updateClassify e t cloud T mt true st).2 = t := by
  have key : ∀ e' : Ellipsoid, 1 ≤ st.hits →
      removeDecision mt (countBeforeAfter e' cloud true st).num_before
        (countBeforeAfter e' cloud true st).num_after
        (sequenceLength T (countBeforeAfter e' cloud true st)) = none := by
    intro e' h1
    apply removeDecision_none_of_lt
    have h2 := counts_self_le e' cloud st
    have h3 := sequenceLength_self_ge e' cloud T st hT.le h1
    linarith
  have hm : (markClassify e t cloud T mt true st).1.transient = e.transient ∧
      (markClassify e t cloud T mt true st).2 = t := by
    cases h : markEarlyReturn (markOpacity e T true st) T
    · rw [markClassify_late _ _ _ _ _ _ _ h,
        applyPolicy_of_none _ _ _ _ _ _ _ (key _ (hits_pos_of_mark_late e T st h))]
      exact ⟨(countBeforeAfter_transient _ _ _ _).trans (markOpacity_transient _ _ _ _), rfl⟩
    · rw [markClassify_early _ _ _ _ _ _ _ h]
      exact ⟨markOpacity_transient _ _ _ _, rfl⟩
  have hu : (updateClassify e t cloud T mt true st).1.transient = e.transient ∧
      (updateClassify e t cloud T mt true st).2 = t := by
    cases h : updateEarlyReturn (updateOpacity e true st) T st
    · rw [updateClassify_late _ _ _ _ _ _ _ h,
        applyPolicy_of_none _ _ _ _ _ _ _ (key _ (hits_pos_of_update_late e T st h))]
      exact ⟨(countBeforeAfter_transient _ _ _ _).trans (updateOpacity_transient _ _ _), rfl⟩
    · rw [updateClassify_early _ _ _ _ _ _ _ h]
      exact ⟨updateOpacity_transient _ _ _, rfl⟩
  exact ⟨hm.1, hm.2, hu.1, hu.2⟩

/-- C6: under merge type Minimum, an ellipsoid not yet transient is flagged transient by
the classification of `mark` exactly when it passes the early return of line 157 and
`num_before + num_after >= sequence_length`, with `sequence_length = num_rays / opacity`;
the ray marks are never changed, neither by the classification nor by a whole call of
`mark` on any grid. -/
theorem minimum_flags_iff (e : Ellipsoid) (t : List Bool) (cloud : Cloud) (T : ℚ) (s : Bool)
    (st : HitStats) (he : e.transient = false) :
    ((markClassify e t cloud T MergeType.Mininum s st).1.transient = true ↔
      (markEarlyReturn (markOpacity e T s st) T = false ∧
        sequenceLength T (countBeforeAfter (markOpacity e T s st) cloud s st) ≤
          (((countBeforeAfter (markOpacity e T s st) cloud s st).num_before +
            (countBeforeAfter (markOpacity e T s st) cloud s st).num_after : ℕ) : ℚ))) ∧
    (markClassify e t cloud T MergeType.Mininum s st).2 = t ∧
    (∀ (C : External) (m : EllipsoidTransientMarker) (grid : Grid),
      (m.mark C e t cloud grid T MergeType.Mininum s).2.2 = t) := by
  have hmark : ∀ (C : External) (m : EllipsoidTransientMarker) (grid : Grid),
      (m.mark C e t cloud grid T MergeType.Mininum s).2.2 = t := by
    intro C m grid
    rcases mark_result C m e t cloud grid T MergeType.Mininum s with h | ⟨st2, h⟩
    · rw [h]
    · rw [h]
      exact markClassify_minimum_marks _ _ _ _ _ _
  refine ⟨?_, markClassify_minimum_marks _ _ _ _ _ _, hmark⟩
  have hc : (countBeforeAfter (markOpacity e T s st) cloud s st).ellipsoid.transient = false :=
    ((countBeforeAfter_transient _ _ _ _).trans (markOpacity_transient _ _ _ _)).trans he
  cases h : markEarlyReturn (markOpacity e T s st) T
  · rw [markClassify_late _ _ _ _ _ _ _ h, applyPolicy_minimum]
    split_ifs with h1
    · refine ⟨fun h2 => ?_, fun h2 => absurd h2.2 (not_le.mpr h1)⟩
      rw [hc] at h2
      exact absurd h2 (by decide)
    · exact ⟨fun _ => ⟨rfl, not_lt.mp h1⟩, fun _ => rfl⟩
  · rw [markClassify_early _ _ _ _ _ _ _ h]
    refine ⟨fun h2 => ?_, fun h2 => absurd h2.1 (by decide)⟩
    rw [markOpacity_transient, he] at h2
    exact absurd h2 (by decide)

/-- C7: under merge type Maximum neither the classification of `mark` nor a whole call of
`mark` changes the transient flag of the ellipsoid; the policy goes on to act exactly
when it does under Minimum, that is when `num_before + num_after >= sequence_length`;
the ray marks change only past the early return and under that condition, and every ray
whose mark is set is a member of the pass-through list. -/
theorem maximum_marks_pass_through (e : Ellipsoid) (t : List Bool) (cloud : Cloud) (T : ℚ)
    (s : Bool) (st : HitStats) :
    (markClassify e t cloud T MergeType.Maximum s st).1.transient = e.transient ∧
    (∀ (C : External) (m : EllipsoidTransientMarker) (grid : Grid),
      (m.mark C e t cloud grid T MergeType.Maximum s).2.1.transient = e.transient) ∧
    (∀ (b a : Nat) (seq : ℚ),
      (removeDecision MergeType.Maximum b a seq).isSome =
        (removeDecision MergeType.Mininum b a seq).isSome ∧
      ((removeDecision MergeType.Maximum b a seq).isSome = true ↔ seq ≤ ((b + a : ℕ) : ℚ)) ∧
      removeDecision MergeType.Maximum b a seq ≠ some true) ∧
    ((markClassify e t cloud T MergeType.Maximum s st).2 ≠ t →
      (markEarlyReturn (markOpacity e T s st) T = false ∧
        sequenceLength T (countBeforeAfter (markOpacity e T s st) cloud s st) ≤
          (((countBeforeAfter (markOpacity e T s st) cloud s st).num_before +
            (countBeforeAfter (markOpacity e T s st) cloud s st).num_after : ℕ) : ℚ))) ∧
    (∀ i, (markClassify e t cloud T MergeType.Maximum s st).2.getD i false = true →
      t.getD i false = true ∨ i ∈ st.pass_through_ids) := by
  have hc : (countBeforeAfter (markOpacity e T s st) cloud s st).ellipsoid.transient =
      e.transient :=
    (countBeforeAfter_transient _ _ _ _).trans (markOpacity_transient _ _ _ _)
  have hpol : ∀ (b a : Nat) (seq : ℚ),
      (removeDecision MergeType.Maximum b a seq).isSome =
        (removeDecision MergeType.Mininum b a seq).isSome ∧
      ((removeDecision MergeType.Maximum b a seq).isSome = true ↔ seq ≤ ((b + a : ℕ) : ℚ)) ∧
      removeDecision MergeType.Maximum b a seq ≠ some true := by
    intro b a seq
    rw [removeDecision_maximum, removeDecision_minimum]
    split_ifs with h1
    · exact ⟨rfl, ⟨fun h2 => absurd h2 (by decide), fun h2 => absurd h2 (not_le.mpr h1)⟩,
        by decide⟩
    · exact ⟨rfl, ⟨fun _ => not_lt.mp h1, fun _ => rfl⟩, by decide⟩
  have hmark : ∀ (C : External) (m : EllipsoidTransientMarker) (grid : Grid),
      (m.mark C e t cloud grid T MergeType.Maximum s).2.1.transient = e.transient := by
    intro C m grid
    rcases mark_result C m e t cloud grid T MergeType.Maximum s with h | ⟨st2, h⟩
    · rw [h]
    · rw [h]
      exact markClassify_maximum_transient _ _ _ _ _ _
  cases h : markEarlyReturn (markOpacity e T s st) T
  · rw [markClassify_late _ _ _ _ _ _ _ h, applyPolicy_maximum]
    split_ifs with h1
    · exact ⟨hc, hmark, hpol, fun h2 => absurd rfl h2, fun i h2 => Or.inl h2⟩
    · refine ⟨hc, hmark, hpol, fun _ => ⟨rfl, not_lt.mp h1⟩, fun i h2 => ?_⟩
      rcases markRays_getD _ _ _ _ _ _ _ _ _ h2 with h3 | h3
      · exact Or.inl h3
      · exact Or.inr h3.1
  · rw [markClassify_early _ _ _ _ _ _ _ h]
    exact ⟨markOpacity_transient _ _ _ _, hmark, hpol, fun h2 => absurd rfl h2,
      fun i h2 => Or.inl h2⟩

/-- C8: under merge type Oldest, for an ellipsoid not yet transient that passes the early
return, with `sequence_length = num_rays / opacity`: if
`max(num_before, num_after) < sequence_length` the policy step returns the ellipsoid as the
counting step left it and the ray marks as they were; otherwise the ellipsoid is flagged
transient exactly when `num_before >= sequence_length`.  This holds in `mark` and in the
update pass of the ellipse-grid strategy. -/
theorem oldest_policy (e : Ellipsoid) (t : List Bool) (cloud : Cloud) (T : ℚ) (s : Bool)
    (st : HitStats) (he : e.transient = false) :
    (markEarlyReturn (markOpacity e T s st) T = false →
      (((max (countBeforeAfter (markOpacity e T s st) cloud s st).num_before
            (countBeforeAfter (markOpacity e T s st) cloud s st).num_after : ℕ) : ℚ) <
          sequenceLength T (countBeforeAfter (markOpacity e T s st) cloud s st) →
        markClassify e t cloud T MergeType.Oldest s st =
          ((countBeforeAfter (markOpacity e T s st) cloud s st).ellipsoid, t)) ∧
      (¬ ((max (countBeforeAfter (markOpacity e T s st) cloud s st).num_before
            (countBeforeAfter (markOpacity e T s st) cloud s st).num_after : ℕ) : ℚ) <
          sequenceLength T (countBeforeAfter (markOpacity e T s st) cloud s st) →
        ((markClassify e t cloud T MergeType.Oldest s st).1.transient = true ↔
          sequenceLength T (countBeforeAfter (markOpacity e T s st) cloud s st) ≤
            ((countBeforeAfter (markOpacity e T s st) cloud s st).num_before : ℚ)))) ∧
    (updateEarlyReturn (updateOpacity e s st) T st = false →
      (((max (countBeforeAfter (updateOpacity e s st) cloud s st).num_before
            (countBeforeAfter (updateOpacity e s st) cloud s st).num_after : ℕ) : ℚ) <
          sequenceLength T (countBeforeAfter (updateOpacity e s st) cloud s st) →
        updateClassify e t cloud T MergeType.Oldest s st =
          ((countBeforeAfter (updateOpacity e s st) cloud s st).ellipsoid, t)) ∧
      (¬ ((max (countBeforeAfter (updateOpacity e s st) cloud s st).num_before
            (countBeforeAfter (updateOpacity e s st) cloud s st).num_after : ℕ) : ℚ) <
          sequenceLength T (countBeforeAfter (updateOpacity e s st) cloud s st) →
        ((updateClassify e t cloud T MergeType.Oldest s st).1.transient = true ↔
          sequenceLength T (countBeforeAfter (updateOpacity e s st) cloud s st) ≤
            ((countBeforeAfter (updateOpacity e s st) cloud s st).num_before : ℚ)))) := by
  have key : ∀ c : Counted, c.ellipsoid.transient = false →
      (((max c.num_before c.num_after : ℕ) : ℚ) < sequenceLength T c →
        applyPolicy c t cloud T MergeType.Oldest s st = (c.ellipsoid, t)) ∧
      (¬ ((max c.num_before c.num_after : ℕ) : ℚ) < sequenceLength T c →
        ((applyPolicy c t cloud T MergeType.Oldest s st).1.transient = true ↔
          sequenceLength T c ≤ (c.num_before : ℚ))) := by
    intro c hc
    rw [applyPolicy_oldest]
    constructor
    · intro h1
      rw [if_pos h1]
    · intro h1
      rw [if_neg h1]
      split_ifs with h2
      · exact ⟨fun _ => h2, fun _ => rfl⟩
      · refine ⟨fun h3 => ?_, fun h3 => absurd h3 h2⟩
        rw [hc] at h3
        exact absurd h3 (by decide)
  constructor
  · intro h
    rw [markClassify_late _ _ _ _ _ _ _ h]
    exact key _ (((countBeforeAfter_transient _ _ _ _).trans
      (markOpacity_transient _ _ _ _)).trans he)
  · intro h
    rw [updateClassify_late _ _ _ _ _ _ _ h]
    exact key _ (((countBeforeAfter_transient _ _ _ _).trans
      (updateOpacity_transient _ _ _)).trans he)

/-- What the marking loop does under merge type Oldest in self-transient mode, when the
policy triggers but the ellipsoid is kept (`num_before < sequence_length <= num_after`): the
transient flag is unchanged and every ray whose mark is set is a pass-through ray whose
time is greater than `last_intersection_time` or less than `first_intersection_time`. -/
theorem oldest_kept_marks_outside (e : Ellipsoid) (t : List Bool) (cloud : Cloud) (T : ℚ)
    (st : HitStats) (hlate : markEarlyReturn (markOpacity e T true st) T = false)
    (hb : ((countBeforeAfter (markOpacity e T true st) cloud true st).num_before : ℚ) <
      sequenceLength T (countBeforeAfter (markOpacity e T true st) cloud true st))
    (ha : sequenceLength T (countBeforeAfter (markOpacity e T true st) cloud true st) ≤
      ((countBeforeAfter (markOpacity e T true st) cloud true st).num_after : ℚ)) :
    (markClassify e t cloud T MergeType.Oldest true st).1.transient = e.transient ∧
    (∀ i, (markClassify e t cloud T MergeType.Oldest true st).2.getD i false = true →
      t.getD i false = true ∨
        (i ∈ st.pass_through_ids ∧
          (cloud.times.getD i default > st.last_intersection_time ∨
            cloud.times.getD i default < st.first_intersection_time))) := by
  have hmax : ¬ ((max (countBeforeAfter (markOpacity e T true st) cloud true st).num_before
      (countBeforeAfter (markOpacity e T true st) cloud true st).num_after : ℕ) : ℚ) <
      sequenceLength T (countBeforeAfter (markOpacity e T true st) cloud true st) := by
    have : ((countBeforeAfter (markOpacity e T true st) cloud true st).num_after : ℚ) ≤
        ((max (countBeforeAfter (markOpacity e T true st) cloud true st).num_before
          (countBeforeAfter (markOpacity e T true st) cloud true st).num_after : ℕ) : ℚ) := by
      exact_mod_cast le_max_right _ _
    linarith
  rw [markClassify_late _ _ _ _ _ _ _ hlate, applyPolicy_oldest, if_neg hmax,
    if_neg (not_le.mpr hb)]
  refine ⟨(countBeforeAfter_transient _ _ _ _).trans (markOpacity_transient _ _ _ _), ?_⟩
  intro i h
  rcases markRays_getD _ _ _ _ _ _ _ _ _ h with h1 | h1
  · exact Or.inl h1
  · refine Or.inr ⟨h1.1, ?_⟩
    have h2 := h1.2
    unfold rayEligible at h2
    simp only [Bool.not_true, Bool.false_or, Bool.or_eq_true, decide_eq_true_eq] at h2
    rcases h2 with h3 | h3
    · exact Or.inr h3
    · exact Or.inl h3

/-- C10: under merge type Newest an ellipsoid not yet transient is flagged transient by
`mark` exactly when the call passes the early return, the policy triggers
(`max(num_before, num_after) >= sequence_length`) and `num_after >= sequence_length`; the
Newest decision on counts `(b, a)` is the Oldest decision on the swapped counts `(a, b)`. -/
theorem newest_mirrors_oldest (e : Ellipsoid) (t : List Bool) (cloud : Cloud) (T : ℚ)
    (s : Bool) (st : HitStats) (he : e.transient = false) :
    ((markClassify e t cloud T MergeType.Newest s st).1.transient = true ↔
      (markEarlyReturn (markOpacity e T s st) T = false ∧
        sequenceLength T (countBeforeAfter (markOpacity e T s st) cloud s st) ≤
          ((max (countBeforeAfter (markOpacity e T s st) cloud s st).num_before
            (countBeforeAfter (markOpacity e T s st) cloud s st).num_after : ℕ) : ℚ) ∧
        sequenceLength T (countBeforeAfter (markOpacity e T s st) cloud s st) ≤
          ((countBeforeAfter (markOpacity e T s st) cloud s st).num_after : ℚ))) ∧
    (∀ (b a : Nat) (seq : ℚ),
      removeDecision MergeType.Newest b a seq = removeDecision MergeType.Oldest a b seq) := by
  have hc : (countBeforeAfter (markOpacity e T s st) cloud s st).ellipsoid.transient = false :=
    ((countBeforeAfter_transient _ _ _ _).trans (markOpacity_transient _ _ _ _)).trans he
  constructor
  · cases h : markEarlyReturn (markOpacity e T s st) T
    · rw [markClassify_late _ _ _ _ _ _ _ h, applyPolicy_newest]
      split_ifs with h1 h2
      · refine ⟨fun h3 => ?_, fun h3 => absurd h3.2.1 (not_le.mpr h1)⟩
        rw [hc] at h3
        exact absurd h3 (by decide)
      · exact ⟨fun _ => ⟨rfl, not_lt.mp h1, h2⟩, fun _ => rfl⟩
      · refine ⟨fun h3 => ?_, fun h3 => absurd h3.2.2 h2⟩
        rw [hc] at h3
        exact absurd h3 (by decide)
    · rw [markClassify_early _ _ _ _ _ _ _ h]
      refine ⟨fun h2 => ?_, fun h2 => absurd h2.1 (by decide)⟩
      rw [markOpacity_transient, he] at h2
      exact absurd h2 (by decide)
  · intro b a seq
    rw [removeDecision_newest, removeDecision_oldest, max_comm]

/-! ## Lemmas on the marking passes -/

theorem foldl_invariant {α β : Type} (P : β → Prop) (step : β → α → β)
    (h : ∀ b a, P b → P (step b a)) : ∀ (l : List α) (b : β), P b → P (l.foldl step b) := by
  intro l
  induction l with
  | nil => intro b hb; exact hb
  | cons a l ih => intro b hb; exact ih _ (h b a hb)

theorem visitEllipsoid_same (C : External) (cloud : Cloud) (ray_id : Nat)
    (f g : TransientFilter) (k : Nat) (h : SameButMarks f g) :
    SameButMarks f (visitEllipsoid C cloud ray_id g k) := by
  unfold visitEllipsoid
  dsimp only
  split <;> exact h

theorem walkRay_same (C : External) (cloud : Cloud) (grid : Grid) (ray_id : Nat)
    (f g : TransientFilter) (h : SameButMarks f g) :
    SameButMarks f (walkRay C g cloud grid ray_id) := by
  unfold walkRay
  split
  · apply foldl_invariant (SameButMarks f) _ _ _ _ h
    intro b cell hb
    apply foldl_invariant (SameButMarks f) _ _ _ _ hb
    intro b' k hb'
    exact visitEllipsoid_same C cloud ray_id f b' k hb'
  · exact h

theorem getD_transient_false (l : List Ellipsoid) (h : ∀ e ∈ l, e.transient = false) (i : Nat) :
    (l.getD i default).transient = false := by
  rw [List.getD_eq_getElem?_getD]
  cases hi : l[i]? with
  | none => rfl
  | some a => exact h a (List.getElem?_mem hi)

theorem set_transient_false (l : List Ellipsoid) (h : ∀ e ∈ l, e.transient = false) (i : Nat)
    (x : Ellipsoid) (hx : x.transient = false) : ∀ e ∈ l.set i x, e.transient = false := by
  intro e he
  rcases List.mem_or_eq_of_mem_set he with h1 | h1
  · exact h e h1
  · rw [h1]; exact hx

theorem getD_replicate_false (n i : Nat) : (List.replicate n false).getD i false = false := by
  rw [List.getD_eq_getElem?_getD, List.getElem?_replicate]
  split <;> rfl

/-- The ray-grid marking pass keeps the number of ellipsoids and the other members. -/
theorem markRayGrid_frame (C : External) (f : TransientFilter) (cloud : Cloud) (grid : Grid)
    (t : List Bool) (s : Bool) :
    (markIntersectedEllipsoidsWithRayGrid C f cloud grid t s).1.ellipsoids_.length =
        f.ellipsoids_.length ∧
      (markIntersectedEllipsoidsWithRayGrid C f cloud grid t s).1.config_ = f.config_ ∧
      (markIntersectedEllipsoidsWithRayGrid C f cloud grid t s).1.transient_ = f.transient_ ∧
      (markIntersectedEllipsoidsWithRayGrid C f cloud grid t s).1.fixed_ = f.fixed_ := by
  unfold markIntersectedEllipsoidsWithRayGrid
  refine ⟨?_, rfl, rfl, rfl⟩
  apply foldl_invariant
    (fun acc : EllipsoidTransientMarker × List Ellipsoid × List Bool =>
      acc.2.1.length = f.ellipsoids_.length)
  · intro b a hb
    unfold processEllipsoid
    simpa using hb
  · rfl

theorem walkPhase_same (C : External) (cloud : Cloud) (grid : Grid) (ids : List Nat)
    (f : TransientFilter) :
    SameButMarks f (ids.foldl (fun f ray_id => walkRay C f cloud grid ray_id) f) := by
  apply foldl_invariant (SameButMarks f) _ _ _ _ ⟨rfl, rfl, rfl, rfl, rfl⟩
  intro b a hb
  exact walkRay_same C cloud grid a f b hb

theorem updatePhase_frame (cloud : Cloud) (s : Bool) (ids : List Nat) (f g : TransientFilter)
    (h : g.ellipsoids_.length = f.ellipsoids_.length ∧ g.config_ = f.config_ ∧
      g.transient_ = f.transient_ ∧ g.fixed_ = f.fixed_) :
    (ids.foldl (updateEllipsoid cloud s) g).ellipsoids_.length = f.ellipsoids_.length ∧
      (ids.foldl (updateEllipsoid cloud s) g).config_ = f.config_ ∧
      (ids.foldl (updateEllipsoid cloud s) g).transient_ = f.transient_ ∧
      (ids.foldl (updateEllipsoid cloud s) g).fixed_ = f.fixed_ := by
  apply foldl_invariant
    (fun g : TransientFilter => g.ellipsoids_.length = f.ellipsoids_.length ∧
      g.config_ = f.config_ ∧ g.transient_ = f.transient_ ∧ g.fixed_ = f.fixed_) _ _ _ _ h
  intro b a hb
  unfold updateEllipsoid
  simpa using hb

/-- The ellipse-grid marking pass keeps the number of ellipsoids and the other members. -/
theorem markEllipseGrid_frame (C : External) (f : TransientFilter) (cloud : Cloud)
    (grid : Grid) (s : Bool) :
    (markIntersectedEllipsoidsWithEllipseGrid C f cloud grid s).ellipsoids_.length =
        f.ellipsoids_.length ∧
      (markIntersectedEllipsoidsWithEllipseGrid C f cloud grid s).config_ = f.config_ ∧
      (markIntersectedEllipsoidsWithEllipseGrid C f cloud grid s).transient_ = f.transient_ ∧
      (markIntersectedEllipsoidsWithEllipseGrid C f cloud grid s).fixed_ = f.fixed_ := by
  unfold markIntersectedEllipsoidsWithEllipseGrid
  dsimp only
  obtain ⟨h1, _, h3, h4, h5⟩ := walkPhase_same C cloud grid (List.range cloud.rayCount)
    { f with transient_marks_ := resizeBools f.transient_marks_ cloud.rayCount false }
  exact updatePhase_frame cloud s _ f _ ⟨by rw [h1], h3, h4, h5⟩

theorem resizeBools_nil (n : Nat) : resizeBools [] n false = List.replicate n false := by
  simp [resizeBools]

/-! ## Claims on the whole filter -/

theorem sampleCloud_wellFormed : sampleCloud.WellFormed := ⟨rfl, rfl, rfl⟩

theorem below_threshold_not_transient_witness :
    (0 : ℚ) < 5 ∧ (passStats.pass_through_ids.length : ℚ) < 5 ∧
    (markClassify passEllipsoid passMarks passCloud 5 MergeType.Maximum true
      passStats).1.transient = passEllipsoid.transient ∧
    (markClassify passEllipsoid passMarks passCloud 5 MergeType.Maximum true passStats).2 =
      passMarks ∧
    (updateClassify passEllipsoid passMarks passCloud 5 MergeType.Maximum true
      passStats).1.transient = passEllipsoid.transient ∧
    (updateClassify passEllipsoid passMarks passCloud 5 MergeType.Maximum true passStats).2 =
      passMarks :=
  ⟨by decide!, by decide!,
    below_threshold_not_transient passEllipsoid passMarks passCloud 5 MergeType.Maximum
      passStats (by decide!) (by decide!)⟩

theorem minimum_flags_iff_witness :
    passEllipsoid.transient = false ∧
    (markClassify passEllipsoid passMarks passCloud 2 MergeType.Mininum true
      passStats).1.transient = true ∧
    (markClassify passEllipsoid passMarks passCloud 2 MergeType.Mininum true passStats).2 =
      passMarks :=
  ⟨rfl,
    (minimum_flags_iff passEllipsoid passMarks passCloud 2 true passStats rfl).1.mpr
      (by decide!),
    (minimum_flags_iff passEllipsoid passMarks passCloud 2 true passStats rfl).2.1⟩

theorem oldest_policy_witness :
    passEllipsoid.transient = false ∧
    markEarlyReturn (markOpacity passEllipsoid 2 true passStats) 2 = false ∧
    ¬ (markClassify passEllipsoid passMarks passCloud 2 MergeType.Oldest true
      passStats).1.transient = true :=
  ⟨rfl, by decide!,
    fun h =>
      absurd
        ((((oldest_policy passEllipsoid passMarks passCloud 2 true passStats rfl).1
          (by decide!)).2 (by decide!)).mp h)
        (by decide!)⟩

theorem oldest_kept_marks_outside_witness :
    markEarlyReturn (markOpacity passEllipsoid 2 true passStats) 2 = false ∧
    (markClassify passEllipsoid passMarks passCloud 2 MergeType.Oldest true
      passStats).1.transient = passEllipsoid.transient ∧
    (∀ i, (markClassify passEllipsoid passMarks passCloud 2 MergeType.Oldest true
        passStats).2.getD i false = true →
      passMarks.getD i false = true ∨
        (i ∈ passStats.pass_through_ids ∧
          (passCloud.times.getD i default > passStats.last_intersection_time ∨
            passCloud.times.getD i default < passStats.first_intersection_time))) :=
  ⟨by decide!,
    oldest_kept_marks_outside passEllipsoid passMarks passCloud 2 passStats (by decide!)
      (by decide!) (by decide!)⟩

/-- C9: the code at the failing input.  Under Oldest in self-transient mode with threshold
2, the ellipsoid of `passStats` has `num_before = 1 < sequence_length = 2 <= num_after = 2`
and is kept, yet the mark of ray 0 is set, a pass-through ray whose time 0 is before
`first_intersection_time = 5` and not after `last_intersection_time`: the marking loop of
lines 245-264 (and 587-606) takes the rays of both sides, where the comment of line 214
(and 557) names the `numAfter` rays and the comment of lines 242-243 (and 582-583) the
sides that are greater than the sequence length.  The whole of `mark` on the grid
`passGrid` gathers these statistics and sets the marks of rays 0, 2 and 3, and a run of
`filter` on `passCloud` with spheres of radius 1/4 around the end points puts the rays of
times 0, 10 and 11 into the transient cloud, with either strategy, and keeps every
ellipsoid. -/
theorem oldest_marks_before_ray :
    markEarlyReturn (markOpacity passEllipsoid 2 true passStats) 2 = false ∧
    ((countBeforeAfter (markOpacity passEllipsoid 2 true passStats) passCloud true
        passStats).num_before : ℚ) <
      sequenceLength 2
        (countBeforeAfter (markOpacity passEllipsoid 2 true passStats) passCloud true
          passStats) ∧
    sequenceLength 2
        (countBeforeAfter (markOpacity passEllipsoid 2 true passStats) passCloud true
          passStats) ≤
      ((countBeforeAfter (markOpacity passEllipsoid 2 true passStats) passCloud true
        passStats).num_after : ℚ) ∧
    (markClassify passEllipsoid passMarks passCloud 2 MergeType.Oldest true
      passStats).1.transient = false ∧
    passMarks.getD 0 false = false ∧
    (markClassify passEllipsoid passMarks passCloud 2 MergeType.Oldest true
      passStats).2.getD 0 false = true ∧
    0 ∈ passStats.pass_through_ids ∧
    passCloud.times.getD 0 default < passStats.first_intersection_time ∧
    ¬ (passCloud.times.getD 0 default > passStats.last_intersection_time) ∧
    ((EllipsoidTransientMarker.init 4).mark sampleExternal passEllipsoid passMarks passCloud
      passGrid 2 MergeType.Oldest true).2.2 = [true, false, true, true] ∧
    ((TransientFilter.init (sampleConfig TransientFilterStrategy.RayGrid
        MergeType.Oldest 2)).filter sphereExternal 20 passCloud).map
      (fun r => (r.2.transient_.times, r.2.fixed_.times,
        r.2.ellipsoids_.map (fun e => e.transient))) =
      some ([0, 10, 11], [5], [false, false, false, false]) ∧
    ((TransientFilter.init (sampleConfig TransientFilterStrategy.EllipseGrid
        MergeType.Oldest 2)).filter sphereExternal 20 passCloud).map
      (fun r => (r.2.transient_.times, r.2.fixed_.times,
        r.2.ellipsoids_.map (fun e => e.transient))) =
      some ([0, 10, 11], [5], [false, false, false, false]) := by
  decide!

theorem newest_mirrors_oldest_witness :
    passEllipsoid.transient = false ∧
    (markClassify passEllipsoid passMarks passCloud 2 MergeType.Newest true
      passStats).1.transient = true :=
  ⟨rfl,
    (newest_mirrors_oldest passEllipsoid passMarks passCloud 2 true passStats rfl).1.mpr
      (by decide!)⟩

/-! ## Lemmas on the accumulator -/

theorem accumulate_invariant (p : ℚ) (hp0 : 0 < p) (hp1 : p ≤ 1) (ids : List Nat) :
    ∀ d : ℚ, 0 ≤ d → d < 1 →
      0 ≤ accumulate p d ids ∧ accumulate p d ids < 1 ∧
        accumulate p d ids = d + p * ids.length - (selectRays p d ids).length := by
  induction ids with
  | nil => intro d h0 h1; simp [accumulate, selectRays, h0, h1]
  | cons i ids ih =>
    intro d h0 h1
    unfold accumulate selectRays
    split_ifs with h
    · obtain ⟨a, b, c⟩ := ih (d + p - 1) (by linarith) (by linarith)
      refine ⟨a, b, ?_⟩
      rw [c]
      simp only [List.length_cons]
      push_cast
      ring
    · obtain ⟨a, b, c⟩ := ih (d + p) (by linarith) (by linarith)
      refine ⟨a, b, ?_⟩
      rw [c]
      simp only [List.length_cons]
      push_cast
      ring

theorem selectRays_length (p : ℚ) (hp0 : 0 < p) (hp1 : p ≤ 1) (ids : List Nat) :
    (selectRays p 0 ids).length = ⌊p * ids.length⌋₊ := by
  obtain ⟨a, b, c⟩ := accumulate_invariant p hp0 hp1 ids 0 le_rfl one_pos
  symm
  rw [Nat.floor_eq_iff (by positivity)]
  constructor <;> linarith

theorem selectRays_sublist (p : ℚ) (ids : List Nat) :
    ∀ d : ℚ, (selectRays p d ids).Sublist ids := by
  induction ids with
  | nil => intro d; exact List.Sublist.slnil
  | cons i ids ih =>
    intro d
    unfold selectRays
    split_ifs
    · exact (ih _).cons₂ i
    · exact (ih _).cons i

theorem markRays_eq_fold (times : List ℚ) (s : Bool) (first last p : ℚ) (ids : List Nat) :
    ∀ (d : ℚ) (t : List Bool),
      markRays times s first last p d ids t =
        ((selectRays p d ids).filter (rayEligible times s first last)).foldl
          (fun t i => t.set i true) t := by
  induction ids with
  | nil => intro d t; rfl
  | cons i ids ih =>
    intro d t
    unfold markRays selectRays
    split_ifs with h1 h2
    · rw [ih, List.filter_cons_of_pos h2, List.foldl_cons]
    · rw [ih, List.filter_cons_of_neg h2]
    · rw [ih]

theorem markRays_selected (times : List ℚ) (s : Bool) (first last p : ℚ) (ids : List Nat) :
    ∀ (d : ℚ) (t : List Bool) (i : Nat),
      (markRays times s first last p d ids t).getD i false = true →
      t.getD i false = true ∨ i ∈ selectRays p d ids := by
  induction ids with
  | nil => intro d t i h; exact Or.inl h
  | cons j ids ih =>
    intro d t i h
    unfold markRays at h
    unfold selectRays
    split_ifs at h ⊢ with h1 h2
    · rcases ih _ _ _ h with h3 | h3
      · rcases getD_set_true t j i h3 with h4 | h4
        · subst h4; exact Or.inr (List.mem_cons_self _ _)
        · exact Or.inl h4
      · exact Or.inr (List.mem_cons_of_mem _ h3)
    · rcases ih _ _ _ h with h3 | h3
      · exact Or.inl h3
      · exact Or.inr (List.mem_cons_of_mem _ h3)
    · exact ih _ _ _ h

/-! ## Claims on the accumulator -/

/-- C12: in the ray marking loop over a pass-through list with opacity `p`, `0 < p <= 1`,
in exact arithmetic: the accumulator selects exactly `floor(p * n)` of the `n` list
positions, after every number `k` of steps it lies in `[0, 1)` and `floor(p * k)` positions
are selected, the selected ids are a subsequence of the list (list order), the loop marks
the selected rays that pass the eligibility test, and so every ray it marks is a selected
one. -/
theorem accumulator_selects_floor (p : ℚ) (ids : List Nat) (hp0 : 0 < p) (hp1 : p ≤ 1) :
    (selectRays p 0 ids).length = ⌊p * ids.length⌋₊ ∧
    (∀ k, 0 ≤ accumulate p 0 (ids.take k) ∧ accumulate p 0 (ids.take k) < 1 ∧
      (selectRays p 0 (ids.take k)).length = ⌊p * (ids.take k).length⌋₊) ∧
    (selectRays p 0 ids).Sublist ids ∧
    (∀ (times : List ℚ) (s : Bool) (first last : ℚ) (t : List Bool),
      markRays times s first last p 0 ids t =
        ((selectRays p 0 ids).filter (rayEligible times s first last)).foldl
          (fun t i => t.set i true) t) ∧
    (∀ (times : List ℚ) (s : Bool) (first last : ℚ) (t : List Bool) (i : Nat),
      (markRays times s first last p 0 ids t).getD i false = true →
      t.getD i false = true ∨ i ∈ selectRays p 0 ids) := by
  refine ⟨selectRays_length p hp0 hp1 ids, fun k => ?_, selectRays_sublist p ids 0,
    fun times s first last t => markRays_eq_fold times s first last p ids 0 t,
    fun times s first last t i h => markRays_selected times s first last p ids 0 t i h⟩
  obtain ⟨a, b, _⟩ := accumulate_invariant p hp0 hp1 (ids.take k) 0 le_rfl one_pos
  exact ⟨a, b, selectRays_length p hp0 hp1 (ids.take k)⟩

theorem accumulator_selects_floor_witness :
    (0 : ℚ) < 2 / 3 ∧ (2 / 3 : ℚ) ≤ 1 ∧
    (selectRays (2 / 3) 0 [4, 7, 9, 12]).length =
      ⌊(2 / 3 : ℚ) * ([4, 7, 9, 12] : List Nat).length⌋₊ ∧
    selectRays (2 / 3) 0 [4, 7, 9, 12] = [7, 9] :=
  ⟨by decide!, by decide!,
    (accumulator_selects_floor (2 / 3) [4, 7, 9, 12] (by decide!) (by decide!)).1, by decide!⟩

/-! ## Further lemmas on the classifier -/

theorem getD_set_true_of_true (t : List Bool) (j i : Nat) (h : t.getD i false = true) :
    (t.set j true).getD i false = true := by
  rw [List.getD_eq_getElem?_getD] at h ⊢
  by_cases hij : j = i
  · subst hij
    have hlt : j < t.length := by
      by_contra hc
      rw [List.getElem?_eq_none (by omega)] at h
      simp at h
    rw [List.getElem?_set_self hlt]
    rfl
  · rw [List.getElem?_set_ne hij]
    exact h

theorem markRays_mono (times : List ℚ) (s : Bool) (first last op : ℚ) (ids : List Nat) :
    ∀ (d : ℚ) (t : List Bool) (i : Nat), t.getD i false = true →
      (markRays times s first last op d ids t).getD i false = true := by
  induction ids with
  | nil => intro d t i h; exact h
  | cons j ids ih =>
    intro d t i h
    unfold markRays
    split_ifs
    · exact ih _ _ _ (getD_set_true_of_true t j i h)
    · exact ih _ _ _ h
    · exact ih _ _ _ h

theorem ellipsoid_setTransient_fields (e : Ellipsoid) (b : Bool) :
    ({ e with transient := b } : Ellipsoid).opacity = e.opacity ∧
      ({ e with transient := b } : Ellipsoid).num_gone = e.num_gone ∧
      ({ e with transient := b } : Ellipsoid).num_rays = e.num_rays :=
  ⟨rfl, rfl, rfl⟩

/-- The policy and marking steps leave the opacity and the counters of the ellipsoid as
the counting step computed them. -/
theorem applyPolicy_fields (c : Counted) (t : List Bool) (cloud : Cloud) (T : ℚ)
    (mt : MergeType) (s : Bool) (st : HitStats) :
    (applyPolicy c t cloud T mt s st).1.opacity = c.ellipsoid.opacity ∧
      (applyPolicy c t cloud T mt s st).1.num_gone = c.ellipsoid.num_gone ∧
      (applyPolicy c t cloud T mt s st).1.num_rays = c.ellipsoid.num_rays := by
  unfold applyPolicy
  split
  · exact ⟨rfl, rfl, rfl⟩
  · exact ellipsoid_setTransient_fields _ _
  · exact ⟨rfl, rfl, rfl⟩

/-- Every ray mark set by the policy and marking steps belongs to an eligible ray of the
pass-through list. -/
theorem applyPolicy_marks (c : Counted) (t : List Bool) (cloud : Cloud) (T : ℚ)
    (mt : MergeType) (s : Bool) (st : HitStats) (i : Nat)
    (h : (applyPolicy c t cloud T mt s st).2.getD i false = true) :
    t.getD i false = true ∨
      (i ∈ st.pass_through_ids ∧
        rayEligible cloud.times s st.first_intersection_time st.last_intersection_time i =
          true) := by
  unfold applyPolicy at h
  split at h
  · exact Or.inl h
  · exact Or.inl h
  · exact markRays_getD _ _ _ _ _ _ _ _ _ h

/-- The policy and marking steps never clear a ray mark. -/
theorem applyPolicy_mono (c : Counted) (t : List Bool) (cloud : Cloud) (T : ℚ)
    (mt : MergeType) (s : Bool) (st : HitStats) (i : Nat) (h : t.getD i false = true) :
    (applyPolicy c t cloud T mt s st).2.getD i false = true := by
  unfold applyPolicy
  split
  · exact h
  · exact h
  · exact markRays_mono _ _ _ _ _ _ _ _ _ h

theorem rayEligible_self (times : List ℚ) (first last : ℚ) (i : Nat) :
    rayEligible times true first last i = true ↔
      (times.getD i default < first ∨ times.getD i default > last) := by
  unfold rayEligible
  simp

/-- In self-transient mode the policy and marking steps change the mark of ray `i` only
if the ray is in the pass-through list with a time outside the intersection times. -/
theorem applyPolicy_self_marks (c : Counted) (t : List Bool) (cloud : Cloud) (T : ℚ)
    (mt : MergeType) (st : HitStats) (i : Nat) :
    ((applyPolicy c t cloud T mt true st).2.getD i false = true →
      t.getD i false = true ∨
        (i ∈ st.pass_through_ids ∧
          (cloud.times.getD i default < st.first_intersection_time ∨
            cloud.times.getD i default > st.last_intersection_time))) ∧
    (st.first_intersection_time ≤ cloud.times.getD i default →
      cloud.times.getD i default ≤ st.last_intersection_time →
      (applyPolicy c t cloud T mt true st).2.getD i false = t.getD i false) := by
  have h1 : (applyPolicy c t cloud T mt true st).2.getD i false = true →
      t.getD i false = true ∨
        (i ∈ st.pass_through_ids ∧
          (cloud.times.getD i default < st.first_intersection_time ∨
            cloud.times.getD i default > st.last_intersection_time)) := by
    intro h
    rcases applyPolicy_marks c t cloud T mt true st i h with h2 | h2
    · exact Or.inl h2
    · exact Or.inr ⟨h2.1, (rayEligible_self _ _ _ _).mp h2.2⟩
  refine ⟨h1, fun hf hl => ?_⟩
  cases hb : (applyPolicy c t cloud T mt true st).2.getD i false
  · cases ht : t.getD i false
    · rfl
    · rw [applyPolicy_mono c t cloud T mt true st i ht] at hb
      exact absurd hb (by decide)
  · rcases h1 hb with h2 | h2
    · exact h2.symm
    · rcases h2.2 with h3 | h3
      · exact absurd hf (not_le.mpr h3)
      · exact absurd hl (not_le.mpr h3)

/-! ## Claims on the classifier, continued -/

/-- C13: in self-transient mode, for every ellipsoid and merge type, the classification of
`mark` and of the update pass sets the mark of a ray only if the ray is in the
pass-through list with time `t < first_intersection_time` or `t > last_intersection_time`;
the mark of a ray with `first_intersection_time <= t <= last_intersection_time` is left as
it was. -/
theorem self_transient_marks_outside (e : Ellipsoid) (t : List Bool) (cloud : Cloud) (T : ℚ)
    (mt : MergeType) (st : HitStats) (i : Nat) :
    ((markClassify e t cloud T mt true st).2.getD i false = true →
      t.getD i false = true ∨
        (i ∈ st.pass_through_ids ∧
          (cloud.times.getD i default < st.first_intersection_time ∨
            cloud.times.getD i default > st.last_intersection_time))) ∧
    (st.first_intersection_time ≤ cloud.times.getD i default →
      cloud.times.getD i default ≤ st.last_intersection_time →
      (markClassify e t cloud T mt true st).2.getD i false = t.getD i false) ∧
    ((updateClassify e t cloud T mt true st).2.getD i false = true →
      t.getD i false = true ∨
        (i ∈ st.pass_through_ids ∧
          (cloud.times.getD i default < st.first_intersection_time ∨
            cloud.times.getD i default > st.last_intersection_time))) ∧
    (st.first_intersection_time ≤ cloud.times.getD i default →
      cloud.times.getD i default ≤ st.last_intersection_time →
      (updateClassify e t cloud T mt true st).2.getD i false = t.getD i false) := by
  have hm : ((markClassify e t cloud T mt true st).2.getD i false = true →
      t.getD i false = true ∨
        (i ∈ st.pass_through_ids ∧
          (cloud.times.getD i default < st.first_intersection_time ∨
            cloud.times.getD i default > st.last_intersection_time))) ∧
    (st.first_intersection_time ≤ cloud.times.getD i default →
      cloud.times.getD i default ≤ st.last_intersection_time →
      (markClassify e t cloud T mt true st).2.getD i false = t.getD i false) := by
    cases h : markEarlyReturn (markOpacity e T true st) T
    · rw [markClassify_late _ _ _ _ _ _ _ h]
      exact applyPolicy_self_marks _ _ _ _ _ _ _
    · rw [markClassify_early _ _ _ _ _ _ _ h]
      exact ⟨fun h2 => Or.inl h2, fun _ _ => rfl⟩
  have hu : ((updateClassify e t cloud T mt true st).2.getD i false = true →
      t.getD i false = true ∨
        (i ∈ st.pass_through_ids ∧
          (cloud.times.getD i default < st.first_intersection_time ∨
            cloud.times.getD i default > st.last_intersection_time))) ∧
    (st.first_intersection_time ≤ cloud.times.getD i default →
      cloud.times.getD i default ≤ st.last_intersection_time →
      (updateClassify e t cloud T mt true st).2.getD i false = t.getD i false) := by
    cases h : updateEarlyReturn (updateOpacity e true st) T st
    · rw [updateClassify_late _ _ _ _ _ _ _ h]
      exact applyPolicy_self_marks _ _ _ _ _ _ _
    · rw [updateClassify_early _ _ _ _ _ _ _ h]
      exact ⟨fun h2 => Or.inl h2, fun _ _ => rfl⟩
  exact ⟨hm.1, hm.2, hu.1, hu.2⟩

theorem countFold_countP (times : List ℚ) (first last : ℚ) (ids : List Nat) :
    ∀ c : PassCounts,
      (ids.foldl (countStep times first last) c).num_after =
          c.num_after + ids.countP (fun i => decide (times.getD i default > last)) ∧
        (ids.foldl (countStep times first last) c).num_before =
          c.num_before + ids.countP (fun i =>
            !decide (times.getD i default > last) && decide (times.getD i default < first)) ∧
        (ids.foldl (countStep times first last) c).misses =
          c.misses + (ids.countP (fun i =>
            !decide (times.getD i default > last) &&
              !decide (times.getD i default < first)) : ℕ) := by
  induction ids with
  | nil => intro c; simp
  | cons i ids ih =>
    intro c
    obtain ⟨h1, h2, h3⟩ := ih (countStep times first last c i)
    simp only [List.foldl_cons]
    rw [h1, h2, h3]
    unfold countStep
    by_cases ha : times.getD i default > last
    · simp only [ha, if_true, List.countP_cons, decide_True, Bool.not_true, Bool.false_and,
        Bool.false_eq_true, if_false]
      refine ⟨by omega, by omega, by simp⟩
    · by_cases hb : times.getD i default < first
      · simp only [ha, hb, if_true, if_false, List.countP_cons, decide_True, decide_False,
          Bool.not_true, Bool.not_false, Bool.true_and, Bool.and_false, Bool.false_eq_true]
        refine ⟨by omega, by omega, by simp⟩
      · simp only [ha, hb, if_false, List.countP_cons, decide_False, Bool.not_false,
          Bool.true_and, Bool.and_self, Bool.false_eq_true, if_true]
        refine ⟨by omega, by omega, ?_⟩
        push_cast
        ring

theorem countP_before_of_le (times : List ℚ) (first last : ℚ) (hfl : first ≤ last)
    (ids : List Nat) :
    ids.countP (fun i =>
        !decide (times.getD i default > last) && decide (times.getD i default < first)) =
      ids.countP (fun i => decide (times.getD i default < first)) := by
  apply List.countP_congr
  intro i _
  generalize times.getD i default = a
  by_cases hb : a < first
  · have ha : ¬ a > last := by
      intro h; linarith
    simp [ha, hb]
  · simp [hb]

/-- The intersection loop of `mark` (lines 128-149) leaves `first_intersection_time` at or
before `last_intersection_time` as soon as one ray hits. -/
theorem testRay_fold_ordered (C : External) (el : Ellipsoid) (cloud : Cloud) (ids : List Nat)
    (rt : List Bool) :
    1 ≤ (ids.foldl (testRay C el cloud) (rt, HitStats.init)).2.hits →
      (ids.foldl (testRay C el cloud) (rt, HitStats.init)).2.first_intersection_time ≤
        (ids.foldl (testRay C el cloud) (rt, HitStats.init)).2.last_intersection_time := by
  have hinv := foldl_invariant
    (fun acc : List Bool × HitStats =>
      acc.2.hits = 0 ∨ acc.2.first_intersection_time ≤ acc.2.last_intersection_time)
    (testRay C el cloud) (by
      intro b a hb
      unfold testRay
      dsimp only
      split
      · exact hb
      · exact hb
      · exact Or.inr ((min_le_right _ _).trans (le_max_right _ _))) ids (rt, HitStats.init)
    (Or.inl rfl)
  intro h1
  rcases hinv with h | h
  · omega
  · exact h

/-- C15: step 2 of the classifier in self-transient mode (lines 161-184 and 507-530): every
pass-through ray is counted in exactly one of `num_after` (time after
`last_intersection_time`), `num_before` (otherwise, time before `first_intersection_time`)
and `misses` (otherwise), so the three counts add up to the length of the pass-through
list; with `first <= last` the count `num_before` is the number of rays with time before
`first_intersection_time`, and the intersection loop of `mark` yields `first <= last` as
soon as one ray hits; the ellipsoid then has `num_gone = num_before + num_after` and
`opacity = (hits - 1 + 1e-8) / (hits - 1 + 1e-8 + misses)`, which `mark` and the update
pass return whenever they pass their early return. -/
theorem self_transient_counts (e : Ellipsoid) (t : List Bool) (cloud : Cloud) (T : ℚ)
    (mt : MergeType) (st : HitStats) :
    (countBeforeAfter e cloud true st).num_after =
      st.pass_through_ids.countP (fun i =>
        decide (cloud.times.getD i default > st.last_intersection_time)) ∧
    (countBeforeAfter e cloud true st).num_before =
      st.pass_through_ids.countP (fun i =>
        !decide (cloud.times.getD i default > st.last_intersection_time) &&
          decide (cloud.times.getD i default < st.first_intersection_time)) ∧
    (st.first_intersection_time ≤ st.last_intersection_time →
      (countBeforeAfter e cloud true st).num_before =
        st.pass_through_ids.countP (fun i =>
          decide (cloud.times.getD i default < st.first_intersection_time))) ∧
    (∀ (C : External) (el : Ellipsoid) (ids : List Nat) (rt : List Bool),
      1 ≤ (ids.foldl (testRay C el cloud) (rt, HitStats.init)).2.hits →
        (ids.foldl (testRay C el cloud) (rt, HitStats.init)).2.first_intersection_time ≤
          (ids.foldl (testRay C el cloud) (rt, HitStats.init)).2.last_intersection_time) ∧
    (countPassThrough cloud.times st.first_intersection_time st.last_intersection_time
        st.pass_through_ids).misses =
      (st.pass_through_ids.countP (fun i =>
        !decide (cloud.times.getD i default > st.last_intersection_time) &&
          !decide (cloud.times.getD i default < st.first_intersection_time)) : ℕ) ∧
    ((countBeforeAfter e cloud true st).num_before : ℚ) +
        (countBeforeAfter e cloud true st).num_after +
        (countPassThrough cloud.times st.first_intersection_time st.last_intersection_time
          st.pass_through_ids).misses = st.pass_through_ids.length ∧
    (countBeforeAfter e cloud true st).ellipsoid.num_gone =
      (countBeforeAfter e cloud true st).num_before +
        (countBeforeAfter e cloud true st).num_after ∧
    (countBeforeAfter e cloud true st).ellipsoid.opacity =
      ((st.hits : ℚ) - 1 + unbiasEpsilon) /
        ((st.hits : ℚ) - 1 + unbiasEpsilon +
          (countPassThrough cloud.times st.first_intersection_time st.last_intersection_time
            st.pass_through_ids).misses) ∧
    (markEarlyReturn (markOpacity e T true st) T = false →
      (markClassify e t cloud T mt true st).1.num_gone =
          (countBeforeAfter e cloud true st).num_before +
            (countBeforeAfter e cloud true st).num_after ∧
        (markClassify e t cloud T mt true st).1.opacity =
          ((st.hits : ℚ) - 1 + unbiasEpsilon) /
            ((st.hits : ℚ) - 1 + unbiasEpsilon +
              (countPassThrough cloud.times st.first_intersection_time
                st.last_intersection_time st.pass_through_ids).misses)) ∧
    (updateEarlyReturn (updateOpacity e true st) T st = false →
      (updateClassify e t cloud T mt true st).1.num_gone =
          (countBeforeAfter e cloud true st).num_before +
            (countBeforeAfter e cloud true st).num_after ∧
        (updateClassify e t cloud T mt true st).1.opacity =
          ((st.hits : ℚ) - 1 + unbiasEpsilon) /
            ((st.hits : ℚ) - 1 + unbiasEpsilon +
              (countPassThrough cloud.times st.first_intersection_time
                st.last_intersection_time st.pass_through_ids).misses)) := by
  have hc := countFold_countP cloud.times st.first_intersection_time
    st.last_intersection_time st.pass_through_ids ⟨0, 0, 0⟩
  have htot := countPassThrough_total cloud.times st.first_intersection_time
    st.last_intersection_time st.pass_through_ids
  have hswap : ∀ m : ℚ, ((st.hits : ℚ) + unbiasEpsilon - 1) /
      ((st.hits : ℚ) + unbiasEpsilon - 1 + m) =
      ((st.hits : ℚ) - 1 + unbiasEpsilon) / ((st.hits : ℚ) - 1 + unbiasEpsilon + m) := by
    intro m
    rw [show (st.hits : ℚ) + unbiasEpsilon - 1 = (st.hits : ℚ) - 1 + unbiasEpsilon by ring]
  have hfields : ∀ e2 : Ellipsoid,
      (countBeforeAfter e2 cloud true st).num_before =
          (countPassThrough cloud.times st.first_intersection_time st.last_intersection_time
            st.pass_through_ids).num_before ∧
        (countBeforeAfter e2 cloud true st).num_after =
          (countPassThrough cloud.times st.first_intersection_time st.last_intersection_time
            st.pass_through_ids).num_after ∧
        (countBeforeAfter e2 cloud true st).ellipsoid.num_gone =
          (countPassThrough cloud.times st.first_intersection_time st.last_intersection_time
            st.pass_through_ids).num_before +
          (countPassThrough cloud.times st.first_intersection_time st.last_intersection_time
            st.pass_through_ids).num_after ∧
        (countBeforeAfter e2 cloud true st).ellipsoid.opacity =
          ((st.hits : ℚ) - 1 + unbiasEpsilon) /
            ((st.hits : ℚ) - 1 + unbiasEpsilon +
              (countPassThrough cloud.times st.first_intersection_time
                st.last_intersection_time st.pass_through_ids).misses) := by
    intro e2
    rw [countBeforeAfter_self]
    exact ⟨rfl, rfl, rfl, hswap _⟩
  obtain ⟨f1, f2, f3, f4⟩ := hfields e
  have ha : (countBeforeAfter e cloud true st).num_after =
      st.pass_through_ids.countP (fun i =>
        decide (cloud.times.getD i default > st.last_intersection_time)) := by
    rw [f2]; simpa [countPassThrough] using hc.1
  have hb : (countBeforeAfter e cloud true st).num_before =
      st.pass_through_ids.countP (fun i =>
        !decide (cloud.times.getD i default > st.last_intersection_time) &&
          decide (cloud.times.getD i default < st.first_intersection_time)) := by
    rw [f1]; simpa [countPassThrough] using hc.2.1
  refine ⟨ha, hb, fun hfl => ?_,
    fun C el ids rt => testRay_fold_ordered C el cloud ids rt, ?_, ?_, ?_, f4, fun h => ?_,
    fun h => ?_⟩
  · rw [hb]
    exact countP_before_of_le _ _ _ hfl _
  · simpa [countPassThrough] using hc.2.2
  · rw [f1, f2]; exact htot.1
  · rw [f3, f1, f2]
  · rw [markClassify_late _ _ _ _ _ _ _ h]
    obtain ⟨g1, g2, g3, g4⟩ := hfields (markOpacity e T true st)
    obtain ⟨p1, p2, _⟩ := applyPolicy_fields
      (countBeforeAfter (markOpacity e T true st) cloud true st) t cloud T mt true st
    rw [p1, p2, g3, g4, f1, f2]
    exact ⟨rfl, rfl⟩
  · rw [updateClassify_late _ _ _ _ _ _ _ h]
    obtain ⟨g1, g2, g3, g4⟩ := hfields (updateOpacity e true st)
    obtain ⟨p1, p2, _⟩ := applyPolicy_fields
      (countBeforeAfter (updateOpacity e true st) cloud true st) t cloud T mt true st
    rw [p1, p2, g3, g4, f1, f2]
    exact ⟨rfl, rfl⟩

theorem first_opacity_bounds (hits len : ℕ) (h : 0 < hits + len) :
    0 ≤ (hits : ℚ) / ((hits : ℚ) + (len : ℚ)) ∧ (hits : ℚ) / ((hits : ℚ) + (len : ℚ)) ≤ 1 := by
  have h1 : (0 : ℚ) < (hits : ℚ) + (len : ℚ) := by exact_mod_cast h
  have h2 : (0 : ℚ) ≤ (len : ℚ) := Nat.cast_nonneg _
  have h3 : (0 : ℚ) ≤ (hits : ℚ) := Nat.cast_nonneg _
  exact ⟨div_nonneg h3 h1.le, (div_le_one h1).mpr (by linarith)⟩

theorem countBeforeAfter_self_opacity_bounds (e : Ellipsoid) (cloud : Cloud) (st : HitStats)
    (h1 : 1 ≤ st.hits) :
    0 < (countBeforeAfter e cloud true st).ellipsoid.opacity ∧
      (countBeforeAfter e cloud true st).ellipsoid.opacity ≤ 1 := by
  rw [countBeforeAfter_self]
  exact unbiased_opacity_bounds st.hits _ h1
    (countPassThrough_total cloud.times st.first_intersection_time
      st.last_intersection_time st.pass_through_ids).2

/-- C16: after a self-transient classification of an ellipsoid intersected by at least one
ray (`hits + |passthrough| > 0`), by `mark` or by the update pass, the opacity of the
ellipsoid lies in `[0, 1]`; when the classification passes the early return it lies in
`(0, 1]` (exact arithmetic). -/
theorem self_transient_opacity_range (e : Ellipsoid) (t : List Bool) (cloud : Cloud) (T : ℚ)
    (mt : MergeType) (st : HitStats) (hcount : 0 < st.hits + st.pass_through_ids.length) :
    (0 ≤ (markClassify e t cloud T mt true st).1.opacity ∧
      (markClassify e t cloud T mt true st).1.opacity ≤ 1) ∧
    (markEarlyReturn (markOpacity e T true st) T = false →
      0 < (markClassify e t cloud T mt true st).1.opacity) ∧
    (0 ≤ (updateClassify e t cloud T mt true st).1.opacity ∧
      (updateClassify e t cloud T mt true st).1.opacity ≤ 1) ∧
    (updateEarlyReturn (updateOpacity e true st) T st = false →
      0 < (updateClassify e t cloud T mt true st).1.opacity) := by
  have hm : (0 ≤ (markClassify e t cloud T mt true st).1.opacity ∧
      (markClassify e t cloud T mt true st).1.opacity ≤ 1) ∧
    (markEarlyReturn (markOpacity e T true st) T = false →
      0 < (markClassify e t cloud T mt true st).1.opacity) := by
    cases h : markEarlyReturn (markOpacity e T true st) T
    · rw [markClassify_late _ _ _ _ _ _ _ h, (applyPolicy_fields _ _ _ _ _ _ _).1]
      have hb := countBeforeAfter_self_opacity_bounds (markOpacity e T true st) cloud st
        (hits_pos_of_mark_late e T st h)
      exact ⟨⟨hb.1.le, hb.2⟩, fun _ => hb.1⟩
    · rw [markClassify_early _ _ _ _ _ _ _ h]
      refine ⟨?_, fun h2 => absurd h2 (by decide)⟩
      show 0 ≤ (markOpacity e T true st).opacity ∧ (markOpacity e T true st).opacity ≤ 1
      rw [markOpacity_self_opacity]
      exact first_opacity_bounds _ _ hcount
  have hu : (0 ≤ (updateClassify e t cloud T mt true st).1.opacity ∧
      (updateClassify e t cloud T mt true st).1.opacity ≤ 1) ∧
    (updateEarlyReturn (updateOpacity e true st) T st = false →
      0 < (updateClassify e t cloud T mt true st).1.opacity) := by
    cases h : updateEarlyReturn (updateOpacity e true st) T st
    · rw [updateClassify_late _ _ _ _ _ _ _ h, (applyPolicy_fields _ _ _ _ _ _ _).1]
      have hb := countBeforeAfter_self_opacity_bounds (updateOpacity e true st) cloud st
        (hits_pos_of_update_late e T st h)
      exact ⟨⟨hb.1.le, hb.2⟩, fun _ => hb.1⟩
    · rw [updateClassify_early _ _ _ _ _ _ _ h]
      refine ⟨?_, fun h2 => absurd h2 (by decide)⟩
      show 0 ≤ (updateOpacity e true st).opacity ∧ (updateOpacity e true st).opacity ≤ 1
      rw [updateOpacity_self_opacity]
      exact first_opacity_bounds _ _ hcount
  exact ⟨hm.1, hm.2, hu.1, hu.2⟩

theorem self_transient_opacity_range_witness :
    0 < passStats.hits + passStats.pass_through_ids.length ∧
    (0 ≤ (markClassify passEllipsoid passMarks passCloud 2 MergeType.Newest true
        passStats).1.opacity ∧
      (markClassify passEllipsoid passMarks passCloud 2 MergeType.Newest true
        passStats).1.opacity ≤ 1) :=
  ⟨by decide,
    (self_transient_opacity_range passEllipsoid passMarks passCloud 2 MergeType.Newest
      passStats (by decide)).1⟩

/-! ## Lemmas on the shape of a filter run -/

theorem finaliseFilter_nil (f : TransientFilter) (cloud : Cloud) (marks : List Bool)
    (h : f.ellipsoids_ = []) : finaliseFilter f cloud marks = f := by
  unfold finaliseFilter
  rw [h]
  rfl

/-- A returning run of `filter` returns `true` and is `finaliseFilter` applied to a filter
that holds the configuration, one ellipsoid per generated ellipsoid and empty output
clouds. -/
theorem filter_shape (C : External) (fuel : Nat) (f : TransientFilter) (cloud : Cloud)
    (out : Bool × TransientFilter) (h : f.filter C fuel cloud = some out) :
    out.1 = true ∧
      ∃ (g : TransientFilter) (marks : List Bool), out.2 = finaliseFilter g cloud marks ∧
        g.ellipsoids_.length = (C.generateEllipsoids cloud).1.length ∧
        g.config_ = f.config_ ∧ g.transient_ = Cloud.empty ∧ g.fixed_ = Cloud.empty := by
  unfold TransientFilter.filter at h
  split at h
  · simp only [Option.some.injEq] at h
    subst h
    unfold filterWithEllipseGrid
    dsimp only
    obtain ⟨h1, h2, h3, h4⟩ := markEllipseGrid_frame C
      { f.clear with
        ellipsoids_ := (C.generateEllipsoids cloud).1
        ellipsoids_marks_ :=
          (List.range (C.generateEllipsoids cloud).1.length).foldl
            (fun ms i => ms ++ [EllipsoidMark.init i]) f.clear.ellipsoids_marks_ }
      cloud
      (fillEllipseGrid
        (Grid.init (C.generateEllipsoids cloud).2.1 (C.generateEllipsoids cloud).2.2
          f.clear.config_.voxel_size) (C.generateEllipsoids cloud).1) true
    exact ⟨rfl, _, _, rfl, h1, h2, h3, h4⟩
  · unfold filterWithRayGrid at h
    dsimp only at h
    split at h
    · exact absurd h (by simp)
    · rename_i ray_grid _
      simp only [Option.some.injEq] at h
      subst h
      dsimp only
      obtain ⟨h1, h2, h3, h4⟩ := markRayGrid_frame C
        { f.clear with ellipsoids_ := (C.generateEllipsoids cloud).1 } cloud ray_grid
        (List.replicate cloud.rayCount false) true
      exact ⟨rfl, _, _, rfl, h1, h2, h3, h4⟩

theorem filter_isSome_ellipse (C : External) (fuel : Nat) (f : TransientFilter) (cloud : Cloud)
    (hs : f.config_.strategy = TransientFilterStrategy.EllipseGrid) :
    (f.filter C fuel cloud).isSome = true := by
  unfold TransientFilter.filter
  rw [hs]
  rfl

theorem filter_isSome_ray (C : External) (fuel : Nat) (f : TransientFilter) (cloud : Cloud)
    (hs : f.config_.strategy = TransientFilterStrategy.RayGrid)
    (hfill : (fillRayGrid C fuel
      (Grid.init (C.generateEllipsoids cloud).2.1 (C.generateEllipsoids cloud).2.2
        f.config_.voxel_size) cloud).isSome = true) :
    (f.filter C fuel cloud).isSome = true := by
  unfold TransientFilter.filter
  rw [hs]
  unfold filterWithRayGrid
  dsimp only
  obtain ⟨g, hg⟩ := Option.isSome_iff_exists.mp hfill
  have hg2 : fillRayGrid C fuel
      (Grid.init (C.generateEllipsoids cloud).2.1 (C.generateEllipsoids cloud).2.2
        f.clear.config_.voxel_size) cloud = some g := hg
  rw [hg2]
  rfl

theorem fillRayGrid_empty (C : External) (fuel : Nat) (g : Grid) (cloud : Cloud)
    (hN : cloud.rayCount = 0) : fillRayGrid C fuel g cloud = some g := by
  have hends : cloud.ends.length = 0 := hN
  unfold fillRayGrid
  rw [hends]
  rfl

/-! ## Claims on the empty cloud and on construction -/

/-- C19: for a cloud without rays, given that the generator yields one ellipsoid per ray
(none), `filter` returns `true` under either strategy, whatever the fuel, and leaves both
the transient and the fixed cloud empty. -/
theorem filter_empty_cloud (C : External) (fuel : Nat) (f : TransientFilter) (cloud : Cloud)
    (hN : cloud.rayCount = 0)
    (hgen : (C.generateEllipsoids cloud).1.length = cloud.rayCount) :
    ∃ r : TransientFilter, f.filter C fuel cloud = some (true, r) ∧
      r.transient_ = Cloud.empty ∧ r.fixed_ = Cloud.empty := by
  have hsome : (f.filter C fuel cloud).isSome = true := by
    cases hs : f.config_.strategy
    · exact filter_isSome_ellipse C fuel f cloud hs
    · apply filter_isSome_ray C fuel f cloud hs
      rw [fillRayGrid_empty C fuel _ cloud hN]
      rfl
  obtain ⟨out, hout⟩ := Option.isSome_iff_exists.mp hsome
  obtain ⟨h1, g, marks, h2, h3, _, h5, h6⟩ := filter_shape C fuel f cloud out hout
  have hnil : g.ellipsoids_ = [] := List.length_eq_zero.mp (h3.trans (hgen.trans hN))
  rw [finaliseFilter_nil g cloud marks hnil] at h2
  refine ⟨out.2, ?_, ?_, ?_⟩
  · rw [hout, ← h1]
  · rw [h2]; exact h5
  · rw [h2]; exact h6

theorem filter_empty_cloud_witness :
    Cloud.empty.rayCount = 0 ∧
    (sampleExternal.generateEllipsoids Cloud.empty).1.length = Cloud.empty.rayCount ∧
    ∃ r : TransientFilter,
      (TransientFilter.init
        (sampleConfig TransientFilterStrategy.RayGrid MergeType.Oldest 20)).filter
          sampleExternal 0 Cloud.empty = some (true, r) ∧
      r.transient_ = Cloud.empty ∧ r.fixed_ = Cloud.empty :=
  ⟨rfl, rfl,
    filter_empty_cloud sampleExternal 0
      (TransientFilter.init (sampleConfig TransientFilterStrategy.RayGrid MergeType.Oldest 20))
      Cloud.empty rfl rfl⟩

/-- C18 (as amended): constructing a `TransientFilter` never fails and checks nothing: the
filter holds the configuration exactly as given, whatever its voxel size and threshold
(the merge type is one of the four enumerators), with empty clouds and lists; every
returning `filter` call then runs and ends with that configuration. -/
theorem constructor_stores_config (config : TransientFilterConfig) :
    (TransientFilter.init config).config_ = config ∧
    (TransientFilter.init config).transient_ = Cloud.empty ∧
    (TransientFilter.init config).fixed_ = Cloud.empty ∧
    (TransientFilter.init config).ellipsoids_ = [] ∧
    (∀ (C : External) (fuel : Nat) (cloud : Cloud) (out : Bool × TransientFilter),
      (TransientFilter.init config).filter C fuel cloud = some out →
        out.2.config_ = config) := by
  refine ⟨rfl, rfl, rfl, rfl, ?_⟩
  intro C fuel cloud out h
  obtain ⟨_, g, marks, h2, _, h4, _, _⟩ := filter_shape C fuel _ cloud out h
  rw [h2, (finaliseFilter_eq g cloud marks).2.1, h4]
  rfl

/-- C18 as stated fails: the constructor accepts a configuration with voxel size -1 and
threshold -5 and stores it; with threshold -5 (voxel size 1) `filter` runs on `crossCloud`
under both strategies, returns `true` and classifies both rays as transient. -/
theorem constructor_accepts_invalid :
    invalidConfig.voxel_size ≤ 0 ∧ invalidConfig.num_rays_filter_threshold < 0 ∧
    (TransientFilter.init invalidConfig).config_ = invalidConfig ∧
    (sampleConfig TransientFilterStrategy.RayGrid MergeType.Mininum
      (-5)).num_rays_filter_threshold < 0 ∧
    ((TransientFilter.init
        (sampleConfig TransientFilterStrategy.RayGrid MergeType.Mininum (-5))).filter
          crossExternal 10 crossCloud).map (fun o => (o.1, o.2.transient_, o.2.fixed_)) =
      some (true, crossCloud, Cloud.empty) ∧
    ((TransientFilter.init
        (sampleConfig TransientFilterStrategy.EllipseGrid MergeType.Mininum (-5))).filter
          crossExternal 10 crossCloud).map (fun o => (o.1, o.2.transient_, o.2.fixed_)) =
      some (true, crossCloud, Cloud.empty) := by
  decide!

/-! ## Claims on the raytransients tool -/

/-- C20 (as amended): on every argument error that `main` detects, an argument count other
than 5 or 6, a sixth argument other than `--colour` or `-c`, or (once the third argument
is parsed) a mode other than `min`, `max`, `oldest`, `newest`, the tool calls `usage` with
its default exit code and exits with code 0; every exit code the tool produces, on error or
on success, is 0, and an argument error ends either with exit code 0 or, when `std::stod`
throws first, without one. -/
theorem usage_exit_code_zero (stod : String → Option ℚ) (argv : List String) :
    ((argv.length ≠ 5 ∧ argv.length ≠ 6) → main stod argv = MainOutcome.exit 0) ∧
    (¬ (argv.length ≠ 5 ∧ argv.length ≠ 6) →
      (argv.length = 6 ∧ argv.getD 5 "" ≠ "--colour" ∧ argv.getD 5 "" ≠ "-c") →
      main stod argv = MainOutcome.exit 0) ∧
    (¬ (argv.length ≠ 5 ∧ argv.length ≠ 6) →
      ¬ (argv.length = 6 ∧ argv.getD 5 "" ≠ "--colour" ∧ argv.getD 5 "" ≠ "-c") →
      (stod (argv.getD 3 "")).isSome = true →
      (argv.getD 1 "" ≠ "min" ∧ argv.getD 1 "" ≠ "max" ∧ argv.getD 1 "" ≠ "oldest" ∧
        argv.getD 1 "" ≠ "newest") →
      main stod argv = MainOutcome.exit 0) ∧
    (ArgumentError argv →
      (main stod argv).exitCode = some 0 ∨ main stod argv = MainOutcome.terminate) ∧
    (∀ code, (main stod argv).exitCode = some code → code = 0) := by
  have hcases : main stod argv = MainOutcome.exit 0 ∨ main stod argv = MainOutcome.terminate ∨
      ∃ config file, main stod argv = MainOutcome.run config file := by
    unfold main usage usageDefaultExitCode
    cases stod (argv.getD 3 "") with
    | none => split_ifs <;> simp
    | some n => split_ifs <;> simp
  have hcode : ∀ code, (main stod argv).exitCode = some code → code = 0 := by
    intro code h
    rcases hcases with h1 | h1 | ⟨config, file, h1⟩
    · rw [h1] at h
      simpa [MainOutcome.exitCode] using h.symm
    · rw [h1] at h
      simp [MainOutcome.exitCode] at h
    · rw [h1] at h
      unfold MainOutcome.exitCode at h
      dsimp only at h
      split_ifs at h
      exact (Option.some.inj h).symm
  refine ⟨fun h => ?_, fun h1 h2 => ?_, fun h1 h2 h3 h4 => ?_, fun herr => ?_, hcode⟩
  · unfold main usage usageDefaultExitCode
    rw [if_pos h]
  · unfold main usage usageDefaultExitCode
    rw [if_neg h1, if_pos h2]
  · obtain ⟨n, hn⟩ := Option.isSome_iff_exists.mp h3
    unfold main usage usageDefaultExitCode
    rw [if_neg h1, if_neg h2, hn]
    dsimp only
    rw [if_pos h4]
  · cases hm : main stod argv with
    | exit code =>
      left
      have := hcode code (by rw [hm]; rfl)
      rw [this]; rfl
    | terminate => right; rfl
    | run config file =>
      exfalso
      unfold main usage usageDefaultExitCode at hm
      unfold ArgumentError at herr
      cases hs : stod (argv.getD 3 "") with
      | none => rw [hs] at hm; split_ifs at hm
      | some n =>
        rw [hs] at hm
        dsimp only at hm
        split_ifs at hm with h1 h2 h3
        rcases herr with h | h | h
        · exact h1 h
        · exact h2 h
        · exact h3 h

/-- C20 as stated fails: with three arguments, with a sixth argument `--color`, and with
the mode `median`, each an argument error, the tool exits with code 0. -/
theorem argument_error_exits_zero :
    ArgumentError ["raytransients", "min", "cloud.ply"] ∧
    (main sampleStod ["raytransients", "min", "cloud.ply"]).exitCode = some 0 ∧
    ArgumentError ["raytransients", "min", "cloud.ply", "20", "rays", "--color"] ∧
    (main sampleStod
      ["raytransients", "min", "cloud.ply", "20", "rays", "--color"]).exitCode = some 0 ∧
    ArgumentError ["raytransients", "median", "cloud.ply", "20", "rays"] ∧
    (main sampleStod ["raytransients", "median", "cloud.ply", "20", "rays"]).exitCode =
      some 0 := by
  unfold ArgumentError
  decide

/-! ## Lemmas on Minimum and Maximum runs -/

theorem updateClassify_minimum_marks (e : Ellipsoid) (t : List Bool) (cloud : Cloud) (T : ℚ)
    (s : Bool) (st : HitStats) : (updateClassify e t cloud T MergeType.Mininum s st).2 = t := by
  cases h : updateEarlyReturn (updateOpacity e s st) T st
  · rw [updateClassify_late _ _ _ _ _ _ _ h, applyPolicy_minimum]
    split_ifs <;> rfl
  · rw [updateClassify_early _ _ _ _ _ _ _ h]

theorem updateClassify_maximum_transient (e : Ellipsoid) (t : List Bool) (cloud : Cloud)
    (T : ℚ) (s : Bool) (st : HitStats) :
    (updateClassify e t cloud T MergeType.Maximum s st).1.transient = e.transient := by
  cases h : updateEarlyReturn (updateOpacity e s st) T st
  · rw [updateClassify_late _ _ _ _ _ _ _ h, applyPolicy_maximum]
    split_ifs <;>
      exact (countBeforeAfter_transient _ _ _ _).trans (updateOpacity_transient _ _ _)
  · rw [updateClassify_early _ _ _ _ _ _ _ h]
    exact updateOpacity_transient _ _ _

theorem mark_minimum_marks (C : External) (m : EllipsoidTransientMarker) (e : Ellipsoid)
    (t : List Bool) (cloud : Cloud) (grid : Grid) (T : ℚ) (s : Bool) :
    (m.mark C e t cloud grid T MergeType.Mininum s).2.2 = t := by
  rcases mark_result C m e t cloud grid T MergeType.Mininum s with h | ⟨st, h⟩
  · rw [h]
  · rw [h]
    exact markClassify_minimum_marks _ _ _ _ _ _

theorem mark_maximum_transient (C : External) (m : EllipsoidTransientMarker) (e : Ellipsoid)
    (t : List Bool) (cloud : Cloud) (grid : Grid) (T : ℚ) (s : Bool) :
    (m.mark C e t cloud grid T MergeType.Maximum s).2.1.transient = e.transient := by
  rcases mark_result C m e t cloud grid T MergeType.Maximum s with h | ⟨st, h⟩
  · rw [h]
  · rw [h]
    exact markClassify_maximum_transient _ _ _ _ _ _

/-- Under Minimum the ray-grid marking pass sets no ray mark. -/
theorem markRayGrid_minimum (C : External) (f : TransientFilter) (cloud : Cloud) (grid : Grid)
    (t : List Bool) (s : Bool) (hmt : f.config_.merge_type = MergeType.Mininum) :
    (markIntersectedEllipsoidsWithRayGrid C f cloud grid t s).2 = t := by
  unfold markIntersectedEllipsoidsWithRayGrid
  apply foldl_invariant
    (fun acc : EllipsoidTransientMarker × List Ellipsoid × List Bool => acc.2.2 = t)
  · intro b a hb
    unfold processEllipsoid
    rw [hmt]
    exact (mark_minimum_marks C b.1 _ b.2.2 cloud grid _ s).trans hb
  · rfl

/-- Under Maximum the ray-grid marking pass flags no ellipsoid. -/
theorem markRayGrid_maximum (C : External) (f : TransientFilter) (cloud : Cloud) (grid : Grid)
    (t : List Bool) (s : Bool) (hmt : f.config_.merge_type = MergeType.Maximum)
    (hf : ∀ e ∈ f.ellipsoids_, e.transient = false) :
    ∀ e ∈ (markIntersectedEllipsoidsWithRayGrid C f cloud grid t s).1.ellipsoids_,
      e.transient = false := by
  unfold markIntersectedEllipsoidsWithRayGrid
  apply foldl_invariant
    (fun acc : EllipsoidTransientMarker × List Ellipsoid × List Bool =>
      ∀ e ∈ acc.2.1, e.transient = false)
  · intro b a hb
    unfold processEllipsoid
    rw [hmt]
    refine set_transient_false _ hb _ _ ?_
    rw [mark_maximum_transient]
    exact getD_transient_false _ hb a
  · exact hf

theorem updatePhase_minimum (cloud : Cloud) (s : Bool) (ids : List Nat) (g : TransientFilter)
    (hmt : g.config_.merge_type = MergeType.Mininum) :
    (ids.foldl (updateEllipsoid cloud s) g).transient_marks_ = g.transient_marks_ := by
  have hinv := foldl_invariant
    (fun b : TransientFilter => b.config_ = g.config_ ∧
      b.transient_marks_ = g.transient_marks_)
    (updateEllipsoid cloud s) (by
      intro b a hb
      unfold updateEllipsoid
      dsimp only
      rw [hb.1, hmt, updateClassify_minimum_marks]
      exact ⟨rfl, hb.2⟩) ids g ⟨rfl, rfl⟩
  exact hinv.2

theorem updatePhase_maximum (cloud : Cloud) (s : Bool) (ids : List Nat) (g : TransientFilter)
    (hmt : g.config_.merge_type = MergeType.Maximum)
    (h : ∀ e ∈ g.ellipsoids_, e.transient = false) :
    ∀ e ∈ (ids.foldl (updateEllipsoid cloud s) g).ellipsoids_, e.transient = false := by
  have hinv := foldl_invariant
    (fun b : TransientFilter => b.config_ = g.config_ ∧
      ∀ e ∈ b.ellipsoids_, e.transient = false)
    (updateEllipsoid cloud s) (by
      intro b a hb
      unfold updateEllipsoid
      dsimp only
      rw [hb.1, hmt]
      refine ⟨rfl, set_transient_false _ hb.2 _ _ ?_⟩
      rw [updateClassify_maximum_transient]
      exact getD_transient_false _ hb.2 a) ids g ⟨rfl, h⟩
  exact hinv.2

/-- Under Minimum the ellipse-grid marking pass sets no ray mark. -/
theorem markEllipseGrid_minimum (C : External) (f : TransientFilter) (cloud : Cloud)
    (grid : Grid) (s : Bool) (hmt : f.config_.merge_type = MergeType.Mininum) :
    (markIntersectedEllipsoidsWithEllipseGrid C f cloud grid s).transient_marks_ =
      resizeBools f.transient_marks_ cloud.rayCount false := by
  unfold markIntersectedEllipsoidsWithEllipseGrid
  dsimp only
  obtain ⟨_, h2, h3, _, _⟩ := walkPhase_same C cloud grid (List.range cloud.rayCount)
    { f with transient_marks_ := resizeBools f.transient_marks_ cloud.rayCount false }
  rw [updatePhase_minimum cloud s _ _ (by rw [h3]; exact hmt), h2]

/-- Under Maximum the ellipse-grid marking pass flags no ellipsoid. -/
theorem markEllipseGrid_maximum (C : External) (f : TransientFilter) (cloud : Cloud)
    (grid : Grid) (s : Bool) (hmt : f.config_.merge_type = MergeType.Maximum)
    (hf : ∀ e ∈ f.ellipsoids_, e.transient = false) :
    ∀ e ∈ (markIntersectedEllipsoidsWithEllipseGrid C f cloud grid s).ellipsoids_,
      e.transient = false := by
  unfold markIntersectedEllipsoidsWithEllipseGrid
  dsimp only
  obtain ⟨h1, _, h3, _, _⟩ := walkPhase_same C cloud grid (List.range cloud.rayCount)
    { f with transient_marks_ := resizeBools f.transient_marks_ cloud.rayCount false }
  exact updatePhase_maximum cloud s _ _ (by rw [h3]; exact hmt) (by rw [h1]; exact hf)

/-- A returning Minimum run is `finaliseFilter` applied with no ray mark set. -/
theorem filter_minimum_shape (C : External) (fuel : Nat) (f : TransientFilter) (cloud : Cloud)
    (out : Bool × TransientFilter) (hmt : f.config_.merge_type = MergeType.Mininum)
    (h : f.filter C fuel cloud = some out) :
    ∃ g : TransientFilter,
      out.2 = finaliseFilter g cloud (List.replicate cloud.rayCount false) ∧
        g.ellipsoids_.length = (C.generateEllipsoids cloud).1.length ∧
        g.transient_ = Cloud.empty ∧ g.fixed_ = Cloud.empty := by
  unfold TransientFilter.filter at h
  split at h
  · simp only [Option.some.injEq] at h
    subst h
    unfold filterWithEllipseGrid
    dsimp only
    obtain ⟨h1, _, h3, h4⟩ := markEllipseGrid_frame C
      { f.clear with
        ellipsoids_ := (C.generateEllipsoids cloud).1
        ellipsoids_marks_ :=
          (List.range (C.generateEllipsoids cloud).1.length).foldl
            (fun ms i => ms ++ [EllipsoidMark.init i]) f.clear.ellipsoids_marks_ }
      cloud
      (fillEllipseGrid
        (Grid.init (C.generateEllipsoids cloud).2.1 (C.generateEllipsoids cloud).2.2
          f.clear.config_.voxel_size) (C.generateEllipsoids cloud).1) true
    have hm := markEllipseGrid_minimum C
      { f.clear with
        ellipsoids_ := (C.generateEllipsoids cloud).1
        ellipsoids_marks_ :=
          (List.range (C.generateEllipsoids cloud).1.length).foldl
            (fun ms i => ms ++ [EllipsoidMark.init i]) f.clear.ellipsoids_marks_ }
      cloud
      (fillEllipseGrid
        (Grid.init (C.generateEllipsoids cloud).2.1 (C.generateEllipsoids cloud).2.2
          f.clear.config_.voxel_size) (C.generateEllipsoids cloud).1) true hmt
    rw [hm]
    have hr : resizeBools (TransientFilter.clear f).transient_marks_ cloud.rayCount false =
        List.replicate cloud.rayCount false := resizeBools_nil _
    dsimp only at hr ⊢
    rw [hr]
    exact ⟨_, rfl, h1, h3, h4⟩
  · unfold filterWithRayGrid at h
    dsimp only at h
    split at h
    · exact absurd h (by simp)
    · rename_i ray_grid _
      simp only [Option.some.injEq] at h
      subst h
      dsimp only
      obtain ⟨h1, _, h3, h4⟩ := markRayGrid_frame C
        { f.clear with ellipsoids_ := (C.generateEllipsoids cloud).1 } cloud ray_grid
        (List.replicate cloud.rayCount false) true
      rw [markRayGrid_minimum C
        { f.clear with ellipsoids_ := (C.generateEllipsoids cloud).1 } cloud ray_grid
        (List.replicate cloud.rayCount false) true hmt]
      exact ⟨_, rfl, h1, h3, h4⟩

/-- A returning Maximum run flags no ellipsoid. -/
theorem filter_maximum_flags (C : External) (fuel : Nat) (f : TransientFilter) (cloud : Cloud)
    (out : Bool × TransientFilter) (hmt : f.config_.merge_type = MergeType.Maximum)
    (hfresh : ∀ e ∈ (C.generateEllipsoids cloud).1, e.transient = false)
    (h : f.filter C fuel cloud = some out) :
    ∀ e ∈ out.2.ellipsoids_, e.transient = false := by
  unfold TransientFilter.filter at h
  split at h
  · simp only [Option.some.injEq] at h
    subst h
    unfold filterWithEllipseGrid
    dsimp only
    rw [(finaliseFilter_eq _ _ _).1]
    exact markEllipseGrid_maximum C
      { f.clear with
        ellipsoids_ := (C.generateEllipsoids cloud).1
        ellipsoids_marks_ :=
          (List.range (C.generateEllipsoids cloud).1.length).foldl
            (fun ms i => ms ++ [EllipsoidMark.init i]) f.clear.ellipsoids_marks_ }
      cloud
      (fillEllipseGrid
        (Grid.init (C.generateEllipsoids cloud).2.1 (C.generateEllipsoids cloud).2.2
          f.clear.config_.voxel_size) (C.generateEllipsoids cloud).1) true hmt hfresh
  · unfold filterWithRayGrid at h
    dsimp only at h
    split at h
    · exact absurd h (by simp)
    · rename_i ray_grid _
      simp only [Option.some.injEq] at h
      subst h
      dsimp only
      rw [(finaliseFilter_eq _ _ _).1]
      exact markRayGrid_maximum C
        { f.clear with ellipsoids_ := (C.generateEllipsoids cloud).1 } cloud ray_grid
        (List.replicate cloud.rayCount false) true hmt hfresh

theorem markClassify_minimum_transient_iff (e : Ellipsoid) (t : List Bool) (cloud : Cloud)
    (T : ℚ) (s : Bool) (st : HitStats) (he : e.transient = false) :
    (markClassify e t cloud T MergeType.Mininum s st).1.transient = true ↔
      (markEarlyReturn (markOpacity e T s st) T = false ∧
        sequenceLength T (countBeforeAfter (markOpacity e T s st) cloud s st) ≤
          (((countBeforeAfter (markOpacity e T s st) cloud s st).num_before +
            (countBeforeAfter (markOpacity e T s st) cloud s st).num_after : ℕ) : ℚ)) := by
  have hc : (countBeforeAfter (markOpacity e T s st) cloud s st).ellipsoid.transient = false :=
    ((countBeforeAfter_transient _ _ _ _).trans (markOpacity_transient _ _ _ _)).trans he
  cases h : markEarlyReturn (markOpacity e T s st) T
  · rw [markClassify_late _ _ _ _ _ _ _ h, applyPolicy_minimum]
    split_ifs with h1
    · refine ⟨fun h2 => ?_, fun h2 => absurd h2.2 (not_le.mpr h1)⟩
      rw [hc] at h2
      exact absurd h2 (by decide)
    · exact ⟨fun _ => ⟨rfl, not_lt.mp h1⟩, fun _ => rfl⟩
  · rw [markClassify_early _ _ _ _ _ _ _ h]
    refine ⟨fun h2 => ?_, fun h2 => absurd h2.1 (by decide)⟩
    rw [markOpacity_transient, he] at h2
    exact absurd h2 (by decide)

theorem markClassify_maximum_marks_trigger (e : Ellipsoid) (t : List Bool) (cloud : Cloud)
    (T : ℚ) (s : Bool) (st : HitStats)
    (h : (markClassify e t cloud T MergeType.Maximum s st).2 ≠ t) :
    markEarlyReturn (markOpacity e T s st) T = false ∧
      sequenceLength T (countBeforeAfter (markOpacity e T s st) cloud s st) ≤
        (((countBeforeAfter (markOpacity e T s st) cloud s st).num_before +
          (countBeforeAfter (markOpacity e T s st) cloud s st).num_after : ℕ) : ℚ) := by
  cases h0 : markEarlyReturn (markOpacity e T s st) T
  · rw [markClassify_late _ _ _ _ _ _ _ h0, applyPolicy_maximum] at h
    split_ifs at h with h1
    · exact absurd rfl h
    · exact ⟨rfl, not_lt.mp h1⟩
  · rw [markClassify_early _ _ _ _ _ _ _ h0] at h
    exact absurd rfl h

/-- The opacity and the counters that `mark` leaves in the ellipsoid do not depend on the
merge type. -/
theorem markClassify_fields_indep (e : Ellipsoid) (t : List Bool) (cloud : Cloud) (T : ℚ)
    (mt1 mt2 : MergeType) (s : Bool) (st : HitStats) :
    (markClassify e t cloud T mt1 s st).1.opacity =
        (markClassify e t cloud T mt2 s st).1.opacity ∧
      (markClassify e t cloud T mt1 s st).1.num_gone =
        (markClassify e t cloud T mt2 s st).1.num_gone ∧
      (markClassify e t cloud T mt1 s st).1.num_rays =
        (markClassify e t cloud T mt2 s st).1.num_rays := by
  cases h : markEarlyReturn (markOpacity e T s st) T
  · rw [markClassify_late _ _ _ _ _ _ _ h, markClassify_late _ _ _ _ _ _ _ h]
    obtain ⟨a1, a2, a3⟩ := applyPolicy_fields
      (countBeforeAfter (markOpacity e T s st) cloud s st) t cloud T mt1 s st
    obtain ⟨b1, b2, b3⟩ := applyPolicy_fields
      (countBeforeAfter (markOpacity e T s st) cloud s st) t cloud T mt2 s st
    exact ⟨a1.trans b1.symm, a2.trans b2.symm, a3.trans b3.symm⟩
  · rw [markClassify_early _ _ _ _ _ _ _ h, markClassify_early _ _ _ _ _ _ _ h]
    exact ⟨rfl, rfl, rfl⟩

theorem transientIds_no_marks (g : TransientFilter) (n : Nat) :
    transientIds g (List.replicate n false) =
      (List.range g.ellipsoids_.length).filter
        (fun i => (g.ellipsoids_.getD i default).transient) ∧
    fixedIds g (List.replicate n false) =
      (List.range g.ellipsoids_.length).filter
        (fun i => !(g.ellipsoids_.getD i default).transient) := by
  unfold transientIds fixedIds finaliseIsTransient
  simp only [getD_replicate_false, Bool.or_false]
  trivial

/-! ## Claims on Minimum against Maximum -/

/-- C11 (as amended): Minimum and Maximum test the same trigger condition on an ellipsoid
(`num_before + num_after >= sequence_length` past the early return, with the same opacity
and counters) but act on different rays.  A Minimum run sets no ray mark: its transient
cloud holds exactly the rays whose own ellipsoid was flagged, its fixed cloud the others.
A Maximum run flags no ellipsoid: only rays marked as pass-through rays of an ellipsoid
that triggered become transient.  The two partitions are not each other's exchange. -/
theorem minimum_maximum_roles (C : External) (fuel : Nat) (f : TransientFilter)
    (cloud : Cloud) (hgen : (C.generateEllipsoids cloud).1.length = cloud.rayCount)
    (hfresh : ∀ e ∈ (C.generateEllipsoids cloud).1, e.transient = false) :
    (f.config_.merge_type = MergeType.Mininum →
      ∀ out, f.filter C fuel cloud = some out →
        out.2.transient_ = cloud.select (finaliseColour out.2 cloud)
          ((List.range cloud.rayCount).filter
            (fun i => (out.2.ellipsoids_.getD i default).transient)) ∧
        out.2.fixed_ = cloud.select (finaliseColour out.2 cloud)
          ((List.range cloud.rayCount).filter
            (fun i => !(out.2.ellipsoids_.getD i default).transient))) ∧
    (f.config_.merge_type = MergeType.Maximum →
      ∀ out, f.filter C fuel cloud = some out →
        ∀ e ∈ out.2.ellipsoids_, e.transient = false) ∧
    (∀ (e : Ellipsoid) (t : List Bool) (cl : Cloud) (T : ℚ) (s : Bool) (st : HitStats),
      e.transient = false →
        ((markClassify e t cl T MergeType.Mininum s st).1.transient = true ↔
          (markEarlyReturn (markOpacity e T s st) T = false ∧
            sequenceLength T (countBeforeAfter (markOpacity e T s st) cl s st) ≤
              (((countBeforeAfter (markOpacity e T s st) cl s st).num_before +
                (countBeforeAfter (markOpacity e T s st) cl s st).num_after : ℕ) : ℚ))) ∧
        (markClassify e t cl T MergeType.Mininum s st).2 = t ∧
        (markClassify e t cl T MergeType.Maximum s st).1.transient = false ∧
        ((markClassify e t cl T MergeType.Maximum s st).2 ≠ t →
          (markEarlyReturn (markOpacity e T s st) T = false ∧
            sequenceLength T (countBeforeAfter (markOpacity e T s st) cl s st) ≤
              (((countBeforeAfter (markOpacity e T s st) cl s st).num_before +
                (countBeforeAfter (markOpacity e T s st) cl s st).num_after : ℕ) : ℚ))) ∧
        (markClassify e t cl T MergeType.Maximum s st).1.opacity =
          (markClassify e t cl T MergeType.Mininum s st).1.opacity ∧
        (markClassify e t cl T MergeType.Maximum s st).1.num_gone =
          (markClassify e t cl T MergeType.Mininum s st).1.num_gone) := by
  refine ⟨fun hmt out h => ?_,
    fun hmt out h => filter_maximum_flags C fuel f cloud out hmt hfresh h,
    fun e t cl T s st he => ?_⟩
  · obtain ⟨g, h1, h2, h3, h4⟩ := filter_minimum_shape C fuel f cloud out hmt h
    obtain ⟨e1, e2, e3, e4⟩ := finaliseFilter_eq g cloud (List.replicate cloud.rayCount false)
    have hcol : finaliseColour out.2 cloud = finaliseColour g cloud := by
      rw [h1]
      exact finaliseColour_congr g _ cloud e1 e2
    have hell : out.2.ellipsoids_ = g.ellipsoids_ := by rw [h1]; exact e1
    obtain ⟨i1, i2⟩ := transientIds_no_marks g cloud.rayCount
    rw [hcol, hell]
    constructor
    · rw [h1, e3, h3, Cloud.empty_append, i1, h2, hgen]
    · rw [h1, e4, h4, Cloud.empty_append, i2, h2, hgen]
  · obtain ⟨a1, a2, _⟩ := markClassify_fields_indep e t cl T MergeType.Maximum
      MergeType.Mininum s st
    exact ⟨markClassify_minimum_transient_iff e t cl T s st he,
      markClassify_minimum_marks e t cl T s st,
      (markClassify_maximum_transient e t cl T s st).trans he,
      markClassify_maximum_marks_trigger e t cl T s st, a1, a2⟩

theorem minimum_maximum_roles_witness :
    (crossExternal.generateEllipsoids crossCloud).1.length = crossCloud.rayCount ∧
    (∀ e ∈ (crossExternal.generateEllipsoids crossCloud).1, e.transient = false) ∧
    ∃ out,
      (TransientFilter.init
        (sampleConfig TransientFilterStrategy.RayGrid MergeType.Maximum 1)).filter
          crossExternal 10 crossCloud = some out ∧
      ∀ e ∈ out.2.ellipsoids_, e.transient = false :=
  ⟨by decide!, by decide!,
    (Option.isSome_iff_exists.mp (by decide!)).imp (fun out h =>
      ⟨h, (minimum_maximum_roles crossExternal 10
        (TransientFilter.init (sampleConfig TransientFilterStrategy.RayGrid MergeType.Maximum 1))
        crossCloud (by decide!) (by decide!)).2.1 rfl out h⟩)⟩

/-- C11 as stated fails: on `crossCloud` with threshold 1 the policy triggers for both
ellipsoids under Minimum and under Maximum, and under either strategy both runs put both
rays into the transient cloud and none into the fixed cloud; the transient set of the
Minimum run is not the fixed set of the Maximum run. -/
theorem minimum_maximum_not_exchanged :
    ((TransientFilter.init
        (sampleConfig TransientFilterStrategy.RayGrid MergeType.Mininum 1)).filter
          crossExternal 10 crossCloud).map
        (fun o => (o.2.transient_, o.2.fixed_, o.2.ellipsoids_.map (fun e => e.transient))) =
      some (crossCloud, Cloud.empty, [true, true]) ∧
    ((TransientFilter.init
        (sampleConfig TransientFilterStrategy.RayGrid MergeType.Maximum 1)).filter
          crossExternal 10 crossCloud).map
        (fun o => (o.2.transient_, o.2.fixed_, o.2.ellipsoids_.map (fun e => e.num_gone))) =
      some (crossCloud, Cloud.empty, [1, 1]) ∧
    ((TransientFilter.init
        (sampleConfig TransientFilterStrategy.EllipseGrid MergeType.Mininum 1)).filter
          crossExternal 10 crossCloud).map (fun o => (o.2.transient_, o.2.fixed_)) =
      some (crossCloud, Cloud.empty) ∧
    ((TransientFilter.init
        (sampleConfig TransientFilterStrategy.EllipseGrid MergeType.Maximum 1)).filter
          crossExternal 10 crossCloud).map (fun o => (o.2.transient_, o.2.fixed_)) =
      some (crossCloud, Cloud.empty) ∧
    crossCloud ≠ Cloud.empty := by
  decide!

/-! ## Step 1 of the classifier and zero extents -/

/-- Step 1 in `mark` (lines 152-160): the opacity is set when the threshold is 0 or the mode
is self-transient and kept otherwise; on the early return the classification returns the
ellipsoid with its transient flag and the ray marks as they were. -/
theorem markOpacity_step1 (e : Ellipsoid) (t : List Bool) (cloud : Cloud) (T : ℚ)
    (mt : MergeType) (s : Bool) (st : HitStats) :
    ((T = 0 ∨ s = true) →
      (markOpacity e T s st).opacity =
        (st.hits : ℚ) / ((st.hits : ℚ) + (st.pass_through_ids.length : ℚ))) ∧
    (¬ (T = 0 ∨ s = true) → (markOpacity e T s st).opacity = e.opacity) ∧
    (markEarlyReturn (markOpacity e T s st) T = true →
      (markClassify e t cloud T mt s st).1.transient = e.transient ∧
        (markClassify e t cloud T mt s st).2 = t) := by
  refine ⟨fun h => ?_, fun h => ?_, fun h => ?_⟩
  · unfold markOpacity
    simp only [h, if_true]
  · unfold markOpacity
    simp only [h, if_false]
  · rw [markClassify_early _ _ _ _ _ _ _ h]
    exact ⟨markOpacity_transient _ _ _ _, rfl⟩

/-- Step 1 in the update pass (lines 495-505): the opacity is set in self-transient mode;
in the other mode, for an ellipsoid that some ray intersects, it is kept whatever the
threshold, also for threshold 0. -/
theorem updateOpacity_step1 (e : Ellipsoid) (t : List Bool) (cloud : Cloud) (T : ℚ)
    (mt : MergeType) (s : Bool) (st : HitStats) :
    (s = true →
      (updateOpacity e s st).opacity =
        (st.hits : ℚ) / ((st.hits : ℚ) + (st.pass_through_ids.length : ℚ))) ∧
    (s = false → 0 < st.hits + st.pass_through_ids.length →
      (updateOpacity e s st).opacity = e.opacity) ∧
    (updateEarlyReturn (updateOpacity e s st) T st = true →
      (updateClassify e t cloud T mt s st).1.transient = e.transient ∧
        (updateClassify e t cloud T mt s st).2 = t) := by
  refine ⟨fun h => ?_, fun h hc => ?_, fun h => ?_⟩
  · unfold updateOpacity
    simp only [h, or_true, if_true]
  · unfold updateOpacity
    have hne : ¬ (st.hits + st.pass_through_ids.length = 0 ∨ s = true) := by
      rw [h]
      intro hor
      rcases hor with h1 | h1
      · omega
      · exact absurd h1 (by decide)
    simp only [hne, if_false]
  · rw [updateClassify_early _ _ _ _ _ _ _ h]
    exact ⟨updateOpacity_transient _ _ _, rfl⟩

/-- In `mark` an ellipsoid of zero extents is returned at once: the marker, the ellipsoid
and the ray marks are unchanged and no ray is tested. -/
theorem mark_zero_extents (C : External) (m : EllipsoidTransientMarker) (e : Ellipsoid)
    (t : List Bool) (cloud : Cloud) (grid : Grid) (T : ℚ) (mt : MergeType) (s : Bool)
    (h : e.extents = Vector3d.zero) : m.mark C e t cloud grid T mt s = (m, e, t) := by
  unfold EllipsoidTransientMarker.mark
  simp only [h, if_true, ite_self]

/-- The two paths outside self-transient mode, in which `filter` runs neither (lines 314
and 341 pass `true`): with threshold 0 and `self_transient = false`, for the ellipsoid of
`passStats` (one hit, three pass-through rays, previous opacity 1), `mark` sets the opacity
to `1 / (1 + 3)` while the update pass of the ellipse-grid strategy keeps the previous
opacity 1: its test of line 496 reads the local ray count `num_rays`, not the threshold. -/
theorem update_opacity_ignores_zero_threshold :
    0 < passStats.hits + passStats.pass_through_ids.length ∧
    passEllipsoid.opacity = 1 ∧
    (markClassify passEllipsoid passMarks passCloud 0 MergeType.Mininum false
      passStats).1.opacity = 1 / 4 ∧
    (updateClassify passEllipsoid passMarks passCloud 0 MergeType.Mininum false
      passStats).1.opacity = 1 := by
  decide!

/-- C17: the code at the failing input.  On `crossCloud` with ellipsoids of zero extents
(opacity 1/2, not transient) the ray-grid strategy returns the ellipsoids as generated and
no transient ray, while the ellipse-grid strategy records one hit in the mark of each
ellipsoid, overwrites opacity and `num_gone`, flags both ellipsoids and classifies both
rays as transient; with an intersection test that reports a miss for zero extents it still
overwrites the opacity of both ellipsoids. -/
theorem ellipse_grid_tests_zero_extents :
    (∀ e ∈ (flatExternal.generateEllipsoids crossCloud).1, e.extents = Vector3d.zero) ∧
    ((TransientFilter.init
        (sampleConfig TransientFilterStrategy.RayGrid MergeType.Mininum 1)).filter
          flatExternal 10 crossCloud).map (fun o => (o.2.ellipsoids_, o.2.transient_)) =
      some ((flatExternal.generateEllipsoids crossCloud).1, Cloud.empty) ∧
    ((TransientFilter.init
        (sampleConfig TransientFilterStrategy.EllipseGrid MergeType.Mininum 1)).filter
          flatExternal 10 crossCloud).map
        (fun o => (o.2.ellipsoids_.map (fun e => (e.opacity, e.num_gone, e.transient)),
          o.2.ellipsoids_marks_.map (fun m => m.hits), o.2.transient_)) =
      some ([(1, 1, true), (1, 1, true)], [1, 1], crossCloud) ∧
    ((TransientFilter.init
        (sampleConfig TransientFilterStrategy.EllipseGrid MergeType.Mininum 1)).filter
          flatMissExternal 10 crossCloud).map
        (fun o => (o.2.ellipsoids_.map (fun e => e.opacity), o.2.transient_)) =
      some ([0, 0], Cloud.empty) ∧
    (flatMissExternal.generateEllipsoids crossCloud).1.map (fun e => e.opacity) =
      [1 / 2, 1 / 2] := by
  decide!

/-! ## The configuration built by the tool -/

theorem modeMergeType_isSome (mode : String) :
    (modeMergeType mode).isSome = true ↔
      ¬ (mode ≠ "min" ∧ mode ≠ "max" ∧ mode ≠ "oldest" ∧ mode ≠ "newest") := by
  unfold modeMergeType
  split_ifs <;> simp_all

theorem mainConfig_fields (n : ℚ) (mode : String) (colour : Bool) :
    (mainConfig n mode colour).num_rays_filter_threshold = n ∧
    (mainConfig n mode colour).colour_cloud = colour ∧
    (mainConfig n mode colour).voxel_size = 1 / 10 ∧
    (mainConfig n mode colour).strategy = TransientFilterStrategy.RayGrid := by
  unfold mainConfig
  dsimp only
  split_ifs <;> exact ⟨rfl, rfl, rfl, rfl⟩

theorem mainConfig_merge_type (n : ℚ) (mode : String) (colour : Bool) (mt : MergeType)
    (h : modeMergeType mode = some mt) : (mainConfig n mode colour).merge_type = mt := by
  unfold modeMergeType at h
  unfold mainConfig
  dsimp only
  split_ifs at h with h1 h2 h3 h4
  · subst h1; cases h; rfl
  · subst h2; cases h; rfl
  · subst h3; cases h; rfl
  · subst h4; cases h; rfl

theorem main_run_accepted (stod : String → Option ℚ) (argv : List String)
    (config : TransientFilterConfig) (file : String)
    (h : main stod argv = MainOutcome.run config file) : Accepted stod argv := by
  unfold main usage usageDefaultExitCode at h
  unfold Accepted ColourFlagGiven
  cases hs : stod (argv.getD 3 "") with
  | none => rw [hs] at h; split_ifs at h
  | some n =>
    rw [hs] at h
    dsimp only at h
    split_ifs at h with h1 h2 h3
    refine ⟨?_, rfl, (modeMergeType_isSome _).mpr h3⟩
    by_cases h5 : argv.length = 5
    · exact Or.inl h5
    · right
      have h6 : argv.length = 6 := by
        by_contra h6
        exact h1 ⟨h5, h6⟩
      refine ⟨h6, ?_⟩
      by_contra hc
      push_neg at hc
      exact h2 ⟨h6, hc.1, hc.2⟩

/-- C21: on an accepted command line `main` runs the filter on the file of the second
argument with a configuration whose merge type is the one of the mode word (`min` gives
`Mininum`, `max` `Maximum`, `oldest` `Oldest`, `newest` `Newest`), whose threshold is the
parsed third argument and whose `colour_cloud` is true exactly when the colour flag is
given; the voxel size is 0.1 and the strategy `RayGrid`. -/
theorem main_builds_config (stod : String → Option ℚ) (argv : List String)
    (hacc : Accepted stod argv) :
    ∃ config n mt, main stod argv = MainOutcome.run config (argv.getD 2 "") ∧
      stod (argv.getD 3 "") = some n ∧ modeMergeType (argv.getD 1 "") = some mt ∧
      config.merge_type = mt ∧ config.num_rays_filter_threshold = n ∧
      (config.colour_cloud = true ↔ ColourFlagGiven argv) ∧
      config.voxel_size = 1 / 10 ∧ config.strategy = TransientFilterStrategy.RayGrid := by
  obtain ⟨hlen, hn, hm⟩ := hacc
  obtain ⟨n, hn⟩ := Option.isSome_iff_exists.mp hn
  obtain ⟨mt, hmt⟩ := Option.isSome_iff_exists.mp hm
  have hmode := (modeMergeType_isSome _).mp hm
  have h1 : ¬ (argv.length ≠ 5 ∧ argv.length ≠ 6) := by
    rintro ⟨a, b⟩
    rcases hlen with h | h
    · exact a h
    · exact b h.1
  have h2 : ¬ (argv.length = 6 ∧ argv.getD 5 "" ≠ "--colour" ∧ argv.getD 5 "" ≠ "-c") := by
    rintro ⟨a, b, c⟩
    rcases hlen with h | h
    · omega
    · rcases h.2 with h | h
      · exact b h
      · exact c h
  have hflag : (decide (argv.length = 6) = true ↔ ColourFlagGiven argv) := by
    rw [decide_eq_true_iff]
    constructor
    · intro h6
      rcases hlen with h | h
      · omega
      · exact h
    · exact fun h => h.1
  have hf := mainConfig_fields n (argv.getD 1 "") (decide (argv.length = 6))
  refine ⟨mainConfig n (argv.getD 1 "") (decide (argv.length = 6)), n, mt, ?_, hn, hmt,
    mainConfig_merge_type n _ _ mt hmt, hf.1, ?_, hf.2.2.1, hf.2.2.2⟩
  · unfold main usage usageDefaultExitCode
    rw [if_neg h1, if_neg h2, hn]
    dsimp only
    rw [if_neg hmode]
  · rw [hf.2.1]
    exact hflag

/-- Instance of C21: `raytransients max cloud.ply 20 rays -c`. -/
theorem main_builds_config_witness :
    Accepted sampleStod ["raytransients", "max", "cloud.ply", "20", "rays", "-c"] ∧
    ∃ config n mt,
      main sampleStod ["raytransients", "max", "cloud.ply", "20", "rays", "-c"] =
        MainOutcome.run config
          (["raytransients", "max", "cloud.ply", "20", "rays", "-c"].getD 2 "") ∧
      sampleStod (["raytransients", "max", "cloud.ply", "20", "rays", "-c"].getD 3 "") =
        some n ∧
      modeMergeType (["raytransients", "max", "cloud.ply", "20", "rays", "-c"].getD 1 "") =
        some mt ∧
      config.merge_type = mt ∧ config.num_rays_filter_threshold = n ∧
      (config.colour_cloud = true ↔
        ColourFlagGiven ["raytransients", "max", "cloud.ply", "20", "rays", "-c"]) ∧
      config.voxel_size = 1 / 10 ∧ config.strategy = TransientFilterStrategy.RayGrid :=
  ⟨by unfold Accepted ColourFlagGiven; decide,
    main_builds_config sampleStod ["raytransients", "max", "cloud.ply", "20", "rays", "-c"]
      (by unfold Accepted ColourFlagGiven; decide)⟩

/-! ## The colours of the output rays -/

theorem toUInt8_eq_floor (d : ℚ) (h0 : 0 ≤ d) (h1 : d < 256) : toUInt8 d = ⌊d⌋.toNat := by
  unfold toUInt8
  have hnum : 0 ≤ d.num := Rat.num_nonneg.mpr h0
  rw [Int.tdiv_eq_ediv hnum (Int.ofNat_nonneg _), ← Rat.floor_def']
  change (⌊d⌋ % 256).toNat = ⌊d⌋.toNat
  have hf0 : 0 ≤ ⌊d⌋ := Int.floor_nonneg.mpr h0
  have hf1 : ⌊d⌋ < 256 := by
    rw [Int.floor_lt]
    exact_mod_cast h1
  rw [Int.emod_eq_of_lt hf0 hf1]

theorem floor_eq_round_iff (x : ℚ) : ⌊x⌋ = round x ↔ Int.fract x < 1 / 2 := by
  rw [round_eq, eq_comm, Int.floor_eq_iff]
  constructor
  · rintro ⟨_, h⟩
    have := Int.self_sub_floor x
    have h2 : Int.fract x = x - ⌊x⌋ := (Int.self_sub_floor x).symm
    rw [h2]
    linarith
  · intro h
    have h2 : Int.fract x = x - ⌊x⌋ := (Int.self_sub_floor x).symm
    rw [h2] at h
    have h3 := Int.floor_le x
    constructor <;> linarith

/-- C22 (as amended): with `colour_cloud = true` the colour of output ray `i` is built from
the ellipsoid at index `i` by truncation, not by rounding: for opacity and planarity in
`[0, 1]` the red channel is the integer part of `(1 - planarity) * 255`, the blue channel
the integer part of `opacity * 255`, the green channel the integer part of
`num_gone / (num_gone + 10) * 255`, and alpha is the alpha of the input ray; a channel
equals the rounded value exactly when the fractional part of the product is below 1/2.
The colours of the two output clouds are these colours at the routed ids. -/
theorem colour_channels_truncate (f : TransientFilter) (cloud : Cloud) (marks : List Bool)
    (hcol : f.config_.colour_cloud = true) :
    (∀ i, 0 ≤ (f.ellipsoids_.getD i default).opacity →
      (f.ellipsoids_.getD i default).opacity ≤ 1 →
      0 ≤ (f.ellipsoids_.getD i default).planarity →
      (f.ellipsoids_.getD i default).planarity ≤ 1 →
      finaliseColour f cloud i =
        { red := ⌊(1 - (f.ellipsoids_.getD i default).planarity) * 255⌋.toNat
          green := ⌊((f.ellipsoids_.getD i default).num_gone : ℚ) /
            (((f.ellipsoids_.getD i default).num_gone : ℚ) + 10) * 255⌋.toNat
          blue := ⌊(f.ellipsoids_.getD i default).opacity * 255⌋.toNat
          alpha := (cloud.colours.getD i default).alpha } ∧
      ((finaliseColour f cloud i).blue =
          (round ((f.ellipsoids_.getD i default).opacity * 255)).toNat ↔
        Int.fract ((f.ellipsoids_.getD i default).opacity * 255) < 1 / 2) ∧
      ((finaliseColour f cloud i).red =
          (round ((1 - (f.ellipsoids_.getD i default).planarity) * 255)).toNat ↔
        Int.fract ((1 - (f.ellipsoids_.getD i default).planarity) * 255) < 1 / 2)) ∧
    (finaliseFilter f cloud marks).transient_.colours =
      f.transient_.colours ++ (transientIds f marks).map (finaliseColour f cloud) ∧
    (finaliseFilter f cloud marks).fixed_.colours =
      f.fixed_.colours ++ (fixedIds f marks).map (finaliseColour f cloud) := by
  have hroute := finaliseFilter_eq f cloud marks
  refine ⟨fun i ho0 ho1 hp0 hp1 => ?_, ?_, ?_⟩
  · generalize he : f.ellipsoids_.getD i default = e at ho0 ho1 hp0 hp1
    have hb0 : 0 ≤ e.opacity * 255 := by positivity
    have hb1 : e.opacity * 255 < 256 := by linarith
    have hr0 : 0 ≤ (1 - e.planarity) * 255 := by nlinarith
    have hr1 : (1 - e.planarity) * 255 < 256 := by linarith
    have hg : (0 : ℚ) < (e.num_gone : ℚ) + 10 := by positivity
    have hg0 : 0 ≤ (e.num_gone : ℚ) / ((e.num_gone : ℚ) + 10) * 255 := by positivity
    have hg1 : (e.num_gone : ℚ) / ((e.num_gone : ℚ) + 10) * 255 < 256 := by
      have : (e.num_gone : ℚ) / ((e.num_gone : ℚ) + 10) ≤ 1 := by
        rw [div_le_one hg]; linarith
      linarith
    have hc : finaliseColour f cloud i =
        { red := ⌊(1 - e.planarity) * 255⌋.toNat
          green := ⌊(e.num_gone : ℚ) / ((e.num_gone : ℚ) + 10) * 255⌋.toNat
          blue := ⌊e.opacity * 255⌋.toNat
          alpha := (cloud.colours.getD i default).alpha } := by
      unfold finaliseColour
      rw [if_pos hcol, he]
      dsimp only
      rw [toUInt8_eq_floor _ hr0 hr1, toUInt8_eq_floor _ hb0 hb1, toUInt8_eq_floor _ hg0 hg1]
    have toNat_inj : ∀ a b : Int, 0 ≤ a → 0 ≤ b → (a.toNat = b.toNat ↔ a = b) := by
      intro a b ha hb
      omega
    have hrb : 0 ≤ round (e.opacity * 255) := by
      rw [round_eq]; exact Int.floor_nonneg.mpr (by linarith)
    have hrr : 0 ≤ round ((1 - e.planarity) * 255) := by
      rw [round_eq]; exact Int.floor_nonneg.mpr (by linarith)
    refine ⟨hc, ?_, ?_⟩
    · rw [hc]
      dsimp only
      rw [toNat_inj _ _ (Int.floor_nonneg.mpr hb0) hrb, floor_eq_round_iff]
    · rw [hc]
      dsimp only
      rw [toNat_inj _ _ (Int.floor_nonneg.mpr hr0) hrr, floor_eq_round_iff]
  · rw [hroute.2.2.1]
    simp [Cloud.append, Cloud.select]
  · rw [hroute.2.2.2]
    simp [Cloud.append, Cloud.select]

/-- Instance of C22 as amended on `colourFilter`. -/
theorem colour_channels_truncate_witness :
    colourFilter.config_.colour_cloud = true ∧
    (finaliseFilter colourFilter crossCloud [false, false]).transient_.colours =
      colourFilter.transient_.colours ++
        (transientIds colourFilter [false, false]).map (finaliseColour colourFilter crossCloud) :=
  ⟨rfl, (colour_channels_truncate colourFilter crossCloud [false, false] rfl).2.1⟩

/-- C22 as stated fails: with opacity 1/2 and planarity 1/2, both in `[0, 1]`, the blue and
red channels of both output rays are 127, where `round (1/2 * 255)` is 128; green is 0 for
`num_gone = 0` and 191 for `num_gone = 30`, alpha is unchanged. -/
theorem colour_channels_not_rounded :
    colourFilter.config_.colour_cloud = true ∧
    (colourFilter.ellipsoids_.map (fun e => (e.opacity, e.planarity))) =
      [(1/2, 1/2), (1/2, 1/2)] ∧
    (finaliseFilter colourFilter crossCloud [false, false]).fixed_.colours =
      [⟨127, 0, 127, 255⟩] ∧
    (finaliseFilter colourFilter crossCloud [false, false]).transient_.colours =
      [⟨127, 191, 127, 255⟩] ∧
    round ((1 / 2 : ℚ) * 255) = 128 ∧ round ((1 - 1 / 2 : ℚ) * 255) = 128 ∧
    (finaliseColour colourFilter crossCloud 0).blue ≠ (round ((1 / 2 : ℚ) * 255)).toNat ∧
    (finaliseColour colourFilter crossCloud 0).red ≠
      (round ((1 - 1 / 2 : ℚ) * 255)).toNat := by
  have hr : round ((1 / 2 : ℚ) * 255) = 128 := by
    rw [round_eq, Int.floor_eq_iff]
    norm_num
  have hr2 : round ((1 - 1 / 2 : ℚ) * 255) = 128 := by
    rw [round_eq, Int.floor_eq_iff]
    norm_num
  refine ⟨rfl, by decide!, by decide!, by decide!, hr, hr2, ?_, ?_⟩
  · rw [hr]; decide!
  · rw [hr2]; decide!

/-! ## Lemmas on the phases of mark -/

theorem foldl_flatMap_eq {α β γ : Type} (f : γ → β → γ) (g : α → List β) :
    ∀ (l : List α) (c : γ),
      (l.flatMap g).foldl f c = l.foldl (fun c a => (g a).foldl f c) c := by
  intro l
  induction l with
  | nil => intro c; rfl
  | cons a l ih =>
    intro c
    rw [List.flatMap_cons, List.foldl_append, ih]
    rfl

theorem gatherRays_eq_cells (m : EllipsoidTransientMarker) (g : Grid) (bmin bmax : Vector3i) :
    gatherRays m g bmin bmax = gatherCells m g (boxCells bmin bmax) := by
  unfold gatherRays gatherCells boxCells
  rw [foldl_flatMap_eq]
  congr 1
  funext m x
  rw [foldl_flatMap_eq]
  congr 1
  funext m y
  rw [List.foldl_map]

/-- The method `mark` in phases: the early returns, the reset of the working memory, the
cell box, the gathering of candidates over the cells of the box, the intersection loop over
the candidates and the classification. -/
theorem mark_eq_phases (C : External) (m : EllipsoidTransientMarker) (e : Ellipsoid)
    (t : List Bool) (cloud : Cloud) (g : Grid) (T : ℚ) (mt : MergeType) (s : Bool) :
    m.mark C e t cloud g T mt s =
      if e.transient then (m, e, t)
      else if e.extents = Vector3d.zero then (m, e, t)
      else
        match markBounds e g with
        | none => (markReset m cloud, e, t)
        | some b =>
          ({ gatherCells (markReset m cloud) g (boxCells b.1 b.2) with
              ray_tested := ((markCandidates m e cloud g).foldl (testRay C e cloud)
                ((gatherCells (markReset m cloud) g (boxCells b.1 b.2)).ray_tested,
                  HitStats.init)).1
              pass_through_ids := ((markCandidates m e cloud g).foldl (testRay C e cloud)
                ((gatherCells (markReset m cloud) g (boxCells b.1 b.2)).ray_tested,
                  HitStats.init)).2.pass_through_ids },
            markClassify e t cloud T mt s
              ((markCandidates m e cloud g).foldl (testRay C e cloud)
                ((gatherCells (markReset m cloud) g (boxCells b.1 b.2)).ray_tested,
                  HitStats.init)).2) := by
  unfold markCandidates markCells
  by_cases h1 : e.transient = true
  · unfold EllipsoidTransientMarker.mark
    simp only [h1, if_true]
  by_cases h2 : e.extents = Vector3d.zero
  · unfold EllipsoidTransientMarker.mark
    simp only [h2, if_true, ite_self]
  simp only [h1, h2, if_false, Bool.false_eq_true]
  by_cases c1 : (((e.pos.add e.extents).sub g.box_min).divScalar g.voxel_width).x < 0 ∨
      (((e.pos.add e.extents).sub g.box_min).divScalar g.voxel_width).y < 0 ∨
      (((e.pos.add e.extents).sub g.box_min).divScalar g.voxel_width).z < 0
  · have hb : markBounds e g = none := by
      unfold markBounds
      simp only [c1, if_true]
    rw [hb]
    unfold EllipsoidTransientMarker.mark
    simp only [h1, h2, c1, if_true, if_false, Bool.false_eq_true]
    rfl
  by_cases c2 : (((e.pos.sub e.extents).sub g.box_min).divScalar g.voxel_width).x ≥
        (g.dims.x : ℚ) ∨
      (((e.pos.sub e.extents).sub g.box_min).divScalar g.voxel_width).y ≥ (g.dims.y : ℚ) ∨
      (((e.pos.sub e.extents).sub g.box_min).divScalar g.voxel_width).z ≥ (g.dims.z : ℚ)
  · have hb : markBounds e g = none := by
      unfold markBounds
      simp only [c1, c2, if_true, if_false]
    rw [hb]
    unfold EllipsoidTransientMarker.mark
    simp only [h1, h2, c1, c2, if_true, if_false, Bool.false_eq_true]
    rfl
  · have hb : markBounds e g = some
        (⟨max 0 (castInt (((e.pos.sub e.extents).sub g.box_min).divScalar g.voxel_width).x),
          max 0 (castInt (((e.pos.sub e.extents).sub g.box_min).divScalar g.voxel_width).y),
          max 0 (castInt (((e.pos.sub e.extents).sub g.box_min).divScalar g.voxel_width).z)⟩,
        ⟨min (castInt (((e.pos.add e.extents).sub g.box_min).divScalar g.voxel_width).x)
            (g.dims.x - 1),
          min (castInt (((e.pos.add e.extents).sub g.box_min).divScalar g.voxel_width).y)
            (g.dims.y - 1),
          min (castInt (((e.pos.add e.extents).sub g.box_min).divScalar g.voxel_width).z)
            (g.dims.z - 1)⟩) := by
      unfold markBounds
      simp only [c1, c2, if_false]
    rw [hb]
    unfold EllipsoidTransientMarker.mark
    simp only [h1, h2, c1, c2, if_false, Bool.false_eq_true]
    rw [gatherRays_eq_cells]
    rfl

/-! ## The bitset of tested rays -/

theorem getD_set_bool (l : List Bool) (j i : Nat) (v : Bool) :
    (l.set j v).getD i false = if i = j ∧ j < l.length then v else l.getD i false := by
  rw [List.getD_eq_getElem?_getD, List.getD_eq_getElem?_getD]
  by_cases hij : j = i
  · subst hij
    by_cases hlt : j < l.length
    · rw [List.getElem?_set_self hlt, if_pos ⟨rfl, hlt⟩]
      rfl
    · rw [List.getElem?_eq_none (by simpa using hlt), if_neg (fun h => hlt h.2),
        List.getElem?_eq_none (by simpa using hlt)]
  · rw [List.getElem?_set_ne hij, if_neg (fun h => hij h.1.symm)]

theorem allFalse_iff_getD (l : List Bool) :
    (∀ b ∈ l, b = false) ↔ ∀ i, l.getD i false = false := by
  constructor
  · intro h i
    rw [List.getD_eq_getElem?_getD]
    cases hi : l[i]? with
    | none => rfl
    | some a => exact h a (List.getElem?_mem hi)
  · intro h b hb
    obtain ⟨i, hi, rfl⟩ := List.getElem_of_mem hb
    have := h i
    rwa [List.getD_eq_getElem?_getD, List.getElem?_eq_getElem hi] at this

theorem resizeBools_allFalse (l : List Bool) (n : Nat) (h : ∀ b ∈ l, b = false) :
    ∀ b ∈ resizeBools l n false, b = false := by
  intro b hb
  unfold resizeBools at hb
  rcases List.mem_append.mp hb with hb | hb
  · exact h b (List.mem_of_mem_take hb)
  · exact (List.mem_replicate.mp hb).2

theorem markReset_fields (m : EllipsoidTransientMarker) (cloud : Cloud) :
    (markReset m cloud).test_ray_ids = [] ∧
    ((markReset m cloud).ray_tested = m.ray_tested ∨
      (markReset m cloud).ray_tested = resizeBools m.ray_tested cloud.rayCount false) := by
  unfold markReset
  dsimp only
  split_ifs
  · exact ⟨rfl, Or.inr rfl⟩
  · exact ⟨rfl, Or.inl rfl⟩

theorem markReset_allFalse (m : EllipsoidTransientMarker) (cloud : Cloud)
    (h : ∀ b ∈ m.ray_tested, b = false) :
    ∀ b ∈ (markReset m cloud).ray_tested, b = false := by
  rcases (markReset_fields m cloud).2 with h1 | h1
  · rw [h1]; exact h
  · rw [h1]; exact resizeBools_allFalse _ _ h

theorem markReset_length (m : EllipsoidTransientMarker) (cloud : Cloud) :
    (markReset m cloud).ray_tested.length = cloud.rayCount := by
  unfold markReset
  dsimp only
  split_ifs with h
  · simp only [resizeBools, List.length_append, List.length_take, List.length_replicate]
    omega
  · exact not_not.mp h

theorem gatherCell_step_inv (m : EllipsoidTransientMarker) (ray_id : Nat)
    (hlt : ray_id < m.ray_tested.length) (h : GatherInv m) :
    GatherInv (if m.ray_tested.getD ray_id false then m
      else { m with ray_tested := m.ray_tested.set ray_id true
                    test_ray_ids := m.test_ray_ids ++ [ray_id] }) ∧
    (if m.ray_tested.getD ray_id false then m
      else { m with ray_tested := m.ray_tested.set ray_id true
                    test_ray_ids := m.test_ray_ids ++ [ray_id] }).ray_tested.length =
      m.ray_tested.length := by
  by_cases hb : m.ray_tested.getD ray_id false = true
  · rw [if_pos hb]
    exact ⟨h, rfl⟩
  · rw [if_neg hb]
    have hnot : ray_id ∉ m.test_ray_ids := fun hm => hb ((h.1 ray_id).mpr hm)
    refine ⟨⟨fun i => ?_, ?_⟩, ?_⟩
    · dsimp only
      rw [getD_set_bool, List.mem_append, List.mem_singleton]
      by_cases hi : i = ray_id
      · rw [if_pos ⟨hi, hlt⟩]
        exact ⟨fun _ => Or.inr hi, fun _ => rfl⟩
      · rw [if_neg (fun hc => hi hc.1), h.1 i]
        exact ⟨Or.inl, fun hc => hc.resolve_right hi⟩
    · dsimp only
      rw [List.nodup_append]
      refine ⟨h.2, List.nodup_singleton _, ?_⟩
      intro a ha hb2
      rw [List.mem_singleton] at hb2
      subst hb2
      exact hnot ha
    · dsimp only
      rw [List.length_set]

theorem gatherCell_inv (ray_list : List Nat) :
    ∀ (m : EllipsoidTransientMarker), (∀ id ∈ ray_list, id < m.ray_tested.length) →
      GatherInv m →
      GatherInv (gatherCell m ray_list) ∧
        (gatherCell m ray_list).ray_tested.length = m.ray_tested.length := by
  unfold gatherCell
  induction ray_list with
  | nil => intro m _ h; exact ⟨h, rfl⟩
  | cons a l ih =>
    intro m hlt h
    rw [List.foldl_cons]
    obtain ⟨h1, h2⟩ := gatherCell_step_inv m a (hlt a (List.mem_cons_self _ _)) h
    obtain ⟨h3, h4⟩ := ih _ (fun id hid => by
      rw [h2]; exact hlt id (List.mem_cons_of_mem _ hid)) h1
    exact ⟨h3, h4.trans h2⟩

theorem gatherCells_inv (g : Grid) (cells : List Vector3i) :
    ∀ (m : EllipsoidTransientMarker),
      (∀ c ∈ cells, ∀ id ∈ g.cell c.x c.y c.z, id < m.ray_tested.length) →
      GatherInv m →
      GatherInv (gatherCells m g cells) ∧
        (gatherCells m g cells).ray_tested.length = m.ray_tested.length := by
  unfold gatherCells
  induction cells with
  | nil => intro m _ h; exact ⟨h, rfl⟩
  | cons c l ih =>
    intro m hlt h
    rw [List.foldl_cons]
    obtain ⟨h1, h2⟩ := gatherCell_inv (g.cell c.x c.y c.z) m
      (hlt c (List.mem_cons_self _ _)) h
    obtain ⟨h3, h4⟩ := ih _ (fun c2 hc2 id hid => by
      rw [h2]; exact hlt c2 (List.mem_cons_of_mem _ hc2) id hid) h1
    exact ⟨h3, h4.trans h2⟩

theorem gatherCell_cover (ray_list : List Nat) :
    ∀ (m : EllipsoidTransientMarker), GatherCover m → GatherCover (gatherCell m ray_list) := by
  unfold gatherCell
  refine foldl_invariant GatherCover _ ?_ ray_list
  intro m ray_id h
  split_ifs with hb
  · exact h
  · intro i hi
    dsimp only at hi ⊢
    rw [getD_set_bool] at hi
    rw [List.mem_append, List.mem_singleton]
    split_ifs at hi with hc
    · exact Or.inr hc.1
    · exact Or.inl (h i hi)

theorem gatherCells_cover (g : Grid) (cells : List Vector3i) :
    ∀ (m : EllipsoidTransientMarker), GatherCover m → GatherCover (gatherCells m g cells) := by
  unfold gatherCells
  exact foldl_invariant GatherCover _ (fun m c h => gatherCell_cover _ m h) cells

theorem testRay_fold_tested (C : External) (e : Ellipsoid) (cloud : Cloud) (ids : List Nat) :
    ∀ (rt : List Bool) (st : HitStats),
      (ids.foldl (testRay C e cloud) (rt, st)).1 =
        ids.foldl (fun rt id => rt.set id false) rt := by
  induction ids with
  | nil => intro rt st; rfl
  | cons a l ih =>
    intro rt st
    rw [List.foldl_cons, List.foldl_cons]
    have h : testRay C e cloud (rt, st) a = (rt.set a false, (testRay C e cloud (rt, st) a).2) := by
      unfold testRay
      dsimp only
      split <;> rfl
    rw [h, ih]

theorem clearFold_getD (ids : List Nat) :
    ∀ (rt : List Bool) (i : Nat),
      (ids.foldl (fun rt id => rt.set id false) rt).getD i false = true →
        rt.getD i false = true ∧ i ∉ ids := by
  induction ids with
  | nil => intro rt i h; exact ⟨h, List.not_mem_nil _⟩
  | cons a l ih =>
    intro rt i h
    rw [List.foldl_cons] at h
    obtain ⟨h1, h2⟩ := ih _ i h
    rw [getD_set_bool] at h1
    split_ifs at h1 with hc
    refine ⟨h1, ?_⟩
    intro hmem
    rcases List.mem_cons.mp hmem with hia | hil
    · subst hia
      have hlt : i < rt.length := by
        by_contra hn
        rw [List.getD_eq_getElem?_getD, List.getElem?_eq_none (by omega)] at h1
        simp at h1
      exact hc ⟨rfl, hlt⟩
    · exact h2 hil

theorem mark_tested_getD (C : External) (m : EllipsoidTransientMarker) (e : Ellipsoid)
    (t : List Bool) (cloud : Cloud) (g : Grid) (T : ℚ) (mt : MergeType) (s : Bool)
    (h : ∀ i, m.ray_tested.getD i false = false) :
    ∀ i, (m.mark C e t cloud g T mt s).1.ray_tested.getD i false = false := by
  rw [mark_eq_phases]
  split_ifs with h1 h2
  · exact h
  · exact h
  · have hreset := markReset_allFalse m cloud ((allFalse_iff_getD _).mpr h)
    cases hb : markBounds e g with
    | none => exact (allFalse_iff_getD _).mp hreset
    | some b =>
      dsimp only
      intro i
      by_contra hne
      have htrue : ((markCandidates m e cloud g).foldl (testRay C e cloud)
          ((gatherCells (markReset m cloud) g (boxCells b.1 b.2)).ray_tested,
            HitStats.init)).1.getD i false = true := by
        simpa using hne
      rw [testRay_fold_tested] at htrue
      obtain ⟨h3, h4⟩ := clearFold_getD _ _ i htrue
      have hcover : GatherCover (gatherCells (markReset m cloud) g (boxCells b.1 b.2)) := by
        apply gatherCells_cover
        intro j hj
        rw [(allFalse_iff_getD _).mp hreset j] at hj
        exact absurd hj (by decide)
      apply h4
      unfold markCandidates markCells
      rw [if_neg h1, if_neg h2, hb]
      exact hcover i h3

/-- C24: if every bit of `ray_tested` is false when `mark` is entered, every bit is false
when it returns, on each return path: the returns before the bitset is touched, the two
returns on a cell box outside the grid (after the resize, which adds false bits only), and
every return after the intersection loop, which clears the bit of each queued ray. -/
theorem ray_tested_reset (C : External) (m : EllipsoidTransientMarker) (e : Ellipsoid)
    (t : List Bool) (cloud : Cloud) (g : Grid) (T : ℚ) (mt : MergeType) (s : Bool)
    (h : ∀ b ∈ m.ray_tested, b = false) :
    ∀ b ∈ (m.mark C e t cloud g T mt s).1.ray_tested, b = false := by
  rw [allFalse_iff_getD] at h ⊢
  exact mark_tested_getD C m e t cloud g T mt s h

/-- Instance of C24: the marker of four rays on `passEllipsoid` in `passGrid`. -/
theorem ray_tested_reset_witness :
    (∀ b ∈ (EllipsoidTransientMarker.init 4).ray_tested, b = false) ∧
    (∀ b ∈ ((EllipsoidTransientMarker.init 4).mark sampleExternal passEllipsoid passMarks
      passCloud passGrid 2 MergeType.Maximum true).1.ray_tested, b = false) ∧
    markCandidates (EllipsoidTransientMarker.init 4) passEllipsoid passCloud passGrid =
      [0, 1, 2, 3] :=
  ⟨by decide,
    ray_tested_reset sampleExternal (EllipsoidTransientMarker.init 4) passEllipsoid passMarks
      passCloud passGrid 2 MergeType.Maximum true (by decide),
    by decide!⟩

/-! ## How often a ray is tested against an ellipsoid -/

/-- The method `walkRay` calls the `visit` body once per entry of `walkRayTests`. -/
theorem walkRay_eq_tests (C : External) (f : TransientFilter) (cloud : Cloud) (g : Grid)
    (ray_id : Nat) :
    walkRay C f cloud g ray_id =
      (walkRayTests C cloud g ray_id).foldl (visitEllipsoid C cloud ray_id) f := by
  unfold walkRay walkRayTests
  split_ifs
  · rw [foldl_flatMap_eq]
  · rfl

theorem gatherInv_reset (m : EllipsoidTransientMarker) (cloud : Cloud)
    (h : ∀ i, m.ray_tested.getD i false = false) : GatherInv (markReset m cloud) := by
  have hall := markReset_allFalse m cloud ((allFalse_iff_getD _).mpr h)
  rw [allFalse_iff_getD] at hall
  refine ⟨fun i => ?_, ?_⟩
  · rw [hall i, (markReset_fields m cloud).1]
    simp
  · rw [(markReset_fields m cloud).1]
    exact List.nodup_nil

/-- In `mark` no ray is queued twice: entered with a clear bitset, on a grid whose ids are
ray ids of the cloud, the candidate list has no duplicate. -/
theorem markCandidates_nodup (m : EllipsoidTransientMarker) (e : Ellipsoid) (cloud : Cloud)
    (g : Grid) (h : ∀ i, m.ray_tested.getD i false = false)
    (hg : ∀ c ∈ markCells e g, ∀ id ∈ g.cell c.x c.y c.z, id < cloud.rayCount) :
    (markCandidates m e cloud g).Nodup := by
  unfold markCandidates
  refine (gatherCells_inv g (markCells e g) (markReset m cloud) ?_
    (gatherInv_reset m cloud h)).1.2
  rw [markReset_length]
  exact hg

theorem Grid.cell_idsBelow (g : Grid) (n : Nat) (h : g.IdsBelow n) (x y z : Int) :
    ∀ id ∈ g.cell x y z, id < n := by
  intro id hid
  unfold Grid.cell at hid
  split_ifs at hid
  · exact h x y z id hid
  · exact absurd hid (List.not_mem_nil _)

theorem Grid.insert_idsBelow (g : Grid) (n : Nat) (h : g.IdsBelow n) (x y z : Int) (v : Nat)
    (hv : v < n) : (g.insert x y z v).IdsBelow n := by
  unfold Grid.insert
  split_ifs
  · intro a b c w hw
    dsimp only at hw
    split_ifs at hw
    · rcases List.mem_append.mp hw with hw | hw
      · exact h a b c w hw
      · rw [List.mem_singleton.mp hw]; exact hv
    · exact h a b c w hw
  · exact h

theorem fillRayLoop_idsBelow (n i : Nat) (hi : i < n) (start dir dir_sign : Vector3d)
    (start_index end_index : Vector3i) (length_sqr : Int) :
    ∀ (fuel : Nat) (index : Vector3i) (g g2 : Grid), g.IdsBelow n →
      fillRayLoop i start dir dir_sign start_index end_index length_sqr fuel index g = some g2 →
      g2.IdsBelow n := by
  intro fuel
  induction fuel with
  | zero => intro index g g2 _ h; simp [fillRayLoop] at h
  | succ k ih =>
    intro index g g2 hg h
    unfold fillRayLoop at h
    dsimp only at h
    have hins := Grid.insert_idsBelow g n hg index.x index.y index.z i hi
    split_ifs at h
    · rw [← Option.some.inj h]; exact hins
    · exact ih _ _ _ hins h

theorem fillRayGrid_idsBelow (C : External) (fuel : Nat) (cloud : Cloud) :
    ∀ (k : Nat), k ≤ cloud.ends.length → ∀ (g g2 : Grid), g.IdsBelow cloud.ends.length →
      (List.range k).foldl (fun g i => g.bind (fun grid => fillRay C fuel cloud grid i))
        (some g) = some g2 → g2.IdsBelow cloud.ends.length := by
  intro k
  induction k with
  | zero =>
    intro _ g g2 hg h
    rw [List.range_zero, List.foldl_nil] at h
    rw [← Option.some.inj h]; exact hg
  | succ k ih =>
    intro hk g g2 hg h
    rw [List.range_succ, List.foldl_append, List.foldl_cons, List.foldl_nil] at h
    cases hprev : (List.range k).foldl
        (fun g i => g.bind (fun grid => fillRay C fuel cloud grid i)) (some g) with
    | none => rw [hprev] at h; simp at h
    | some g1 =>
      rw [hprev] at h
      have h1 := ih (by omega) g g1 hg hprev
      exact fillRayLoop_idsBelow _ k (by omega) _ _ _ _ _ _ fuel _ g1 g2 h1 h

/-- The ray grid that `fillRayGrid` fills from an empty grid holds ray ids of the cloud
only. -/
theorem fillRayGrid_ids (C : External) (fuel : Nat) (cloud : Cloud) (bmin bmax : Vector3d)
    (w : ℚ) (g : Grid) (h : fillRayGrid C fuel (Grid.init bmin bmax w) cloud = some g) :
    g.IdsBelow cloud.rayCount :=
  fillRayGrid_idsBelow C fuel cloud cloud.ends.length (le_refl _) _ g
    (fun _ _ _ _ hv => absurd hv (List.not_mem_nil _)) h

/-- In the marking pass of the ray-grid strategy every call of `mark` starts with a clear
bitset, so on a grid of ray ids of the cloud the candidates of each call, whatever the
ellipsoid, are pairwise different. -/
theorem rayGrid_candidates_nodup (C : External) (config : TransientFilterConfig)
    (cloud : Cloud) (g : Grid) (s : Bool) (es : List Ellipsoid) (t : List Bool)
    (hg : g.IdsBelow cloud.rayCount) (k : Nat) (e : Ellipsoid) :
    (markCandidates ((List.range k).foldl (processEllipsoid C config cloud g s)
      (EllipsoidTransientMarker.init cloud.rayCount, es, t)).1 e cloud g).Nodup := by
  apply markCandidates_nodup
  · induction k with
    | zero =>
      intro i
      rw [List.range_zero, List.foldl_nil]
      exact getD_replicate_false _ _
    | succ k ih =>
      rw [List.range_succ, List.foldl_append, List.foldl_cons, List.foldl_nil]
      unfold processEllipsoid
      exact mark_tested_getD _ _ _ _ _ _ _ _ _ ih
  · intro c _ id hid
    exact Grid.cell_idsBelow g _ hg _ _ _ id hid

/-- C23: the code at the failing input.  In the ray-grid strategy no ray is queued twice
for one ellipsoid (first part: for every grid that `fillRayGrid` fills from an empty grid
and every call of `mark` in the marking pass, whatever the ellipsoid).  In the
ellipse-grid strategy `walkRay` calls `intersect` for every entry of every visited cell:
on `sampleCloud`, with a sphere of radius 1/4 around every end point, the walk of ray 1
visits the four different cells (0,0,0), (1,0,0), (1,1,0), (1,1,1), the sphere of ray 0 is
stored in each of them, and `intersect` is invoked four times on the pair (ellipsoid 0,
ray 1), which is a pass-through; the mark of ellipsoid 0 then lists ray 1 four times, and
with threshold 2 and `Mininum` the ellipse-grid strategy classifies ray 0 as transient
where the ray-grid strategy, which tests each pair once and counts one pass-through ray,
classifies no ray as transient. -/
theorem ellipse_grid_retests_ellipsoid :
    (∀ (C : External) (config : TransientFilterConfig) (cloud : Cloud) (fuel : Nat)
      (box_min box_max : Vector3d) (voxel_width : ℚ) (g : Grid) (s : Bool)
      (es : List Ellipsoid) (t : List Bool) (k : Nat) (e : Ellipsoid),
      fillRayGrid C fuel (Grid.init box_min box_max voxel_width) cloud = some g →
      (markCandidates ((List.range k).foldl (processEllipsoid C config cloud g s)
        (EllipsoidTransientMarker.init cloud.rayCount, es, t)).1 e cloud g).Nodup) ∧
    sphereExternal.walkVoxels sampleEllipseGrid (sampleCloud.starts.getD 1 default)
      (sampleCloud.ends.getD 1 default) true =
      [⟨0, 0, 0⟩, ⟨1, 0, 0⟩, ⟨1, 1, 0⟩, ⟨1, 1, 1⟩] ∧
    sampleEllipseGrid.cell 0 0 0 = [0] ∧ sampleEllipseGrid.cell 1 0 0 = [0] ∧
    sampleEllipseGrid.cell 1 1 0 = [0, 2] ∧ sampleEllipseGrid.cell 1 1 1 = [0, 1, 2] ∧
    sphereExternal.intersect ((sphereExternal.generateEllipsoids sampleCloud).1.getD 0 default)
      (sampleCloud.starts.getD 1 default) (sampleCloud.ends.getD 1 default) =
      IntersectResult.Passthrough ∧
    walkRayTests sphereExternal sampleCloud sampleEllipseGrid 1 = [0, 0, 0, 2, 0, 1, 2] ∧
    (walkRayTests sphereExternal sampleCloud sampleEllipseGrid 1).count 0 = 4 ∧
    (filterWithEllipseGrid sphereExternal
      (TransientFilter.init (sampleConfig TransientFilterStrategy.EllipseGrid
        MergeType.Mininum 2)) sampleCloud).2.ellipsoids_marks_.map
          (fun m => (m.hits, m.pass_through_ids)) = [(1, [1, 1, 1, 1]), (1, []), (1, [])] ∧
    (filterWithEllipseGrid sphereExternal
      (TransientFilter.init (sampleConfig TransientFilterStrategy.EllipseGrid
        MergeType.Mininum 2)) sampleCloud).2.ellipsoids_.map
          (fun e => (e.num_gone, e.transient)) = [(4, true), (0, false), (0, false)] ∧
    (filterWithEllipseGrid sphereExternal
      (TransientFilter.init (sampleConfig TransientFilterStrategy.EllipseGrid
        MergeType.Mininum 2)) sampleCloud).2.transient_.times = [0] ∧
    (filterWithRayGrid sphereExternal 10
      (TransientFilter.init (sampleConfig TransientFilterStrategy.RayGrid
        MergeType.Mininum 2)) sampleCloud).map (fun r => r.2.transient_.times) = some [] ∧
    (filterWithRayGrid sphereExternal 10
      (TransientFilter.init (sampleConfig TransientFilterStrategy.RayGrid
        MergeType.Mininum 2)) sampleCloud).map
          (fun r => r.2.ellipsoids_.map (fun e => (e.num_rays, e.num_gone, e.transient))) =
      some [(2, 1, false), (1, 0, false), (1, 0, false)] := by
  refine ⟨fun C config cloud fuel box_min box_max voxel_width g s es t k e hg =>
    rayGrid_candidates_nodup C config cloud g s es t
      (fillRayGrid_ids C fuel cloud box_min box_max voxel_width g hg) k e,
    ?_, ?_, ?_, ?_, ?_, ?_, ?_, ?_, ?_, ?_, ?_, ?_, ?_⟩
  · decide!
  · decide!
  · decide!
  · decide!
  · decide!
  · decide!
  · decide!
  · decide!
  · decide!
  · decide!
  · decide!
  · decide!
  · decide!

/-! ## The cells read by mark -/

theorem flatMap_singleton_eq_map {α β : Type} (f : α → β) (l : List α) :
    l.flatMap (fun a => [f a]) = l.map f := by
  induction l with
  | nil => rfl
  | cons a l ih => rw [List.flatMap_cons, ih]; rfl

theorem intRange_eq (lo hi : Int) :
    intRange lo hi = (List.range (hi + 1 - lo).toNat).map (fun k : Nat => lo + (k : Int)) := by
  unfold intRange
  simp only [Functor.map, List.pure_def, List.bind_eq_flatMap, List.map_flatMap,
    List.map_cons, List.map_nil]
  exact flatMap_singleton_eq_map _ _

theorem mem_intRange (lo hi v : Int) : v ∈ intRange lo hi ↔ lo ≤ v ∧ v ≤ hi := by
  rw [intRange_eq]
  constructor
  · intro h
    obtain ⟨k, hk, hv⟩ := List.exists_of_mem_map h
    have hk2 : k < (hi + 1 - lo).toNat := List.mem_range.mp hk
    omega
  · rintro ⟨h1, h2⟩
    have hk : (v - lo).toNat ∈ List.range (hi + 1 - lo).toNat := by
      rw [List.mem_range]; omega
    have hv : lo + (((v - lo).toNat : Nat) : Int) = v := by omega
    rw [← hv]
    exact List.mem_map_of_mem (fun k : Nat => lo + (k : Int)) hk

theorem mem_boxCells (bmin bmax c : Vector3i) :
    c ∈ boxCells bmin bmax ↔
      bmin.x ≤ c.x ∧ c.x ≤ bmax.x ∧ bmin.y ≤ c.y ∧ c.y ≤ bmax.y ∧ bmin.z ≤ c.z ∧
        c.z ≤ bmax.z := by
  unfold boxCells
  simp only [List.mem_flatMap, List.mem_map, mem_intRange]
  constructor
  · rintro ⟨x, ⟨hx1, hx2⟩, y, ⟨hy1, hy2⟩, z, ⟨hz1, hz2⟩, rfl⟩
    exact ⟨hx1, hx2, hy1, hy2, hz1, hz2⟩
  · rintro ⟨hx1, hx2, hy1, hy2, hz1, hz2⟩
    exact ⟨c.x, ⟨hx1, hx2⟩, c.y, ⟨hy1, hy2⟩, c.z, ⟨hz1, hz2⟩, rfl⟩

theorem markBounds_range (e : Ellipsoid) (g : Grid) (b : Vector3i × Vector3i)
    (h : markBounds e g = some b) :
    0 ≤ b.1.x ∧ 0 ≤ b.1.y ∧ 0 ≤ b.1.z ∧ b.2.x ≤ g.dims.x - 1 ∧
      b.2.y ≤ g.dims.y - 1 ∧ b.2.z ≤ g.dims.z - 1 := by
  unfold markBounds at h
  dsimp only at h
  split_ifs at h
  rw [← Option.some.inj h]
  exact ⟨le_max_left _ _, le_max_left _ _, le_max_left _ _, min_le_right _ _,
    min_le_right _ _, min_le_right _ _⟩

/-! ## The classifier of the two strategies -/

theorem withNumRays_fields (e : Ellipsoid) (n : Nat) :
    (e.withNumRays n).opacity = e.opacity ∧ (e.withNumRays n).num_gone = e.num_gone ∧
    (e.withNumRays n).transient = e.transient ∧ (e.withNumRays n).time = e.time ∧
    (e.withNumRays n).num_rays = n :=
  ⟨rfl, rfl, rfl, rfl, rfl⟩

theorem withNumRays_setOpacity (e : Ellipsoid) (n : Nat) (o : ℚ) :
    ({ e.withNumRays n with opacity := o } : Ellipsoid) =
      ({ e with opacity := o } : Ellipsoid).withNumRays n := rfl

theorem withNumRays_setOpacityGone (e : Ellipsoid) (n : Nat) (o : ℚ) (g : Nat) :
    ({ e.withNumRays n with opacity := o, num_gone := g } : Ellipsoid) =
      ({ e with opacity := o, num_gone := g } : Ellipsoid).withNumRays n := rfl

theorem withNumRays_setTransient (e : Ellipsoid) (n : Nat) :
    ({ e.withNumRays n with transient := true } : Ellipsoid) =
      ({ e with transient := true } : Ellipsoid).withNumRays n := rfl

theorem ellipsoid_setOpacity_numRays (e : Ellipsoid) (o : ℚ) :
    ({ e with opacity := o } : Ellipsoid).num_rays = e.num_rays := rfl

theorem ellipsoid_setOpacityGone_numRays (e : Ellipsoid) (o : ℚ) (g : Nat) :
    ({ e with opacity := o, num_gone := g } : Ellipsoid).num_rays = e.num_rays := rfl

theorem updateOpacity_numRays (e : Ellipsoid) (s : Bool) (st : HitStats) :
    (updateOpacity e s st).num_rays = e.num_rays := by
  unfold updateOpacity
  split
  · exact ellipsoid_setOpacity_numRays e _
  · rfl

theorem countBeforeAfter_numRays (e : Ellipsoid) (cloud : Cloud) (s : Bool) (st : HitStats) :
    (countBeforeAfter e cloud s st).ellipsoid.num_rays = e.num_rays := by
  unfold countBeforeAfter
  split_ifs
  · exact ellipsoid_setOpacityGone_numRays e _ _
  · rfl
  · rfl
  · rfl

theorem markOpacity_self_eq (e : Ellipsoid) (T : ℚ) (st : HitStats) :
    markOpacity e T true st =
      (updateOpacity e true st).withNumRays (st.hits + st.pass_through_ids.length) := by
  unfold markOpacity updateOpacity
  rw [if_pos (Or.inr rfl), if_pos (Or.inr rfl)]
  rfl

theorem markEarlyReturn_withNumRays (e : Ellipsoid) (T : ℚ) (st : HitStats) :
    markEarlyReturn (e.withNumRays (st.hits + st.pass_through_ids.length)) T =
      updateEarlyReturn e T st := rfl

theorem countBeforeAfter_withNumRays (e : Ellipsoid) (n : Nat) (cloud : Cloud)
    (st : HitStats) :
    countBeforeAfter (e.withNumRays n) cloud true st =
      { ellipsoid := (countBeforeAfter e cloud true st).ellipsoid.withNumRays n
        num_before := (countBeforeAfter e cloud true st).num_before
        num_after := (countBeforeAfter e cloud true st).num_after } := by
  rw [countBeforeAfter_self, countBeforeAfter_self]
  dsimp only
  rw [withNumRays_setOpacityGone]

theorem applyPolicy_withNumRays (c : Counted) (n : Nat) (t : List Bool) (cloud : Cloud)
    (T : ℚ) (mt : MergeType) (s : Bool) (st : HitStats) :
    applyPolicy { ellipsoid := c.ellipsoid.withNumRays n, num_before := c.num_before,
                  num_after := c.num_after } t cloud T mt s st =
      ((applyPolicy c t cloud T mt s st).1.withNumRays n,
        (applyPolicy c t cloud T mt s st).2) := by
  unfold applyPolicy
  have hseq : sequenceLength T ⟨c.ellipsoid.withNumRays n, c.num_before, c.num_after⟩ =
      sequenceLength T c := rfl
  rw [hseq]
  dsimp only
  cases removeDecision mt c.num_before c.num_after (sequenceLength T c) with
  | none => rfl
  | some b =>
    cases b with
    | true => dsimp only; rw [withNumRays_setTransient]
    | false => rfl

theorem markClassify_self_eq (e : Ellipsoid) (t : List Bool) (cloud : Cloud) (T : ℚ)
    (mt : MergeType) (st : HitStats) :
    markClassify e t cloud T mt true st =
      ((updateClassify e t cloud T mt true st).1.withNumRays
          (st.hits + st.pass_through_ids.length),
        (updateClassify e t cloud T mt true st).2) := by
  have hm : markEarlyReturn (markOpacity e T true st) T =
      updateEarlyReturn (updateOpacity e true st) T st := by
    rw [markOpacity_self_eq, markEarlyReturn_withNumRays]
  cases hr : updateEarlyReturn (updateOpacity e true st) T st
  · rw [markClassify_late _ _ _ _ _ _ _ (hm.trans hr), updateClassify_late _ _ _ _ _ _ _ hr,
      markOpacity_self_eq, countBeforeAfter_withNumRays, applyPolicy_withNumRays]
  · rw [markClassify_early _ _ _ _ _ _ _ (hm.trans hr), updateClassify_early _ _ _ _ _ _ _ hr,
      markOpacity_self_eq]

/-! ## Lemmas on grid filling -/

theorem Grid.sameFrame_refl (g : Grid) : g.SameFrame g := ⟨rfl, rfl, rfl, rfl⟩

theorem Grid.insert_sameFrame (g0 g : Grid) (h : g0.SameFrame g) (x y z : Int) (v : Nat) :
    g0.SameFrame (g.insert x y z v) := by
  unfold Grid.insert
  split_ifs
  · exact h
  · exact h

theorem Grid.index_sameFrame (g0 g : Grid) (h : g0.SameFrame g) (p : Vector3d) (clamp : Bool) :
    g.index p clamp = g0.index p clamp := by
  unfold Grid.index
  rw [h.1, h.2.1, h.2.2.2]

theorem Grid.inBounds_sameFrame (g0 g : Grid) (h : g0.SameFrame g) (x y z : Int) :
    g.inBounds x y z = g0.inBounds x y z := by
  unfold Grid.inBounds
  rw [h.1]

theorem Grid.insert_cells (g : Grid) (x y z : Int) (v : Nat) (hb : g.inBounds x y z = true)
    (a b c : Int) :
    (a = x ∧ b = y ∧ c = z → (g.insert x y z v).cells a b c = g.cells a b c ++ [v]) ∧
    (¬ (a = x ∧ b = y ∧ c = z) → (g.insert x y z v).cells a b c = g.cells a b c) := by
  unfold Grid.insert
  rw [if_pos hb]
  dsimp only
  exact ⟨fun h => if_pos h, fun h => if_neg h⟩

/-- A loop of steps that each append `i` to the cells they hit, no cell hit by two steps,
appends `i` once to every cell hit by some step and leaves the other cells alone. -/
theorem foldl_append_cells {κ : Type} (i : Nat) (F : Grid → Prop) (step : Grid → κ → Grid)
    (hit : κ → Int → Int → Int → Prop) :
    ∀ (ks : List κ),
      (∀ g k, k ∈ ks → F g → F (step g k) ∧ ∀ a b c,
        (hit k a b c → (step g k).cells a b c = g.cells a b c ++ [i]) ∧
        (¬ hit k a b c → (step g k).cells a b c = g.cells a b c)) →
      ks.Pairwise (fun k1 k2 => ∀ a b c, hit k1 a b c → ¬ hit k2 a b c) →
      ∀ g, F g → F (ks.foldl step g) ∧ ∀ a b c,
        ((∃ k ∈ ks, hit k a b c) → (ks.foldl step g).cells a b c = g.cells a b c ++ [i]) ∧
        ((¬ ∃ k ∈ ks, hit k a b c) → (ks.foldl step g).cells a b c = g.cells a b c) := by
  intro ks
  induction ks with
  | nil =>
    intro _ _ g hg
    refine ⟨hg, fun a b c => ⟨?_, fun _ => rfl⟩⟩
    rintro ⟨k, hk, _⟩
    exact absurd hk (List.not_mem_nil _)
  | cons k ks ih =>
    intro hstep hdis g hg
    rw [List.foldl_cons]
    obtain ⟨hF, hk⟩ := hstep g k (List.mem_cons_self _ _) hg
    rw [List.pairwise_cons] at hdis
    obtain ⟨hF2, hrest⟩ := ih (fun g k2 hk2 => hstep g k2 (List.mem_cons_of_mem _ hk2)) hdis.2
      (step g k) hF
    refine ⟨hF2, fun a b c => ?_⟩
    by_cases hh : hit k a b c
    · have hno : ¬ ∃ k2 ∈ ks, hit k2 a b c := by
        rintro ⟨k2, hk2, h2⟩
        exact hdis.1 k2 hk2 a b c hh h2
      refine ⟨fun _ => ?_, fun hc => absurd ⟨k, List.mem_cons_self _ _, hh⟩ hc⟩
      rw [(hrest a b c).2 hno, (hk a b c).1 hh]
    · constructor
      · rintro ⟨k2, hk2, h2⟩
        rcases List.mem_cons.mp hk2 with rfl | hk2
        · exact absurd h2 hh
        · rw [(hrest a b c).1 ⟨k2, hk2, h2⟩, (hk a b c).2 hh]
      · intro hc
        have hno : ¬ ∃ k2 ∈ ks, hit k2 a b c := by
          rintro ⟨k2, hk2, h2⟩
          exact hc ⟨k2, List.mem_cons_of_mem _ hk2, h2⟩
        rw [(hrest a b c).2 hno, (hk a b c).2 hh]

theorem intRange_pairwise_ne (lo hi : Int) : (intRange lo hi).Pairwise (fun a b => a ≠ b) := by
  rw [intRange_eq]
  have h : ((List.range (hi + 1 - lo).toNat).map (fun k : Nat => lo + (k : Int))).Nodup :=
    List.Nodup.map (fun a b hab => by
      have : lo + (a : Int) = lo + (b : Int) := hab
      omega) (List.nodup_range _)
  exact h

theorem clampIndex_range (v dim : Int) (h : 0 < dim) :
    0 ≤ clampIndex v dim ∧ clampIndex v dim ≤ dim - 1 := by
  unfold clampIndex
  omega

theorem Grid.index_clamp_range (g : Grid) (p : Vector3d)
    (hdims : 0 < g.dims.x ∧ 0 < g.dims.y ∧ 0 < g.dims.z) :
    0 ≤ (g.index p true).x ∧ (g.index p true).x ≤ g.dims.x - 1 ∧
    0 ≤ (g.index p true).y ∧ (g.index p true).y ≤ g.dims.y - 1 ∧
    0 ≤ (g.index p true).z ∧ (g.index p true).z ≤ g.dims.z - 1 := by
  unfold Grid.index
  simp only [if_true]
  exact ⟨(clampIndex_range _ _ hdims.1).1, (clampIndex_range _ _ hdims.1).2,
    (clampIndex_range _ _ hdims.2.1).1, (clampIndex_range _ _ hdims.2.1).2,
    (clampIndex_range _ _ hdims.2.2).1, (clampIndex_range _ _ hdims.2.2).2⟩

/-- The innermost loop of `fillEllipseGrid` (line 439) over valid cells. -/
theorem fillX_cells (g0 : Grid) (i : Nat) (xlo xhi y z : Int)
    (hb : ∀ x, xlo ≤ x → x ≤ xhi → g0.inBounds x y z = true) (g : Grid)
    (hg : g0.SameFrame g) :
    g0.SameFrame ((intRange xlo xhi).foldl (fun g x => g.insert x y z i) g) ∧ ∀ a b c,
      ((xlo ≤ a ∧ a ≤ xhi ∧ b = y ∧ c = z) →
        ((intRange xlo xhi).foldl (fun g x => g.insert x y z i) g).cells a b c =
          g.cells a b c ++ [i]) ∧
      (¬ (xlo ≤ a ∧ a ≤ xhi ∧ b = y ∧ c = z) →
        ((intRange xlo xhi).foldl (fun g x => g.insert x y z i) g).cells a b c =
          g.cells a b c) := by
  have h := foldl_append_cells i g0.SameFrame (fun g x => g.insert x y z i)
    (fun x a b c => a = x ∧ b = y ∧ c = z) (intRange xlo xhi)
    (fun g x hx hF => by
      rw [mem_intRange] at hx
      refine ⟨Grid.insert_sameFrame g0 g hF x y z i, fun a b c => ?_⟩
      exact Grid.insert_cells g x y z i
        (by rw [Grid.inBounds_sameFrame g0 g hF]; exact hb x hx.1 hx.2) a b c)
    ((intRange_pairwise_ne xlo xhi).imp (fun hne a b c h1 h2 => hne (h1.1.symm.trans h2.1)))
    g hg
  refine ⟨h.1, fun a b c => ⟨fun hc => ?_, fun hc => ?_⟩⟩
  · exact (h.2 a b c).1 ⟨a, (mem_intRange _ _ _).mpr ⟨hc.1, hc.2.1⟩, rfl, hc.2.2⟩
  · refine (h.2 a b c).2 ?_
    rintro ⟨x, hx, rfl, h2⟩
    rw [mem_intRange] at hx
    exact hc ⟨hx.1, hx.2, h2⟩

/-- The middle loop of `fillEllipseGrid` (line 437) over valid cells. -/
theorem fillY_cells (g0 : Grid) (i : Nat) (xlo xhi ylo yhi z : Int)
    (hb : ∀ x y, xlo ≤ x → x ≤ xhi → ylo ≤ y → y ≤ yhi → g0.inBounds x y z = true)
    (g : Grid) (hg : g0.SameFrame g) :
    g0.SameFrame ((intRange ylo yhi).foldl (fun g y =>
      (intRange xlo xhi).foldl (fun g x => g.insert x y z i) g) g) ∧ ∀ a b c,
      ((xlo ≤ a ∧ a ≤ xhi ∧ ylo ≤ b ∧ b ≤ yhi ∧ c = z) →
        ((intRange ylo yhi).foldl (fun g y =>
          (intRange xlo xhi).foldl (fun g x => g.insert x y z i) g) g).cells a b c =
          g.cells a b c ++ [i]) ∧
      (¬ (xlo ≤ a ∧ a ≤ xhi ∧ ylo ≤ b ∧ b ≤ yhi ∧ c = z) →
        ((intRange ylo yhi).foldl (fun g y =>
          (intRange xlo xhi).foldl (fun g x => g.insert x y z i) g) g).cells a b c =
          g.cells a b c) := by
  have h := foldl_append_cells i g0.SameFrame
    (fun g y => (intRange xlo xhi).foldl (fun g x => g.insert x y z i) g)
    (fun y a b c => xlo ≤ a ∧ a ≤ xhi ∧ b = y ∧ c = z) (intRange ylo yhi)
    (fun g y hy hF => by
      rw [mem_intRange] at hy
      exact fillX_cells g0 i xlo xhi y z (fun x h1 h2 => hb x y h1 h2 hy.1 hy.2) g hF)
    ((intRange_pairwise_ne ylo yhi).imp
      (fun hne a b c h1 h2 => hne (h1.2.2.1.symm.trans h2.2.2.1)))
    g hg
  refine ⟨h.1, fun a b c => ⟨fun hc => ?_, fun hc => ?_⟩⟩
  · exact (h.2 a b c).1
      ⟨b, (mem_intRange _ _ _).mpr ⟨hc.2.2.1, hc.2.2.2.1⟩, hc.1, hc.2.1, rfl, hc.2.2.2.2⟩
  · refine (h.2 a b c).2 ?_
    rintro ⟨y, hy, h1, h2, rfl, h4⟩
    rw [mem_intRange] at hy
    exact hc ⟨h1, h2, hy.1, hy.2, h4⟩

/-- Lines 421-444 for one ellipsoid: `i` is appended once to every cell of the clamped
cell box and to no other cell. -/
theorem fillEllipse_cells (g0 g : Grid) (hg : g0.SameFrame g)
    (hdims : 0 < g0.dims.x ∧ 0 < g0.dims.y ∧ 0 < g0.dims.z) (e : Ellipsoid) (i : Nat) :
    g0.SameFrame (fillEllipse g e i) ∧ ∀ a b c,
      (coversCell g0 e a b c = true → (fillEllipse g e i).cells a b c = g.cells a b c ++ [i]) ∧
      (coversCell g0 e a b c = false → (fillEllipse g e i).cells a b c = g.cells a b c) := by
  unfold fillEllipse coversCell
  dsimp only
  rw [Grid.index_sameFrame g0 g hg, Grid.index_sameFrame g0 g hg]
  obtain ⟨l1, _, l3, _, l5, _⟩ := Grid.index_clamp_range g0 (e.pos.sub e.extents) hdims
  obtain ⟨_, u2, _, u4, _, u6⟩ := Grid.index_clamp_range g0 (e.pos.add e.extents) hdims
  generalize g0.index (e.pos.sub e.extents) true = lo at l1 l3 l5
  generalize g0.index (e.pos.add e.extents) true = hi at u2 u4 u6
  have h := foldl_append_cells i g0.SameFrame
    (fun g z => (intRange lo.y hi.y).foldl (fun g y =>
      (intRange lo.x hi.x).foldl (fun g x => g.insert x y z i) g) g)
    (fun z a b c => lo.x ≤ a ∧ a ≤ hi.x ∧ lo.y ≤ b ∧ b ≤ hi.y ∧ c = z)
    (intRange lo.z hi.z)
    (fun g z hz hF => by
      rw [mem_intRange] at hz
      refine fillY_cells g0 i lo.x hi.x lo.y hi.y z (fun x y h1 h2 h3 h4 => ?_) g hF
      unfold Grid.inBounds
      rw [decide_eq_true_iff]
      omega)
    ((intRange_pairwise_ne lo.z hi.z).imp
      (fun hne a b c h1 h2 => hne (h1.2.2.2.2.symm.trans h2.2.2.2.2)))
    g hg
  refine ⟨h.1, fun a b c => ⟨fun hc => ?_, fun hc => ?_⟩⟩
  · rw [decide_eq_true_iff] at hc
    exact (h.2 a b c).1 ⟨c, (mem_intRange _ _ _).mpr ⟨hc.2.2.2.2.1, hc.2.2.2.2.2⟩,
      hc.1, hc.2.1, hc.2.2.1, hc.2.2.2.1, rfl⟩
  · rw [decide_eq_false_iff_not] at hc
    refine (h.2 a b c).2 ?_
    rintro ⟨z, hz, h1, h2, h3, h4, rfl⟩
    rw [mem_intRange] at hz
    exact hc ⟨h1, h2, h3, h4, hz.1, hz.2⟩

/-- The cells after the first `k` ellipsoids are inserted into an empty grid. -/
theorem fillEllipseGrid_upTo (g : Grid) (es : List Ellipsoid)
    (hempty : ∀ x y z, g.cells x y z = [])
    (hdims : 0 < g.dims.x ∧ 0 < g.dims.y ∧ 0 < g.dims.z) :
    ∀ k, g.SameFrame ((List.range k).foldl
        (fun g i => fillEllipse g (es.getD i default) i) g) ∧
      ∀ a b c, ((List.range k).foldl
        (fun g i => fillEllipse g (es.getD i default) i) g).cells a b c =
          (List.range k).filter (fun i => coversCell g (es.getD i default) a b c) := by
  intro k
  induction k with
  | zero =>
    refine ⟨Grid.sameFrame_refl g, fun a b c => ?_⟩
    rw [List.range_zero, List.foldl_nil, List.filter_nil]
    exact hempty a b c
  | succ k ih =>
    rw [List.range_succ, List.foldl_append, List.foldl_cons, List.foldl_nil]
    obtain ⟨hF, hc⟩ := fillEllipse_cells g _ ih.1 hdims (es.getD k default) k
    refine ⟨hF, fun a b c => ?_⟩
    rw [List.filter_append]
    cases hcov : coversCell g (es.getD k default) a b c
    · have hf : List.filter (fun i => coversCell g (es.getD i default) a b c) [k] = [] :=
        List.filter_cons_of_neg (by rw [hcov]; decide)
      rw [(hc a b c).2 hcov, ih.2 a b c, hf, List.append_nil]
    · have hf : List.filter (fun i => coversCell g (es.getD i default) a b c) [k] = [k] :=
        List.filter_cons_of_pos hcov
      rw [(hc a b c).1 hcov, ih.2 a b c, hf]

/-- C25: after `fillEllipseGrid` on an empty grid, a cell `(x, y, z)` of the grid (a valid
cell index) holds exactly the ids `i` of the ellipsoids whose clamped cell box contains it
(`index_min_i <= (x, y, z) <= index_max_i` componentwise), each such id once, in increasing
order: the cell is the list of these ids in the order of `0, 1, ..., n - 1`. -/
theorem fillEllipseGrid_cells (g : Grid) (es : List Ellipsoid)
    (hempty : ∀ x y z, g.cells x y z = []) (x y z : Int)
    (hvalid : g.inBounds x y z = true) :
    (fillEllipseGrid g es).cell x y z =
      (List.range es.length).filter (fun i => coversCell g (es.getD i default) x y z) ∧
    (∀ i, i ∈ (fillEllipseGrid g es).cell x y z ↔
      i < es.length ∧ coversCell g (es.getD i default) x y z = true) ∧
    (∀ i ∈ (fillEllipseGrid g es).cell x y z,
      ((fillEllipseGrid g es).cell x y z).count i = 1) ∧
    ((fillEllipseGrid g es).cell x y z).Pairwise (fun i j => i < j) := by
  have hdims : 0 < g.dims.x ∧ 0 < g.dims.y ∧ 0 < g.dims.z := by
    unfold Grid.inBounds at hvalid
    rw [decide_eq_true_iff] at hvalid
    omega
  obtain ⟨hF, hc⟩ := fillEllipseGrid_upTo g es hempty hdims es.length
  have hcell : (fillEllipseGrid g es).cell x y z =
      (List.range es.length).filter (fun i => coversCell g (es.getD i default) x y z) := by
    unfold Grid.cell fillEllipseGrid
    rw [Grid.inBounds_sameFrame g _ hF, if_pos hvalid]
    exact hc x y z
  have hsorted : ((List.range es.length).filter
      (fun i => coversCell g (es.getD i default) x y z)).Pairwise (fun i j => i < j) :=
    List.Pairwise.filter _ (List.pairwise_lt_range _)
  refine ⟨hcell, fun i => ?_, fun i hi => ?_, ?_⟩
  · rw [hcell, List.mem_filter, List.mem_range]
  · rw [hcell] at hi ⊢
    exact List.count_eq_one_of_mem (hsorted.imp (fun h => Nat.ne_of_lt h)) hi
  · rw [hcell]
    exact hsorted

/-- Instance of C25: the ellipse grid of `sampleCloud`, voxels of size 1 over the box from
(0,0,0) to (2,2,2); the cell (1,1,1) holds the three ellipsoids, the cell (0,0,0) the
first. -/
theorem fillEllipseGrid_cells_witness :
    (∀ x y z, (Grid.init ⟨0, 0, 0⟩ ⟨2, 2, 2⟩ 1).cells x y z = []) ∧
    (Grid.init ⟨0, 0, 0⟩ ⟨2, 2, 2⟩ 1).inBounds 1 1 1 = true ∧
    (fillEllipseGrid (Grid.init ⟨0, 0, 0⟩ ⟨2, 2, 2⟩ 1)
      (sampleExternal.generateEllipsoids sampleCloud).1).cell 1 1 1 = [0, 1, 2] ∧
    (fillEllipseGrid (Grid.init ⟨0, 0, 0⟩ ⟨2, 2, 2⟩ 1)
      (sampleExternal.generateEllipsoids sampleCloud).1).cell 0 0 0 = [0] ∧
    (fillEllipseGrid (Grid.init ⟨0, 0, 0⟩ ⟨2, 2, 2⟩ 1)
      (sampleExternal.generateEllipsoids sampleCloud).1).cell 1 1 1 =
      (List.range (sampleExternal.generateEllipsoids sampleCloud).1.length).filter
        (fun i => coversCell (Grid.init ⟨0, 0, 0⟩ ⟨2, 2, 2⟩ 1)
          ((sampleExternal.generateEllipsoids sampleCloud).1.getD i default) 1 1 1) :=
  ⟨fun _ _ _ => rfl, by decide!, by decide!, by decide!,
    (fillEllipseGrid_cells (Grid.init ⟨0, 0, 0⟩ ⟨2, 2, 2⟩ 1)
      (sampleExternal.generateEllipsoids sampleCloud).1 (fun _ _ _ => rfl) 1 1 1
      (by decide!)).1⟩

/-! ## Temporal decimation -/

theorem resize_lengths (c : Cloud) (n : Nat) :
    (c.resize n).starts.length = n ∧ (c.resize n).ends.length = n ∧
    (c.resize n).times.length = n ∧ (c.resize n).colours.length = n := by
  unfold Cloud.resize
  simp only [List.length_append, List.length_take, List.length_replicate]
  omega

theorem lt_ceilDiv_iff (n k c : Nat) (hk : 0 < k) : c < (n + k - 1) / k ↔ c * k < n := by
  rw [Nat.lt_iff_add_one_le, Nat.le_div_iff_mul_le hk, Nat.add_mul, Nat.one_mul]
  omega

theorem getD_set_of_lt {α : Type} (l : List α) (c j : Nat) (v d : α) (hc : c < l.length) :
    (l.set c v).getD j d = if j = c then v else l.getD j d := by
  rw [List.getD_eq_getElem?_getD, List.getD_eq_getElem?_getD]
  by_cases hj : c = j
  · subst hj
    rw [List.getElem?_set_self hc, if_pos rfl]
    rfl
  · rw [List.getElem?_set_ne hj, if_neg (fun h => hj h.symm)]

/-- The loop from the state `(c * k, c)` on a buffer of `count` rays: it writes the
entries `c, c + 1, ..., count - 1` and keeps the entries below `c`. -/
theorem decimateLoop_spec (k : Nat) (hk : 0 < k) (starts ends : List Vector3d)
    (times : List ℚ) (colours : List RGBA) (hs : starts.length = ends.length)
    (ht : times.length = ends.length) (hcol : colours.length = ends.length) :
    ∀ (fuel c : Nat) (chunk : Cloud),
      chunk.starts.length = (ends.length + k - 1) / k →
      chunk.ends.length = (ends.length + k - 1) / k →
      chunk.times.length = (ends.length + k - 1) / k →
      chunk.colours.length = (ends.length + k - 1) / k →
      c ≤ (ends.length + k - 1) / k → (ends.length + k - 1) / k < fuel + c →
      ∃ out, decimateLoop k starts ends times colours fuel (c * k) c chunk = Except.ok out ∧
        out.starts.length = (ends.length + k - 1) / k ∧
        out.ends.length = (ends.length + k - 1) / k ∧
        out.times.length = (ends.length + k - 1) / k ∧
        out.colours.length = (ends.length + k - 1) / k ∧
        ∀ j, out.starts.getD j default =
              (if c ≤ j ∧ j < (ends.length + k - 1) / k then starts.getD (j * k) default
                else chunk.starts.getD j default) ∧
          out.ends.getD j default =
              (if c ≤ j ∧ j < (ends.length + k - 1) / k then ends.getD (j * k) default
                else chunk.ends.getD j default) ∧
          out.times.getD j default =
              (if c ≤ j ∧ j < (ends.length + k - 1) / k then times.getD (j * k) default
                else chunk.times.getD j default) ∧
          out.colours.getD j default =
              (if c ≤ j ∧ j < (ends.length + k - 1) / k then colours.getD (j * k) default
                else chunk.colours.getD j default) := by
  intro fuel
  induction fuel with
  | zero =>
    intro c chunk _ _ _ _ hc hf
    omega
  | succ fuel ih =>
    intro c chunk h1 h2 h3 h4 hc hf
    unfold decimateLoop
    by_cases hlt : c * k < ends.length
    · have hcc : c < (ends.length + k - 1) / k := (lt_ceilDiv_iff _ _ _ hk).mpr hlt
      rw [if_pos hlt, if_pos ⟨by omega, by omega, by omega, by omega, by omega, by omega,
        by omega⟩]
      have hstep : c * k + k = (c + 1) * k := by rw [Nat.add_mul, Nat.one_mul]
      rw [hstep]
      obtain ⟨out, ho, l1, l2, l3, l4, hget⟩ := ih (c + 1)
        { starts := chunk.starts.set c (starts.getD (c * k) default)
          ends := chunk.ends.set c (ends.getD (c * k) default)
          times := chunk.times.set c (times.getD (c * k) default)
          colours := chunk.colours.set c (colours.getD (c * k) default) }
        (by rw [List.length_set]; exact h1) (by rw [List.length_set]; exact h2)
        (by rw [List.length_set]; exact h3) (by rw [List.length_set]; exact h4)
        (by omega) (by omega)
      refine ⟨out, ho, l1, l2, l3, l4, fun j => ?_⟩
      obtain ⟨g1, g2, g3, g4⟩ := hget j
      rw [g1, g2, g3, g4]
      dsimp only
      rw [getD_set_of_lt _ _ _ _ _ (by omega), getD_set_of_lt _ _ _ _ _ (by omega),
        getD_set_of_lt _ _ _ _ _ (by omega), getD_set_of_lt _ _ _ _ _ (by omega)]
      by_cases hj : c + 1 ≤ j ∧ j < (ends.length + k - 1) / k
      · rw [if_pos hj, if_pos hj, if_pos hj, if_pos hj, if_pos ⟨by omega, hj.2⟩,
          if_pos ⟨by omega, hj.2⟩, if_pos ⟨by omega, hj.2⟩, if_pos ⟨by omega, hj.2⟩]
        exact ⟨rfl, rfl, rfl, rfl⟩
      · rw [if_neg hj, if_neg hj, if_neg hj, if_neg hj]
        by_cases hjc : j = c
        · subst hjc
          rw [if_pos rfl, if_pos rfl, if_pos rfl, if_pos rfl, if_pos ⟨le_refl _, hcc⟩,
            if_pos ⟨le_refl _, hcc⟩, if_pos ⟨le_refl _, hcc⟩, if_pos ⟨le_refl _, hcc⟩]
          exact ⟨rfl, rfl, rfl, rfl⟩
        · have hn : ¬ (c ≤ j ∧ j < (ends.length + k - 1) / k) := by omega
          rw [if_neg hjc, if_neg hjc, if_neg hjc, if_neg hjc, if_neg hn, if_neg hn, if_neg hn,
            if_neg hn]
          exact ⟨rfl, rfl, rfl, rfl⟩
    · have hcc : ¬ c < (ends.length + k - 1) / k := fun h => hlt ((lt_ceilDiv_iff _ _ _ hk).mp h)
      rw [if_neg hlt]
      refine ⟨chunk, rfl, h1, h2, h3, h4, fun j => ?_⟩
      have hn : ¬ (c ≤ j ∧ j < (ends.length + k - 1) / k) := by omega
      rw [if_neg hn, if_neg hn, if_neg hn, if_neg hn]
      exact ⟨rfl, rfl, rfl, rfl⟩

theorem ceilDiv_eq_ceil (n k : Nat) (hk : 0 < k) :
    (n + k - 1) / k = ⌈(n : ℚ) / (k : ℚ)⌉₊ := by
  have hkq : (0 : ℚ) < (k : ℚ) := by exact_mod_cast hk
  apply le_antisymm
  · have h1 : (n : ℚ) / (k : ℚ) ≤ (⌈(n : ℚ) / (k : ℚ)⌉₊ : ℚ) := Nat.le_ceil _
    rw [div_le_iff₀ hkq] at h1
    have h2 : n ≤ ⌈(n : ℚ) / (k : ℚ)⌉₊ * k := by exact_mod_cast h1
    have h3 : ¬ ⌈(n : ℚ) / (k : ℚ)⌉₊ < (n + k - 1) / k := by
      rw [lt_ceilDiv_iff _ _ _ hk]
      omega
    omega
  · rw [Nat.ceil_le, div_le_iff₀ hkq]
    have h3 : ¬ (n + k - 1) / k * k < n := by
      rw [← lt_ceilDiv_iff _ _ _ hk]
      omega
    have h4 : n ≤ (n + k - 1) / k * k := by omega
    exact_mod_cast h4

theorem toSizeT_of_int (num_rays : Int) (h1 : 1 ≤ num_rays) (h2 : num_rays < 2 ^ 31) :
    toSizeT num_rays = num_rays.toNat ∧ 0 < num_rays.toNat := by
  unfold toSizeT
  rw [Int.emod_eq_of_lt (by omega) (by omega)]
  omega

/-- C30: for a chunk of `n` rays (four arrays of length `n`) and a decimation count
`num_rays = k` with `1 <= k` (an `int`), the callback of `decimateTemporal` reaches
`writeChunk` with a buffer of exactly `ceil(n / k)` rays, whatever the buffer held before,
whose ray `c` has the start, end, time and colour of the input ray `c * k`; no array access
is out of range (the run ends in `ok`): every index `c * k` read is below `n` and every
index `c` written is below `ceil(n / k)`.  The loop needs `n + 1` tests of its condition at
most. -/
theorem decimateTemporal_chunk (num_rays : Int) (fuel : Nat) (chunk : Cloud)
    (starts ends : List Vector3d) (times : List ℚ) (colours : List RGBA)
    (hk1 : 1 ≤ num_rays) (hk2 : num_rays < 2 ^ 31)
    (hs : starts.length = ends.length) (ht : times.length = ends.length)
    (hcol : colours.length = ends.length) (hfuel : ends.length < fuel) :
    ∃ out, decimateTemporalChunk num_rays fuel chunk starts ends times colours =
        Except.ok out ∧
      out.rayCount = ⌈(ends.length : ℚ) / (num_rays : ℚ)⌉₊ ∧
      out.starts.length = out.rayCount ∧ out.times.length = out.rayCount ∧
      out.colours.length = out.rayCount ∧
      ∀ c, c < out.rayCount →
        c * num_rays.toNat < ends.length ∧
        out.starts.getD c default = starts.getD (c * num_rays.toNat) default ∧
        out.ends.getD c default = ends.getD (c * num_rays.toNat) default ∧
        out.times.getD c default = times.getD (c * num_rays.toNat) default ∧
        out.colours.getD c default = colours.getD (c * num_rays.toNat) default := by
  obtain ⟨hsz, hk⟩ := toSizeT_of_int num_rays hk1 hk2
  have hcast : (num_rays : ℚ) = ((num_rays.toNat : Nat) : ℚ) := by
    have : ((num_rays.toNat : Nat) : Int) = num_rays := Int.toNat_of_nonneg (by omega)
    exact_mod_cast this.symm
  have hle : (ends.length + num_rays.toNat - 1) / num_rays.toNat ≤ ends.length := by
    by_contra hc
    have := (lt_ceilDiv_iff ends.length num_rays.toNat ends.length hk).mp (by omega)
    have h2 : ends.length * 1 ≤ ends.length * num_rays.toNat := Nat.mul_le_mul_left _ hk
    omega
  obtain ⟨l1, l2, l3, l4⟩ := resize_lengths chunk
    ((ends.length + num_rays.toNat - 1) / num_rays.toNat)
  obtain ⟨out, ho, o1, o2, o3, o4, hget⟩ := decimateLoop_spec num_rays.toNat hk starts ends
    times colours hs ht hcol fuel 0
    (chunk.resize ((ends.length + num_rays.toNat - 1) / num_rays.toNat)) l1 l2 l3 l4
    (Nat.zero_le _) (by omega)
  have hcount : out.rayCount = (ends.length + num_rays.toNat - 1) / num_rays.toNat := o2
  refine ⟨out, ?_, ?_, ?_, ?_, ?_, fun c hc => ?_⟩
  · unfold decimateTemporalChunk
    dsimp only
    rw [hsz, if_neg (by omega)]
    rw [Nat.zero_mul] at ho
    exact ho
  · rw [hcount, hcast]
    exact ceilDiv_eq_ceil _ _ hk
  · rw [hcount]; exact o1
  · rw [hcount]; exact o3
  · rw [hcount]; exact o4
  · rw [hcount] at hc
    obtain ⟨g1, g2, g3, g4⟩ := hget c
    rw [if_pos ⟨Nat.zero_le _, hc⟩] at g1 g2 g3 g4
    exact ⟨(lt_ceilDiv_iff _ _ _ hk).mp hc, g1, g2, g3, g4⟩

/-- Instance of C30: the three rays of `sampleCloud` decimated by 2 into a buffer that
held one other ray give the rays 0 and 2. -/
theorem decimateTemporal_chunk_witness :
    (1 : Int) ≤ 2 ∧ (2 : Int) < 2 ^ 31 ∧
    sampleCloud.starts.length = sampleCloud.ends.length ∧
    sampleCloud.times.length = sampleCloud.ends.length ∧
    sampleCloud.colours.length = sampleCloud.ends.length ∧ sampleCloud.ends.length < 4 ∧
    (decimateTemporalChunk 2 4 staleChunk sampleCloud.starts sampleCloud.ends
      sampleCloud.times sampleCloud.colours).toOption =
      some (sampleCloud.select (fun i => sampleCloud.colours.getD i default) [0, 2]) ∧
    ∃ out, decimateTemporalChunk 2 4 staleChunk sampleCloud.starts sampleCloud.ends
        sampleCloud.times sampleCloud.colours = Except.ok out ∧
      out.rayCount = ⌈(sampleCloud.ends.length : ℚ) / ((2 : Int) : ℚ)⌉₊ :=
  ⟨by decide, by decide, rfl, rfl, rfl, by decide, by decide!,
    (decimateTemporal_chunk 2 4 staleChunk sampleCloud.starts sampleCloud.ends
      sampleCloud.times sampleCloud.colours (by decide) (by decide) rfl rfl rfl
      (by decide)).imp (fun _ h => ⟨h.1, h.2.1⟩)⟩

/-! ## Lemmas on the ray walk of fillRayGrid -/

theorem nextIndex_cases (g : Grid) (start dir ds : Vector3d) (index : Vector3i) :
    UnitStep (castInt ds.x) (castInt ds.y) (castInt ds.z) index
      (nextIndex g start dir ds index) := by
  unfold nextIndex UnitStep
  dsimp only
  split_ifs
  · exact Or.inl rfl
  · exact Or.inr (Or.inl rfl)
  · exact Or.inr (Or.inr rfl)

theorem nextIndex_sameFrame (g0 g : Grid) (h : g0.SameFrame g) (start dir ds : Vector3d)
    (index : Vector3i) : nextIndex g start dir ds index = nextIndex g0 start dir ds index := by
  unfold nextIndex
  rw [h.2.1, h.2.2.2]

theorem fillRayLoop_eq_cells (i : Nat) (start dir ds : Vector3d) (s0 e0 : Vector3i) (L : Int)
    (g0 : Grid) :
    ∀ (fuel : Nat) (index : Vector3i) (g : Grid), g0.SameFrame g →
      fillRayLoop i start dir ds s0 e0 L fuel index g =
        (rayCellsLoop g0 start dir ds s0 e0 L fuel index).map
          (fun cells => cells.foldl (fun g c => g.insert c.x c.y c.z i) g) := by
  intro fuel
  induction fuel with
  | zero => intro index g _; rfl
  | succ fuel ih =>
    intro index g hg
    unfold fillRayLoop rayCellsLoop walkStop
    dsimp only
    by_cases hstop : index = e0 ∨ sqDist index s0 > L
    · rw [if_pos hstop, if_pos (decide_eq_true hstop)]
      rfl
    · rw [if_neg hstop, if_neg (by rw [decide_eq_false hstop]; decide)]
      have hg2 := Grid.insert_sameFrame g0 g hg index.x index.y index.z i
      rw [nextIndex_sameFrame g0 _ hg2, ih _ _ hg2, Option.map_map]
      rfl

theorem fillRay_eq_cells (C : External) (fuel : Nat) (cloud : Cloud) (g : Grid) (i : Nat) :
    fillRay C fuel cloud g i =
      (rayCells C fuel cloud g i).map
        (fun cells => cells.foldl (fun g c => g.insert c.x c.y c.z i) g) :=
  fillRayLoop_eq_cells i _ _ _ _ _ _ g fuel _ g (Grid.sameFrame_refl g)

theorem rayCellsLoop_isWalk (g : Grid) (start dir ds : Vector3d) (s0 e0 : Vector3i) (L : Int) :
    ∀ (fuel : Nat) (index : Vector3i) (cells : List Vector3i),
      rayCellsLoop g start dir ds s0 e0 L fuel index = some cells →
      cells.head? = some index ∧
        IsWalk (walkStop s0 e0 L) (nextIndex g start dir ds) cells := by
  intro fuel
  induction fuel with
  | zero => intro index cells h; simp [rayCellsLoop] at h
  | succ fuel ih =>
    intro index cells h
    unfold rayCellsLoop at h
    by_cases hstop : walkStop s0 e0 L index = true
    · rw [if_pos hstop] at h
      rw [← Option.some.inj h]
      exact ⟨rfl, IsWalk.last index hstop⟩
    · rw [if_neg hstop] at h
      cases hr : rayCellsLoop g start dir ds s0 e0 L fuel (nextIndex g start dir ds index) with
      | none => rw [hr] at h; simp at h
      | some rest =>
        rw [hr] at h
        rw [← Option.some.inj h]
        obtain ⟨h1, h2⟩ := ih _ _ hr
        exact ⟨rfl, IsWalk.step index rest (by simpa using hstop) h1 h2⟩

theorem isWalk_stops (stop : Vector3i → Bool) (next : Vector3i → Vector3i)
    (cells : List Vector3i) (h : IsWalk stop next cells) :
    (∀ c ∈ cells.dropLast, stop c = false) ∧
      ∃ l, cells.getLast? = some l ∧ stop l = true := by
  induction h with
  | last c hc =>
    refine ⟨fun c2 hc2 => ?_, c, rfl, hc⟩
    simp at hc2
  | step c rest hc hhead _ ih =>
    have hne : rest ≠ [] := by
      intro h0
      rw [h0] at hhead
      simp at hhead
    obtain ⟨l, hl1, hl2⟩ := ih.2
    refine ⟨fun c2 hc2 => ?_, l, ?_, hl2⟩
    · rw [List.dropLast_cons_of_ne_nil hne] at hc2
      rcases List.mem_cons.mp hc2 with rfl | h2
      · exact hc
      · exact ih.1 c2 h2
    · obtain ⟨a, t, rfl⟩ := List.exists_cons_of_ne_nil hne
      rw [List.getLast?_cons_cons]
      exact hl1

theorem isWalk_chain (stop : Vector3i → Bool) (next : Vector3i → Vector3i)
    (R : Vector3i → Vector3i → Prop) (hR : ∀ c, R c (next c)) (cells : List Vector3i)
    (h : IsWalk stop next cells) : cells.Chain' R := by
  induction h with
  | last c _ => exact List.chain'_singleton c
  | step c rest _ hhead _ ih =>
    rw [List.chain'_cons']
    refine ⟨fun y hy => ?_, ih⟩
    rw [hhead] at hy
    rw [← Option.some.inj hy]
    exact hR c

theorem spanSqr_nonneg (a b : Vector3i) : 0 ≤ spanSqr a b := by
  unfold spanSqr
  nlinarith [mul_self_nonneg (a.x - b.x), mul_self_nonneg (a.y - b.y),
    mul_self_nonneg (a.z - b.z)]

theorem toInt32_of_range (v : Int) (h0 : 0 ≤ v) (h1 : v < 2 ^ 31) : toInt32 v = v := by
  unfold toInt32
  rw [Int.emod_eq_of_lt (by omega) (by omega)]
  omega

/-- The 32-bit squared norm is the exact squared distance as long as this is below
`2^31`. -/
theorem sqDist_eq_spanSqr (a b : Vector3i) (h : spanSqr a b < 2 ^ 31) :
    sqDist a b = spanSqr a b :=
  toInt32_of_range _ (spanSqr_nonneg a b) h

theorem le_mul_self_of_sign (d s : Int) (hs : s = 1 ∨ s = -1) (h : 0 ≤ d * s) :
    d * s ≤ d * d := by
  rcases hs with rfl | rfl
  · rcases (show d = 0 ∨ 1 ≤ d by omega) with h0 | h1
    · subst h0; simp
    · nlinarith
  · rcases (show d = 0 ∨ d ≤ -1 by omega) with h0 | h1
    · subst h0; simp
    · nlinarith

theorem stepsFrom_le_spanSqr (s0 : Vector3i) (sx sy sz : Int) (hx : sx = 1 ∨ sx = -1)
    (hy : sy = 1 ∨ sy = -1) (hz : sz = 1 ∨ sz = -1) (c : Vector3i)
    (h : Ahead s0 sx sy sz c) : stepsFrom s0 sx sy sz c ≤ spanSqr c s0 := by
  unfold stepsFrom spanSqr
  have h1 := le_mul_self_of_sign _ _ hx h.1
  have h2 := le_mul_self_of_sign _ _ hy h.2.1
  have h3 := le_mul_self_of_sign _ _ hz h.2.2
  omega

theorem unitStep_stepsFrom (s0 : Vector3i) (sx sy sz : Int) (hx : sx = 1 ∨ sx = -1)
    (hy : sy = 1 ∨ sy = -1) (hz : sz = 1 ∨ sz = -1) (p q : Vector3i)
    (h : UnitStep sx sy sz p q) :
    stepsFrom s0 sx sy sz q = stepsFrom s0 sx sy sz p + 1 ∧
      (Ahead s0 sx sy sz p → Ahead s0 sx sy sz q) := by
  unfold stepsFrom Ahead
  rcases h with rfl | rfl | rfl
  · dsimp only
    rcases hx with rfl | rfl
    · constructor
      · ring
      · intro h; omega
    · constructor
      · ring
      · intro h; omega
  · dsimp only
    rcases hy with rfl | rfl
    · constructor
      · ring
      · intro h; omega
    · constructor
      · ring
      · intro h; omega
  · dsimp only
    rcases hz with rfl | rfl
    · constructor
      · ring
      · intro h; omega
    · constructor
      · ring
      · intro h; omega

theorem le_of_mul_self_le (m : Int) (h0 : 0 ≤ m) (h : m * m ≤ 46339 * 46339) : m ≤ 46339 := by
  by_contra hc
  have h1 : 46340 ≤ m := by omega
  nlinarith

/-- One step from a cell ahead of the start cell and at most `46339^2` from it leads to a
cell at most `46340^2` from it. -/
theorem unitStep_spanSqr (s0 : Vector3i) (sx sy sz : Int) (hx : sx = 1 ∨ sx = -1)
    (hy : sy = 1 ∨ sy = -1) (hz : sz = 1 ∨ sz = -1) (p q : Vector3i)
    (h : UnitStep sx sy sz p q) (ha : Ahead s0 sx sy sz p)
    (hp : spanSqr p s0 ≤ 46339 * 46339) : spanSqr q s0 ≤ 46340 * 46340 := by
  unfold spanSqr at hp ⊢
  unfold Ahead at ha
  have n1 := mul_self_nonneg (p.x - s0.x)
  have n2 := mul_self_nonneg (p.y - s0.y)
  have n3 := mul_self_nonneg (p.z - s0.z)
  rcases h with rfl | rfl | rfl
  · dsimp only
    have hb : (p.x - s0.x) * sx ≤ 46339 := by
      apply le_of_mul_self_le _ ha.1
      rcases hx with rfl | rfl <;> nlinarith
    rcases hx with rfl | rfl <;> nlinarith
  · dsimp only
    have hb : (p.y - s0.y) * sy ≤ 46339 := by
      apply le_of_mul_self_le _ ha.2.1
      rcases hy with rfl | rfl <;> nlinarith
    rcases hy with rfl | rfl <;> nlinarith
  · dsimp only
    have hb : (p.z - s0.z) * sz ≤ 46339 := by
      apply le_of_mul_self_le _ ha.2.2
      rcases hz with rfl | rfl <;> nlinarith
    rcases hz with rfl | rfl <;> nlinarith

/-- With steps of size 1 or -1 on every axis and a squared length `L` of at most `46339^2`
the walk breaks: from a cell ahead of the start cell that is `n` steps away,
`L + 2 - n` iterations are enough, and every cell of the walk is at most `46340^2` from
the start cell, so that its 32-bit squared norm is exact. -/
theorem rayCellsLoop_terminates (g : Grid) (start dir ds : Vector3d) (s0 e0 : Vector3i)
    (L : Int) (hx : castInt ds.x = 1 ∨ castInt ds.x = -1)
    (hy : castInt ds.y = 1 ∨ castInt ds.y = -1) (hz : castInt ds.z = 1 ∨ castInt ds.z = -1)
    (hL : L ≤ 46339 * 46339) :
    ∀ (fuel : Nat) (index : Vector3i),
      Ahead s0 (castInt ds.x) (castInt ds.y) (castInt ds.z) index →
      spanSqr index s0 ≤ 46340 * 46340 →
      stepsFrom s0 (castInt ds.x) (castInt ds.y) (castInt ds.z) index ≤ L + 1 →
      L + 2 ≤ (fuel : Int) + stepsFrom s0 (castInt ds.x) (castInt ds.y) (castInt ds.z) index →
      ∃ cells, rayCellsLoop g start dir ds s0 e0 L fuel index = some cells ∧
        (cells.length : Int) + stepsFrom s0 (castInt ds.x) (castInt ds.y) (castInt ds.z) index
          ≤ L + 2 ∧
        ∀ c ∈ cells, spanSqr c s0 ≤ 46340 * 46340 := by
  intro fuel
  induction fuel with
  | zero =>
    intro index _ _ h1 h2
    simp only [Nat.cast_zero] at h2
    omega
  | succ fuel ih =>
    intro index ha hsp h1 h2
    unfold rayCellsLoop
    by_cases hstop : walkStop s0 e0 L index = true
    · rw [if_pos hstop]
      refine ⟨[index], rfl, ?_, ?_⟩
      · simp only [List.length_singleton, Nat.cast_one]
        omega
      · intro c hc
        rw [List.mem_singleton.mp hc]
        exact hsp
    · rw [if_neg hstop]
      have hns : ¬ (index = e0 ∨ sqDist index s0 > L) := by
        unfold walkStop at hstop
        simpa using hstop
      have hexact : sqDist index s0 = spanSqr index s0 :=
        sqDist_eq_spanSqr _ _ (by omega)
      have hsq : spanSqr index s0 ≤ L := by
        by_contra hc
        exact hns (Or.inr (by rw [hexact]; omega))
      have hle := stepsFrom_le_spanSqr s0 _ _ _ hx hy hz index ha
      obtain ⟨hs1, hs2⟩ := unitStep_stepsFrom s0 _ _ _ hx hy hz index _
        (nextIndex_cases g start dir ds index)
      have hnext := unitStep_spanSqr s0 _ _ _ hx hy hz index _
        (nextIndex_cases g start dir ds index) ha (le_trans hsq hL)
      obtain ⟨rest, hr, hlen, hall⟩ := ih (nextIndex g start dir ds index) (hs2 ha) hnext
        (by rw [hs1]; omega) (by rw [hs1]; push_cast at h2; omega)
      refine ⟨index :: rest, by rw [hr]; rfl, ?_, ?_⟩
      · rw [hs1] at hlen
        simp only [List.length_cons, Nat.cast_add, Nat.cast_one]
        omega
      · intro c hc
        rcases List.mem_cons.mp hc with rfl | hc
        · exact hsp
        · exact hall c hc

theorem ahead_start (s0 : Vector3i) (sx sy sz : Int) :
    Ahead s0 sx sy sz s0 ∧ stepsFrom s0 sx sy sz s0 = 0 := by
  unfold Ahead stepsFrom
  simp

/-- A chain of unit steps visits no cell twice. -/
theorem chain_unitStep_nodup (sx sy sz : Int) (hx : sx = 1 ∨ sx = -1) (hy : sy = 1 ∨ sy = -1)
    (hz : sz = 1 ∨ sz = -1) (cells : List Vector3i) (h : cells.Chain' (UnitStep sx sy sz)) :
    cells.Nodup := by
  have h1 : cells.Chain' (fun p q =>
      stepsFrom ⟨0, 0, 0⟩ sx sy sz p < stepsFrom ⟨0, 0, 0⟩ sx sy sz q) :=
    h.imp (fun p q hpq => by
      rw [(unitStep_stepsFrom ⟨0, 0, 0⟩ sx sy sz hx hy hz p q hpq).1]
      omega)
  haveI : IsTrans Vector3i (fun p q =>
      stepsFrom ⟨0, 0, 0⟩ sx sy sz p < stepsFrom ⟨0, 0, 0⟩ sx sy sz q) :=
    ⟨fun _ _ _ hab hbc => lt_trans hab hbc⟩
  rw [List.chain'_iff_pairwise] at h1
  exact h1.imp (fun hlt heq => by rw [heq] at hlt; exact lt_irrefl _ hlt)

theorem castInt_one : castInt 1 = 1 := by decide!

theorem castInt_neg_one : castInt (-1) = -1 := by decide!

/-- For a ray that fits, `length_sqr` is the exact squared distance of the end cell from
the start cell. -/
theorem rayLengthSqr_exact (cloud : Cloud) (g : Grid) (i : Nat) (hfit : SpanFits cloud g i) :
    rayLengthSqr cloud g i = spanSqr (rayEndIndex cloud g i) (rayStartIndex cloud g i) := by
  unfold SpanFits maxSpanSqr at hfit
  unfold rayLengthSqr
  exact sqDist_eq_spanSqr _ _ (by omega)

theorem lengthFits_of_spanFits (cloud : Cloud) (g : Grid) (i : Nat)
    (hfit : SpanFits cloud g i) : LengthFits cloud g i := by
  unfold LengthFits
  rw [rayLengthSqr_exact cloud g i hfit]
  exact hfit

theorem spanSqr_self (a : Vector3i) : spanSqr a a = 0 := by
  unfold spanSqr
  simp

theorem sqDist_self (a : Vector3i) : sqDist a a = 0 := by
  unfold sqDist
  rw [spanSqr_self]
  decide

/-- The walk of one ray whose 32-bit `length_sqr` is at most `46339^2`, with steps of size 1
or -1 on every axis: it breaks within `max(length_sqr, 0) + 2` iterations, and its cells
form a chain of unit steps without repetition from the start cell to the first cell that
satisfies the stop test; the 32-bit squared norm of every cell of the walk is its exact
squared distance from the start cell. -/
theorem rayCells_walk (C : External) (cloud : Cloud) (g : Grid) (i fuel : Nat)
    (hx : castInt (rayDirSign C cloud i).x = 1 ∨ castInt (rayDirSign C cloud i).x = -1)
    (hy : castInt (rayDirSign C cloud i).y = 1 ∨ castInt (rayDirSign C cloud i).y = -1)
    (hz : castInt (rayDirSign C cloud i).z = 1 ∨ castInt (rayDirSign C cloud i).z = -1)
    (hfit : LengthFits cloud g i)
    (hfuel : rayLengthSqr cloud g i + 2 ≤ (fuel : Int)) (hfuel1 : 0 < fuel) :
    ∃ cells, rayCells C fuel cloud g i = some cells ∧
      fillRay C fuel cloud g i =
        some (cells.foldl (fun g c => g.insert c.x c.y c.z i) g) ∧
      cells.head? = some (rayStartIndex cloud g i) ∧
      cells.Chain' (UnitStep (castInt (rayDirSign C cloud i).x)
        (castInt (rayDirSign C cloud i).y) (castInt (rayDirSign C cloud i).z)) ∧
      cells.Nodup ∧
      (∀ c ∈ cells.dropLast,
        walkStop (rayStartIndex cloud g i) (rayEndIndex cloud g i) (rayLengthSqr cloud g i) c =
          false) ∧
      (∃ l, cells.getLast? = some l ∧
        walkStop (rayStartIndex cloud g i) (rayEndIndex cloud g i) (rayLengthSqr cloud g i) l =
          true) ∧
      (cells.length : Int) ≤ max (rayLengthSqr cloud g i) 0 + 2 ∧
      (∀ c ∈ cells, sqDist c (rayStartIndex cloud g i) =
        spanSqr c (rayStartIndex cloud g i)) := by
  obtain ⟨ha, h0⟩ := ahead_start (rayStartIndex cloud g i) (castInt (rayDirSign C cloud i).x)
    (castInt (rayDirSign C cloud i).y) (castInt (rayDirSign C cloud i).z)
  have hLB : rayLengthSqr cloud g i ≤ 46339 * 46339 := hfit
  have hs0 : spanSqr (rayStartIndex cloud g i) (rayStartIndex cloud g i) ≤ 46340 * 46340 := by
    rw [spanSqr_self]
    decide
  have hloop : ∃ cells, rayCellsLoop g (cloud.starts.getD i default) (rayDir cloud i)
      (rayDirSign C cloud i) (rayStartIndex cloud g i) (rayEndIndex cloud g i)
      (rayLengthSqr cloud g i) fuel (rayStartIndex cloud g i) = some cells ∧
      (cells.length : Int) ≤ max (rayLengthSqr cloud g i) 0 + 2 ∧
      ∀ c ∈ cells, spanSqr c (rayStartIndex cloud g i) ≤ 46340 * 46340 := by
    by_cases hneg : rayLengthSqr cloud g i < 0
    · obtain ⟨k, rfl⟩ : ∃ k, fuel = k + 1 := ⟨fuel - 1, by omega⟩
      have hstop : walkStop (rayStartIndex cloud g i) (rayEndIndex cloud g i)
          (rayLengthSqr cloud g i) (rayStartIndex cloud g i) = true := by
        unfold walkStop
        rw [sqDist_self]
        exact decide_eq_true (Or.inr hneg)
      refine ⟨[rayStartIndex cloud g i], ?_, ?_, ?_⟩
      · unfold rayCellsLoop
        rw [if_pos hstop]
      · simp only [List.length_singleton, Nat.cast_one]
        omega
      · intro c hc
        rw [List.mem_singleton.mp hc]
        exact hs0
    · obtain ⟨cells, hc, hlen, hall⟩ := rayCellsLoop_terminates g
        (cloud.starts.getD i default) (rayDir cloud i) (rayDirSign C cloud i)
        (rayStartIndex cloud g i) (rayEndIndex cloud g i) (rayLengthSqr cloud g i) hx hy hz
        hLB fuel (rayStartIndex cloud g i) ha hs0 (by rw [h0]; omega) (by rw [h0]; omega)
      rw [h0] at hlen
      exact ⟨cells, hc, by omega, hall⟩
  obtain ⟨cells, hc, hlen, hall⟩ := hloop
  obtain ⟨hhead, hwalk⟩ := rayCellsLoop_isWalk _ _ _ _ _ _ _ _ _ _ hc
  have hchain := isWalk_chain _ _ _ (nextIndex_cases g (cloud.starts.getD i default)
    (rayDir cloud i) (rayDirSign C cloud i)) cells hwalk
  obtain ⟨hs1, hs2⟩ := isWalk_stops _ _ cells hwalk
  refine ⟨cells, hc, ?_, hhead, hchain, chain_unitStep_nodup _ _ _ hx hy hz cells hchain,
    hs1, hs2, hlen, fun c hcm => sqDist_eq_spanSqr _ _ (by have := hall c hcm; omega)⟩
  have hc2 : rayCells C fuel cloud g i = some cells := hc
  rw [fillRay_eq_cells, hc2]
  rfl

theorem signStep_of_sgn (C : External) (hpos : ∀ v, 0 < v → C.sgn v = 1)
    (hneg : ∀ v, v < 0 → C.sgn v = -1) (v : ℚ) (hv : v ≠ 0) :
    castInt (C.sgn v) = signStep v ∧ (signStep v = 1 ∨ signStep v = -1) := by
  unfold signStep
  by_cases h : 0 < v
  · rw [hpos v h, if_pos h]
    exact ⟨castInt_one, Or.inl rfl⟩
  · rw [hneg v (lt_of_le_of_ne (not_lt.mp h) hv), if_neg h]
    exact ⟨castInt_neg_one, Or.inr rfl⟩

/-- C26: the code at the failing input.  First part: for a ray whose direction has no
zero component (`sgn` returning 1 for a positive and -1 for a negative value) and whose
end cell is at most `46339^2` in squared distance from its start cell, the walk of
`fillRayGrid` breaks within `length_sqr + 2` iterations and the cells into which it
inserts the ray's id, in insertion order, start with the cell of the ray's start; each
next cell is one step of the direction's sign from the previous cell on exactly one axis,
so no cell occurs twice; the last cell is the first one that equals the end cell or whose
squared cell distance from the start cell exceeds the one of the end cell.  Second part:
the ray of `longCloud` spans 46341 cells along x; the source computes `length_sqr` as
`squaredNorm()` of `int` cell indices (line 375), `46341^2 + 2` does not fit 32 bits and
wraps to a negative value, the test of line 381 holds at once, and the ray is inserted
into its start cell only, which is neither the end cell nor further from the start cell
than the end cell. -/
theorem fillRayGrid_cell_sequence :
    (∀ (C : External) (cloud : Cloud) (g : Grid) (i fuel : Nat),
      (∀ v, 0 < v → C.sgn v = 1) → (∀ v, v < 0 → C.sgn v = -1) →
      (rayDir cloud i).x ≠ 0 → (rayDir cloud i).y ≠ 0 → (rayDir cloud i).z ≠ 0 →
      SpanFits cloud g i → rayLengthSqr cloud g i + 2 ≤ (fuel : Int) →
      ∃ cells, rayCells C fuel cloud g i = some cells ∧
        fillRay C fuel cloud g i =
          some (cells.foldl (fun g c => g.insert c.x c.y c.z i) g) ∧
        cells.head? = some (g.index (cloud.starts.getD i default) false) ∧
        cells.Chain' (UnitStep (signStep (rayDir cloud i).x) (signStep (rayDir cloud i).y)
          (signStep (rayDir cloud i).z)) ∧
        cells.Nodup ∧
        (∀ c ∈ cells.dropLast, ¬ (c = g.index (cloud.ends.getD i default) false ∨
          spanSqr c (g.index (cloud.starts.getD i default) false) >
            spanSqr (g.index (cloud.ends.getD i default) false)
              (g.index (cloud.starts.getD i default) false))) ∧
        (∃ l, cells.getLast? = some l ∧ (l = g.index (cloud.ends.getD i default) false ∨
          spanSqr l (g.index (cloud.starts.getD i default) false) >
            spanSqr (g.index (cloud.ends.getD i default) false)
              (g.index (cloud.starts.getD i default) false))) ∧
        (cells.length : Int) ≤
          spanSqr (g.index (cloud.ends.getD i default) false)
            (g.index (cloud.starts.getD i default) false) + 2) ∧
    (rayDir longCloud 0).x ≠ 0 ∧ (rayDir longCloud 0).y ≠ 0 ∧ (rayDir longCloud 0).z ≠ 0 ∧
    longGrid.dims = ⟨46342, 2, 2⟩ ∧
    rayStartIndex longCloud longGrid 0 = ⟨0, 0, 0⟩ ∧
    rayEndIndex longCloud longGrid 0 = ⟨46341, 1, 1⟩ ∧
    spanSqr (rayEndIndex longCloud longGrid 0) (rayStartIndex longCloud longGrid 0) =
      2147488283 ∧
    rayLengthSqr longCloud longGrid 0 = -2147479013 ∧
    rayCells sampleExternal 100 longCloud longGrid 0 = some [⟨0, 0, 0⟩] ∧
    (fillRayGrid sampleExternal 100 longGrid longCloud).map
      (fun g => (g.cell 0 0 0, g.cell 1 0 0, g.cell 46341 1 1)) = some ([0], [], []) ∧
    ¬ (spanSqr (rayStartIndex longCloud longGrid 0) (rayStartIndex longCloud longGrid 0) >
      spanSqr (rayEndIndex longCloud longGrid 0) (rayStartIndex longCloud longGrid 0)) := by
  refine ⟨fun C cloud g i fuel hpos hneg hdx hdy hdz hfit hfuel => ?_, by decide!, by decide!,
    by decide!, by decide!, by decide!, by decide!, by decide!, by decide!, by decide!,
    by decide!, by decide!⟩
  obtain ⟨ex, sx⟩ := signStep_of_sgn C hpos hneg _ hdx
  obtain ⟨ey, sy⟩ := signStep_of_sgn C hpos hneg _ hdy
  obtain ⟨ez, sz⟩ := signStep_of_sgn C hpos hneg _ hdz
  have hxs : castInt (rayDirSign C cloud i).x = signStep (rayDir cloud i).x := ex
  have hys : castInt (rayDirSign C cloud i).y = signStep (rayDir cloud i).y := ey
  have hzs : castInt (rayDirSign C cloud i).z = signStep (rayDir cloud i).z := ez
  have hexact := rayLengthSqr_exact cloud g i hfit
  have hL0 : 0 ≤ rayLengthSqr cloud g i := by rw [hexact]; exact spanSqr_nonneg _ _
  obtain ⟨cells, h1, h2, h3, h4, h5, h6, ⟨l, h7, h8⟩, h9, h10⟩ :=
    rayCells_walk C cloud g i fuel (by rw [hxs]; exact sx) (by rw [hys]; exact sy)
      (by rw [hzs]; exact sz) (lengthFits_of_spanFits cloud g i hfit) hfuel (by omega)
  rw [max_eq_left hL0] at h9
  rw [hxs, hys, hzs] at h4
  have hstart : rayStartIndex cloud g i = g.index (cloud.starts.getD i default) false := rfl
  have hend : rayEndIndex cloud g i = g.index (cloud.ends.getD i default) false := rfl
  have hlen := rayLengthSqr_exact cloud g i hfit
  rw [hstart, hend] at hlen
  have hl : l ∈ cells := List.mem_of_getLast?_eq_some h7
  refine ⟨cells, h1, h2, h3, h4, h5, fun c hc => ?_, ⟨l, h7, ?_⟩, ?_⟩
  · have hw := h6 c hc
    have hx := h10 c (List.mem_of_mem_dropLast hc)
    unfold walkStop at hw
    rw [hx, hstart, hend, hlen] at hw
    simpa using hw
  · have hx := h10 l hl
    unfold walkStop at h8
    rw [hx, hstart, hend, hlen] at h8
    simpa using h8
  · rw [← hlen]
    exact h9

/-- Instance of the first part of C26: ray 1 of `sampleCloud`, from (1/4,1/4,1/4) to
(7/4,3/2,5/4), in the grid of voxel size 1 over the box from (0,0,0) to (2,2,2) fits and is
inserted into the cells (0,0,0), (1,0,0), (1,1,0), (1,1,1). -/
theorem fillRayGrid_cell_sequence_witness :
    (∀ v, 0 < v → sampleExternal.sgn v = 1) ∧ (∀ v, v < 0 → sampleExternal.sgn v = -1) ∧
    (rayDir sampleCloud 1).x ≠ 0 ∧ (rayDir sampleCloud 1).y ≠ 0 ∧
    (rayDir sampleCloud 1).z ≠ 0 ∧
    SpanFits sampleCloud (Grid.init ⟨0, 0, 0⟩ ⟨2, 2, 2⟩ 1) 1 ∧
    rayLengthSqr sampleCloud (Grid.init ⟨0, 0, 0⟩ ⟨2, 2, 2⟩ 1) 1 + 2 ≤
      ((10 : Nat) : Int) ∧
    rayCells sampleExternal 10 sampleCloud (Grid.init ⟨0, 0, 0⟩ ⟨2, 2, 2⟩ 1) 1 =
      some [⟨0, 0, 0⟩, ⟨1, 0, 0⟩, ⟨1, 1, 0⟩, ⟨1, 1, 1⟩] ∧
    ∃ cells, rayCells sampleExternal 10 sampleCloud (Grid.init ⟨0, 0, 0⟩ ⟨2, 2, 2⟩ 1) 1 =
        some cells ∧ cells.Nodup :=
  ⟨fun _ hv => if_pos hv, fun _ hv => if_neg (not_lt.mpr (le_of_lt hv)), by decide!,
    by decide!, by decide!, by unfold SpanFits maxSpanSqr; decide!, by decide!, by decide!,
    (fillRayGrid_cell_sequence.1 sampleExternal sampleCloud
      (Grid.init ⟨0, 0, 0⟩ ⟨2, 2, 2⟩ 1) 1 10
      (fun _ hv => if_pos hv) (fun _ hv => if_neg (not_lt.mpr (le_of_lt hv))) (by decide!)
      (by decide!) (by decide!) (by unfold SpanFits maxSpanSqr; decide!)
      (by decide!)).imp (fun _ h => ⟨h.1, h.2.2.2.2.1⟩)⟩

/-! ## Termination of the ray walk -/

/-- The hypothesis on `sgn` is needed: were `sgn 0 = 0`, the walk of ray 0 of
`passCloud`, which runs along the x axis, would stay in its start cell for ever (the
parametric distances of the y and z axes are `0 / 0`, every comparison with them fails and
the z index is advanced by 0). -/
theorem rayCells_stall_of_sgn_zero (fuel : Nat) :
    rayCells zeroSgnExternal fuel passCloud passGrid 0 = none ∧
    fillRay zeroSgnExternal fuel passCloud passGrid 0 = none := by
  have hnext : nextIndex passGrid (passCloud.starts.getD 0 default) (rayDir passCloud 0)
      (rayDirSign zeroSgnExternal passCloud 0) (rayStartIndex passCloud passGrid 0) =
      rayStartIndex passCloud passGrid 0 := by decide!
  have hstop : walkStop (rayStartIndex passCloud passGrid 0) (rayEndIndex passCloud passGrid 0)
      (rayLengthSqr passCloud passGrid 0) (rayStartIndex passCloud passGrid 0) = false := by
    decide!
  have hcells : rayCells zeroSgnExternal fuel passCloud passGrid 0 = none := by
    unfold rayCells
    induction fuel with
    | zero => rfl
    | succ fuel ih =>
      unfold rayCellsLoop
      rw [hstop, hnext, ih]
      rfl
  exact ⟨hcells, by rw [fillRay_eq_cells, hcells]; rfl⟩

/-! ## The cell reads of EllipsoidTransientMarker::mark -/

theorem foldl_traced {α : Type} (f : EllipsoidTransientMarker → α → EllipsoidTransientMarker)
    (k : α → Vector3i) :
    ∀ (l : List α) (acc : EllipsoidTransientMarker × List Vector3i),
      l.foldl (fun acc a => (f acc.1 a, acc.2 ++ [k a])) acc =
        (l.foldl f acc.1, acc.2 ++ l.map k) := by
  intro l
  induction l with
  | nil => intro acc; simp
  | cons a l ih =>
    intro acc
    rw [List.foldl_cons, ih]
    simp

/-- The traced triple loop computes the marker of `gatherRays` and reads the cells of the
box in loop order. -/
theorem gatherRaysTraced_eq (m : EllipsoidTransientMarker) (g : Grid) (bmin bmax : Vector3i) :
    gatherRaysTraced m g bmin bmax = (gatherRays m g bmin bmax, boxCells bmin bmax) := by
  have h : gatherRaysTraced m g bmin bmax =
      (boxCells bmin bmax).foldl
        (fun acc c => (gatherCell acc.1 (g.cell c.x c.y c.z), acc.2 ++ [c])) (m, []) := by
    unfold gatherRaysTraced boxCells
    rw [foldl_flatMap_eq]
    congr 1
    funext acc x
    rw [foldl_flatMap_eq]
    congr 1
    funext acc y
    rw [List.foldl_map]
  rw [h, foldl_traced (fun m c => gatherCell m (g.cell c.x c.y c.z)) (fun c => c),
    gatherRays_eq_cells]
  simp [gatherCells]

/-- The traced method computes the result of `mark` and reads the cells `markCells`. -/
theorem markTraced_eq (C : External) (m : EllipsoidTransientMarker) (e : Ellipsoid)
    (t : List Bool) (cloud : Cloud) (g : Grid) (T : ℚ) (mt : MergeType) (s : Bool) :
    m.markTraced C e t cloud g T mt s = (m.mark C e t cloud g T mt s, markCells e g) := by
  unfold EllipsoidTransientMarker.markTraced EllipsoidTransientMarker.mark markCells markBounds
  by_cases h1 : e.transient = true
  · simp only [h1, if_true]
  by_cases h2 : e.extents = Vector3d.zero
  · simp only [h2, if_true, ite_self]
  simp only [h1, h2, if_false, Bool.false_eq_true]
  by_cases c1 : (((e.pos.add e.extents).sub g.box_min).divScalar g.voxel_width).x < 0 ∨
      (((e.pos.add e.extents).sub g.box_min).divScalar g.voxel_width).y < 0 ∨
      (((e.pos.add e.extents).sub g.box_min).divScalar g.voxel_width).z < 0
  · simp only [c1, if_true]
  by_cases c2 : (((e.pos.sub e.extents).sub g.box_min).divScalar g.voxel_width).x ≥
        (g.dims.x : ℚ) ∨
      (((e.pos.sub e.extents).sub g.box_min).divScalar g.voxel_width).y ≥ (g.dims.y : ℚ) ∨
      (((e.pos.sub e.extents).sub g.box_min).divScalar g.voxel_width).z ≥ (g.dims.z : ℚ)
  · simp only [c1, c2, if_true, if_false]
  · simp only [c1, c2, if_false, gatherRaysTraced_eq]

/-- C28: every cell index that a call of `mark` passes to `ray_grid.cell` is a valid index
of the grid, `0 ≤ x < dims[0]`, `0 ≤ y < dims[1]`, `0 ≤ z < dims[2]`.  `markTraced` is the
method with its reads recorded: it computes what `mark` computes, every index it records
is valid, and it records no index when the call returns before the loops (lines 64-99, among
them the two returns for a cell box outside the grid) and else the cells of the box
`bmin ..= bmax`, whose lower corner is clipped to 0 and whose upper corner is clipped to
`dims - 1`.  Holds for every grid, whatever its dims. -/
theorem mark_reads_valid_cells (C : External) (m : EllipsoidTransientMarker) (e : Ellipsoid)
    (t : List Bool) (cloud : Cloud) (g : Grid) (T : ℚ) (mt : MergeType) (s : Bool) :
    (m.markTraced C e t cloud g T mt s).1 = m.mark C e t cloud g T mt s ∧
    (∀ c ∈ (m.markTraced C e t cloud g T mt s).2,
      0 ≤ c.x ∧ c.x < g.dims.x ∧ 0 ≤ c.y ∧ c.y < g.dims.y ∧ 0 ≤ c.z ∧ c.z < g.dims.z) ∧
    ((e.transient = true ∨ e.extents = Vector3d.zero ∨ markBounds e g = none) →
      (m.markTraced C e t cloud g T mt s).2 = []) ∧
    (∀ b, e.transient = false → e.extents ≠ Vector3d.zero → markBounds e g = some b →
      (m.markTraced C e t cloud g T mt s).2 = boxCells b.1 b.2 ∧
      0 ≤ b.1.x ∧ 0 ≤ b.1.y ∧ 0 ≤ b.1.z ∧ b.2.x ≤ g.dims.x - 1 ∧ b.2.y ≤ g.dims.y - 1 ∧
        b.2.z ≤ g.dims.z - 1) := by
  rw [markTraced_eq]
  refine ⟨rfl, fun c hc => ?_, fun h => ?_, fun b h1 h2 hb => ?_⟩
  · have hc2 : c ∈ markCells e g := hc
    unfold markCells at hc2
    split_ifs at hc2
    · exact absurd hc2 (List.not_mem_nil _)
    · exact absurd hc2 (List.not_mem_nil _)
    · cases hb : markBounds e g with
      | none =>
        rw [hb] at hc2
        exact absurd hc2 (List.not_mem_nil _)
      | some b =>
        rw [hb] at hc2
        have hc3 := (mem_boxCells b.1 b.2 c).mp hc2
        obtain ⟨r1, r2, r3, r4, r5, r6⟩ := markBounds_range e g b hb
        omega
  · show markCells e g = []
    unfold markCells
    rcases h with h | h | h
    · rw [if_pos h]
    · rw [if_pos h, ite_self]
    · rw [h, ite_self, ite_self]
  · refine ⟨?_, markBounds_range e g b hb⟩
    show markCells e g = boxCells b.1 b.2
    unfold markCells
    rw [if_neg (by rw [h1]; decide), if_neg h2, hb]

/-- Instance of C28: the cell box of `wideEllipsoid` runs from -1 to 3 along x before it is
clipped; the call reads the eight cells of the grid and no other.  For `outsideEllipsoid`
the call returns before the loops and reads no cell. -/
theorem mark_reads_valid_cells_witness :
    (Grid.init ⟨0, 0, 0⟩ ⟨2, 2, 2⟩ 1).dims = ⟨2, 2, 2⟩ ∧
    castInt ((((wideEllipsoid.pos.sub wideEllipsoid.extents).sub
      (Grid.init ⟨0, 0, 0⟩ ⟨2, 2, 2⟩ 1).box_min).divScalar 1).x) = -1 ∧
    castInt ((((wideEllipsoid.pos.add wideEllipsoid.extents).sub
      (Grid.init ⟨0, 0, 0⟩ ⟨2, 2, 2⟩ 1).box_min).divScalar 1).x) = 3 ∧
    ((EllipsoidTransientMarker.init 3).markTraced sampleExternal wideEllipsoid
      [false, false, false] sampleCloud (Grid.init ⟨0, 0, 0⟩ ⟨2, 2, 2⟩ 1) 2 MergeType.Mininum
      true).2 = [⟨0, 0, 0⟩, ⟨0, 0, 1⟩, ⟨0, 1, 0⟩, ⟨0, 1, 1⟩, ⟨1, 0, 0⟩, ⟨1, 0, 1⟩, ⟨1, 1, 0⟩,
        ⟨1, 1, 1⟩] ∧
    ((EllipsoidTransientMarker.init 3).markTraced sampleExternal outsideEllipsoid
      [false, false, false] sampleCloud (Grid.init ⟨0, 0, 0⟩ ⟨2, 2, 2⟩ 1) 2 MergeType.Mininum
      true).2 = [] ∧
    ∀ c ∈ ((EllipsoidTransientMarker.init 3).markTraced sampleExternal wideEllipsoid
      [false, false, false] sampleCloud (Grid.init ⟨0, 0, 0⟩ ⟨2, 2, 2⟩ 1) 2 MergeType.Mininum
      true).2, 0 ≤ c.x ∧ c.x < (Grid.init ⟨0, 0, 0⟩ ⟨2, 2, 2⟩ 1).dims.x ∧
        0 ≤ c.y ∧ c.y < (Grid.init ⟨0, 0, 0⟩ ⟨2, 2, 2⟩ 1).dims.y ∧
        0 ≤ c.z ∧ c.z < (Grid.init ⟨0, 0, 0⟩ ⟨2, 2, 2⟩ 1).dims.z :=
  ⟨by decide!, by decide!, by decide!, by decide!, by decide!,
    (mark_reads_valid_cells sampleExternal (EllipsoidTransientMarker.init 3) wideEllipsoid
      [false, false, false] sampleCloud (Grid.init ⟨0, 0, 0⟩ ⟨2, 2, 2⟩ 1) 2 MergeType.Mininum
      true).2.1⟩

/-! ## The two classifiers -/

theorem updateCountLoop_eq (cloud : Cloud) (mk : EllipsoidMark) :
    ∀ (ids : List Nat) (c : PassCounts),
      updateCountLoop cloud mk ids (c.num_before, c.num_after, c.misses) =
        ((ids.foldl (countStep cloud.times mk.first_intersection_time
            mk.last_intersection_time) c).num_before,
          (ids.foldl (countStep cloud.times mk.first_intersection_time
            mk.last_intersection_time) c).num_after,
          (ids.foldl (countStep cloud.times mk.first_intersection_time
            mk.last_intersection_time) c).misses) := by
  intro ids
  induction ids with
  | nil => intro c; rfl
  | cons id rest ih =>
    intro c
    rw [List.foldl_cons]
    unfold updateCountLoop countStep
    by_cases h1 : cloud.times.getD id default > mk.last_intersection_time
    · rw [if_pos h1, if_pos h1]
      exact ih { c with num_after := c.num_after + 1 }
    · rw [if_neg h1, if_neg h1]
      by_cases h2 : cloud.times.getD id default < mk.first_intersection_time
      · rw [if_pos h2, if_pos h2]
        exact ih { c with num_before := c.num_before + 1 }
      · rw [if_neg h2, if_neg h2]
        exact ih { c with misses := c.misses + 1 }

theorem map_getD_range {α : Type} (d : α) (l : List α) :
    (List.range l.length).map (fun j => l.getD j d) = l := by
  apply List.ext_getElem
  · simp
  · intro n h1 h2
    simp [List.getD_eq_getElem?_getD, List.getElem?_eq_getElem h2]

theorem rayEligible_iff (times : List ℚ) (s : Bool) (first last : ℚ) (i : Nat) :
    rayEligible times s first last i = true ↔
      (s = false ∨ times.getD i default < first ∨ times.getD i default > last) := by
  unfold rayEligible
  generalize times.getD i default = v
  cases s <;> simp

/-- The loop of lines 587-606 over the ids in list order is the marking loop `markRays`. -/
theorem updateMarkLoop_eq (cloud : Cloud) (s : Bool) (mk : EllipsoidMark) (o : ℚ) :
    ∀ (ids : List Nat) (d : ℚ) (t : List Bool),
      (ids.foldl (fun state i =>
        if state.1 + o ≥ 1 then
          if s = false ∨ cloud.times.getD i default < mk.first_intersection_time ∨
              cloud.times.getD i default > mk.last_intersection_time then
            (state.1 + o - 1, state.2.set i true)
          else (state.1 + o - 1, state.2)
        else (state.1 + o, state.2)) (d, t)).2 =
      markRays cloud.times s mk.first_intersection_time mk.last_intersection_time o d ids
        t := by
  intro ids
  induction ids with
  | nil => intro d t; rfl
  | cons id rest ih =>
    intro d t
    rw [List.foldl_cons]
    unfold markRays
    dsimp only
    by_cases h1 : d + o ≥ 1
    · rw [if_pos h1, if_pos h1]
      by_cases h2 : s = false ∨ cloud.times.getD id default < mk.first_intersection_time ∨
          cloud.times.getD id default > mk.last_intersection_time
      · rw [if_pos h2, ih, if_pos ((rayEligible_iff _ _ _ _ _).mpr h2)]
      · rw [if_neg h2, ih, if_neg (fun h => h2 ((rayEligible_iff _ _ _ _ _).mp h))]
    · rw [if_neg h1, if_neg h1, ih]

/-- The index loop of lines 587-606 of the update pass is the marking loop `markRays` on
the pass-through ids of the mark. -/
theorem updateMarkStep_fold (cloud : Cloud) (s : Bool) (mk : EllipsoidMark) (o : ℚ)
    (t : List Bool) :
    ((List.range mk.pass_through_ids.length).foldl (updateMarkStep cloud s mk o) (0, t)).2 =
      markRays cloud.times s mk.first_intersection_time mk.last_intersection_time o 0
        mk.pass_through_ids t := by
  rw [← updateMarkLoop_eq cloud s mk o mk.pass_through_ids 0 t]
  conv_rhs => rw [← map_getD_range (default : Nat) mk.pass_through_ids, List.foldl_map]
  rfl

/-- The counting step of the update pass, lines 507-544, is `countBeforeAfter` on the
statistics of the mark. -/
theorem updateBody_counted (e : Ellipsoid) (cloud : Cloud) (s : Bool) (mk : EllipsoidMark) :
    (if s = true then
        ((({ ({ e with num_gone := mk.pass_through_ids.length } : Ellipsoid) with
            opacity := ((mk.hits : ℚ) + unbiasEpsilon - 1) /
              ((mk.hits : ℚ) + unbiasEpsilon - 1 +
                (updateCountLoop cloud mk mk.pass_through_ids (0, 0, 0)).2.2),
            num_gone := (updateCountLoop cloud mk mk.pass_through_ids (0, 0, 0)).1 +
              (updateCountLoop cloud mk mk.pass_through_ids (0, 0, 0)).2.1 } : Ellipsoid),
          (updateCountLoop cloud mk mk.pass_through_ids (0, 0, 0)).1,
          (updateCountLoop cloud mk mk.pass_through_ids (0, 0, 0)).2.1) :
            Ellipsoid × Nat × Nat)
      else if mk.pass_through_ids.length > 0 then
        if cloud.times.getD (mk.pass_through_ids.getD 0 default) default > e.time then
          (e, 0, mk.pass_through_ids.length)
        else (e, mk.pass_through_ids.length, 0)
      else (e, 0, 0)) =
    ((countBeforeAfter e cloud s mk.stats).ellipsoid,
      (countBeforeAfter e cloud s mk.stats).num_before,
      (countBeforeAfter e cloud s mk.stats).num_after) := by
  have hc := updateCountLoop_eq cloud mk mk.pass_through_ids ⟨0, 0, 0⟩
  unfold countBeforeAfter countPassThrough EllipsoidMark.stats
  dsimp only
  cases s with
  | true =>
    rw [if_pos rfl, if_pos rfl, hc]
  | false =>
    simp only [Bool.false_eq_true, if_false]
    by_cases h1 : mk.pass_through_ids.length > 0
    · simp only [h1, if_true]
      by_cases h2 : cloud.times.getD (mk.pass_through_ids.getD 0 default) default > e.time
      · simp only [h2, if_true]
      · simp only [h2, if_false]
    · simp only [h1, if_false]

/-- The policy of lines 546-576 of the update pass is `removeDecision`. -/
theorem updateBody_decision (mt : MergeType) (num_before num_after : Nat) (sl : ℚ) :
    (if mt = MergeType.Oldest ∨ mt = MergeType.Newest then
        if ((max num_before num_after : Nat) : ℚ) < sl then none
        else if mt = MergeType.Oldest then some (decide ((num_before : ℚ) ≥ sl))
        else if mt = MergeType.Newest then some (decide ((num_after : ℚ) ≥ sl))
        else some false
      else
        if ((num_before + num_after : Nat) : ℚ) < sl then none
        else some (decide (mt = MergeType.Mininum))) =
      removeDecision mt num_before num_after sl := by
  unfold removeDecision
  cases mt <;> simp

/-- The body of the update loop written from lines 495-607 alone is the function
`updateClassify` that `updateEllipsoid` applies to the statistics of the mark. -/
theorem updateBody_eq_updateClassify (e : Ellipsoid) (t : List Bool) (cloud : Cloud) (T : ℚ)
    (mt : MergeType) (s : Bool) (mk : EllipsoidMark) :
    updateBody e t cloud T mt s mk = updateClassify e t cloud T mt s mk.stats := by
  have ho : (if mk.hits + mk.pass_through_ids.length = 0 ∨ s = true then
        ({ e with opacity := (mk.hits : ℚ) /
            ((mk.hits : ℚ) + (mk.pass_through_ids.length : ℚ)) } : Ellipsoid)
      else e) = updateOpacity e s mk.stats := rfl
  cases hr : updateEarlyReturn (updateOpacity e s mk.stats) T mk.stats
  · have hcond : ¬ (mk.hits + mk.pass_through_ids.length = 0 ∨
        (updateOpacity e s mk.stats).opacity = 0 ∨ T = 0) := by
      intro h
      have h2 : updateEarlyReturn (updateOpacity e s mk.stats) T mk.stats = true :=
        decide_eq_true h
      rw [hr] at h2
      exact Bool.false_ne_true h2
    rw [updateClassify_late _ _ _ _ _ _ _ hr]
    unfold updateBody
    dsimp only
    rw [ho, if_neg hcond]
    generalize updateOpacity e s mk.stats = e1
    rw [updateBody_counted e1 cloud s mk]
    dsimp only
    rw [updateBody_decision, updateMarkStep_fold]
    unfold applyPolicy sequenceLength
    rfl
  · have hcond : mk.hits + mk.pass_through_ids.length = 0 ∨
        (updateOpacity e s mk.stats).opacity = 0 ∨ T = 0 := of_decide_eq_true hr
    rw [updateClassify_early _ _ _ _ _ _ _ hr]
    unfold updateBody
    dsimp only
    rw [ho, if_pos hcond]

/-- The update step of the ellipse-grid strategy for ellipsoid `i` (lines 485-607) sorts the
pass-through ids of the mark and applies `updateBody`. -/
theorem updateEllipsoid_eq_body (cloud : Cloud) (s : Bool) (f : TransientFilter) (i : Nat) :
    updateEllipsoid cloud s f i =
      { f with
        ellipsoids_marks_ :=
          f.ellipsoids_marks_.set i (f.ellipsoids_marks_.getD i default).sortPassThroughIds
        ellipsoids_ := f.ellipsoids_.set i
          (updateBody (f.ellipsoids_.getD i default) f.transient_marks_ cloud
            f.config_.num_rays_filter_threshold f.config_.merge_type s
            (f.ellipsoids_marks_.getD i default).sortPassThroughIds).1
        transient_marks_ :=
          (updateBody (f.ellipsoids_.getD i default) f.transient_marks_ cloud
            f.config_.num_rays_filter_threshold f.config_.merge_type s
            (f.ellipsoids_marks_.getD i default).sortPassThroughIds).2 } := by
  rw [updateBody_eq_updateClassify]
  rfl

/-- C29: in self-transient mode the body of the update loop of the ellipse-grid strategy
(`updateBody`, lines 495-607) and the classification part of
`EllipsoidTransientMarker::mark` (`markClassify`, lines 151-266) give, from the same
ellipsoid, ray marks, hits count, pass-through list, first and last intersection time,
threshold and merge type, the same opacity, `num_gone`, transient flag and ray marks; the
ellipsoids they return differ at most in the field `num_rays`, which only `mark` writes
(line 152).  Holds for every ellipsoid, transient or not. -/
theorem strategies_same_classifier (e : Ellipsoid) (t : List Bool) (cloud : Cloud) (T : ℚ)
    (mt : MergeType) (mk : EllipsoidMark) :
    (markClassify e t cloud T mt true mk.stats).1.opacity =
      (updateBody e t cloud T mt true mk).1.opacity ∧
    (markClassify e t cloud T mt true mk.stats).1.num_gone =
      (updateBody e t cloud T mt true mk).1.num_gone ∧
    (markClassify e t cloud T mt true mk.stats).1.transient =
      (updateBody e t cloud T mt true mk).1.transient ∧
    (markClassify e t cloud T mt true mk.stats).2 = (updateBody e t cloud T mt true mk).2 ∧
    (markClassify e t cloud T mt true mk.stats).1 =
      (updateBody e t cloud T mt true mk).1.withNumRays
        (mk.hits + mk.pass_through_ids.length) ∧
    (updateBody e t cloud T mt true mk).1.num_rays = e.num_rays := by
  rw [updateBody_eq_updateClassify]
  have h := markClassify_self_eq e t cloud T mt mk.stats
  have hf := withNumRays_fields (updateClassify e t cloud T mt true mk.stats).1
    (mk.hits + mk.pass_through_ids.length)
  have h1 : (markClassify e t cloud T mt true mk.stats).1 =
      (updateClassify e t cloud T mt true mk.stats).1.withNumRays
        (mk.hits + mk.pass_through_ids.length) := by rw [h]; rfl
  have h2 : (markClassify e t cloud T mt true mk.stats).2 =
      (updateClassify e t cloud T mt true mk.stats).2 := by rw [h]
  refine ⟨?_, ?_, ?_, h2, h1, ?_⟩
  · rw [h1]; exact hf.1
  · rw [h1]; exact hf.2.1
  · rw [h1]; exact hf.2.2.1
  · cases hr : updateEarlyReturn (updateOpacity e true mk.stats) T mk.stats
    · rw [updateClassify_late _ _ _ _ _ _ _ hr, (applyPolicy_fields _ _ _ _ _ _ _).2.2,
        countBeforeAfter_numRays, updateOpacity_numRays]
    · rw [updateClassify_early _ _ _ _ _ _ _ hr, updateOpacity_numRays]

/-- Instance of C29 on the statistics of the ellipsoid of ray 1 of `passCloud` (one hit at
time 5, pass-through rays 0, 2 and 3), merge type Maximum, threshold 5/4: both paths keep
the ellipsoid, set `num_gone` to 3 and mark the rays 0, 2 and 3. -/
theorem strategies_same_classifier_witness :
    (updateBody passEllipsoid passMarks passCloud (5 / 4) MergeType.Maximum true
      ⟨1, 1, 5, 5, [0, 2, 3]⟩).2 = [true, false, true, true] ∧
    (markClassify passEllipsoid passMarks passCloud (5 / 4) MergeType.Maximum true
      (EllipsoidMark.stats ⟨1, 1, 5, 5, [0, 2, 3]⟩)).2 = [true, false, true, true] ∧
    (updateBody passEllipsoid passMarks passCloud (5 / 4) MergeType.Maximum true
      ⟨1, 1, 5, 5, [0, 2, 3]⟩).1.num_gone = 3 ∧
    (markClassify passEllipsoid passMarks passCloud (5 / 4) MergeType.Maximum true
      (EllipsoidMark.stats ⟨1, 1, 5, 5, [0, 2, 3]⟩)).2 =
      (updateBody passEllipsoid passMarks passCloud (5 / 4) MergeType.Maximum true
        ⟨1, 1, 5, 5, [0, 2, 3]⟩).2 :=
  ⟨by decide!, by decide!, by decide!,
    (strategies_same_classifier passEllipsoid passMarks passCloud (5 / 4) MergeType.Maximum
      ⟨1, 1, 5, 5, [0, 2, 3]⟩).2.2.2.1⟩

/-! ## The output clouds as copies of input rays -/

/-- C3: after `finaliseFilter` on a filter whose output clouds are empty (as `clear`
leaves them), with at most one ellipsoid per ray of a well-formed cloud, the transient
cloud holds the input rays with the ids routed to it (`transientIds`: the ids whose
ellipsoid is transient or whose ray mark is set) and the fixed cloud the input rays with
the other ids (`fixedIds`), each in increasing order of the ids: output ray `k` has the
start, end and time of the input ray with the `k`-th routed id, and its colour too when
`colour_cloud` is false; every array of an output cloud is a subsequence of the array of
the input. -/
theorem finaliseFilter_ordered_copy (f : TransientFilter) (cloud : Cloud) (marks : List Bool)
    (hw : cloud.WellFormed) (hn : f.ellipsoids_.length ≤ cloud.rayCount)
    (ht : f.transient_ = Cloud.empty) (hf : f.fixed_ = Cloud.empty) :
    Cloud.OrderedCopyAt (!f.config_.colour_cloud) (transientIds f marks)
      (finaliseFilter f cloud marks).transient_ cloud ∧
    Cloud.OrderedCopyAt (!f.config_.colour_cloud) (fixedIds f marks)
      (finaliseFilter f cloud marks).fixed_ cloud ∧
    (∀ i, i ∈ transientIds f marks ↔
      (i < f.ellipsoids_.length ∧
        ((f.ellipsoids_.getD i default).transient = true ∨ marks.getD i false = true))) ∧
    (∀ i, i ∈ fixedIds f marks ↔
      (i < f.ellipsoids_.length ∧
        ¬ ((f.ellipsoids_.getD i default).transient = true ∨ marks.getD i false = true))) ∧
    (∀ k, k < (transientIds f marks).length →
      (finaliseFilter f cloud marks).transient_.starts.getD k default =
        cloud.starts.getD ((transientIds f marks).getD k 0) default ∧
      (finaliseFilter f cloud marks).transient_.ends.getD k default =
        cloud.ends.getD ((transientIds f marks).getD k 0) default ∧
      (finaliseFilter f cloud marks).transient_.times.getD k default =
        cloud.times.getD ((transientIds f marks).getD k 0) default ∧
      (f.config_.colour_cloud = false →
        (finaliseFilter f cloud marks).transient_.colours.getD k default =
          cloud.colours.getD ((transientIds f marks).getD k 0) default)) ∧
    (∀ k, k < (fixedIds f marks).length →
      (finaliseFilter f cloud marks).fixed_.starts.getD k default =
        cloud.starts.getD ((fixedIds f marks).getD k 0) default ∧
      (finaliseFilter f cloud marks).fixed_.ends.getD k default =
        cloud.ends.getD ((fixedIds f marks).getD k 0) default ∧
      (finaliseFilter f cloud marks).fixed_.times.getD k default =
        cloud.times.getD ((fixedIds f marks).getD k 0) default ∧
      (f.config_.colour_cloud = false →
        (finaliseFilter f cloud marks).fixed_.colours.getD k default =
          cloud.colours.getD ((fixedIds f marks).getD k 0) default)) := by
  obtain ⟨_, _, h3, h4⟩ := finaliseFilter_eq f cloud marks
  rw [h3, h4, ht, hf, Cloud.empty_append, Cloud.empty_append]
  have hcol : (!f.config_.colour_cloud) = true →
      finaliseColour f cloud = fun i => cloud.colours.getD i default := by
    intro h
    funext i
    simp only [Bool.not_eq_true'] at h
    simp [finaliseColour, h]
  have hpos : ∀ (ids : List Nat) (k : Nat), k < ids.length →
      (cloud.select (finaliseColour f cloud) ids).starts.getD k default =
        cloud.starts.getD (ids.getD k 0) default ∧
      (cloud.select (finaliseColour f cloud) ids).ends.getD k default =
        cloud.ends.getD (ids.getD k 0) default ∧
      (cloud.select (finaliseColour f cloud) ids).times.getD k default =
        cloud.times.getD (ids.getD k 0) default ∧
      (f.config_.colour_cloud = false →
        (cloud.select (finaliseColour f cloud) ids).colours.getD k default =
          cloud.colours.getD (ids.getD k 0) default) := by
    intro ids k hk
    have hg : ∀ {β : Type} (d : β) (g : Nat → β), (ids.map g).getD k d = g (ids.getD k 0) := by
      intro β d g
      rw [List.getD_eq_getElem?_getD, List.getD_eq_getElem?_getD, List.getElem?_map,
        List.getElem?_eq_getElem hk]
      rfl
    refine ⟨hg _ _, hg _ _, hg _ _, fun hc => ?_⟩
    have h2 := hcol (by rw [hc]; rfl)
    unfold Cloud.select
    dsimp only
    rw [h2]
    exact hg _ _
  refine ⟨orderedCopyAt_select cloud _ _ _ _ hw hn hcol,
    orderedCopyAt_select cloud _ _ _ _ hw hn hcol, ?_, ?_, hpos _, hpos _⟩
  · intro i
    simp [transientIds, finaliseIsTransient, List.mem_filter, List.mem_range]
  · intro i
    simp [fixedIds, finaliseIsTransient, List.mem_filter, List.mem_range]

/-- Instance of C3: with the ray marks `[true, false, true]` and no transient ellipsoid the
rays 0 and 2 of `sampleCloud` are routed to the transient cloud and ray 1 to the fixed
cloud. -/
theorem finaliseFilter_ordered_copy_witness :
    sampleCloud.WellFormed ∧ sampleFilter.ellipsoids_.length ≤ sampleCloud.rayCount ∧
    sampleFilter.transient_ = Cloud.empty ∧ sampleFilter.fixed_ = Cloud.empty ∧
    transientIds sampleFilter [true, false, true] = [0, 2] ∧
    fixedIds sampleFilter [true, false, true] = [1] ∧
    (finaliseFilter sampleFilter sampleCloud [true, false, true]).transient_.ends =
      [⟨3/4, 3/4, 3/4⟩, ⟨3/2, 7/4, 3/4⟩] ∧
    (finaliseFilter sampleFilter sampleCloud [true, false, true]).fixed_.ends =
      [⟨7/4, 3/2, 5/4⟩] ∧
    Cloud.OrderedCopyAt (!sampleFilter.config_.colour_cloud)
      (transientIds sampleFilter [true, false, true])
      (finaliseFilter sampleFilter sampleCloud [true, false, true]).transient_ sampleCloud ∧
    Cloud.OrderedCopyAt (!sampleFilter.config_.colour_cloud)
      (fixedIds sampleFilter [true, false, true])
      (finaliseFilter sampleFilter sampleCloud [true, false, true]).fixed_ sampleCloud :=
  ⟨sampleCloud_wellFormed, by decide!, rfl, rfl, by decide!, by decide!, by decide!,
    by decide!,
    (finaliseFilter_ordered_copy sampleFilter sampleCloud [true, false, true]
      sampleCloud_wellFormed (by decide!) rfl rfl).1,
    (finaliseFilter_ordered_copy sampleFilter sampleCloud [true, false, true]
      sampleCloud_wellFormed (by decide!) rfl rfl).2.1⟩

/-! ## Step 1 of the classifier in the two strategies -/

end ray
